import Mathlib

/-! Trilinos: `panzer::BasisValues2`, `Domi::regularizeAxisSizes` and
`ROL::GradientAlgorithm_B`.

A shallow embedding of

* `packages/panzer/disc-fe/src/Panzer_BasisValues2.cpp` (the basis-evaluation engine),
* `packages/domi/src/Domi_Utils.cpp` (`regularizeAxisSizes`), and
* `packages/rol/src/algorithm/TypeB/ROL_GradientAlgorithm_B_Def.hpp` (projected gradient
  descent with a backtracking line search),

followed by theorems about them.

Conventions of the embedding.

* A multidimensional array (`PHX::MDField`, `Kokkos::DynRankView`) is a list of extents
  together with a total map from multi-indices to scalars.  Memory layout is not modelled,
  and `operator()` does not check bounds (as in a release build): an access outside the
  extents, undefined in C++, reads or writes the total map.
* The scalar type `S` of `BasisValues2` is a parameter; only its multiplication and a zero
  (the value of a freshly allocated view) are used.
* A C++ `for (int i = 0; i < n; ++i)` is `forLoop n body`.
* A member function of `BasisValues2` takes the object as `self` and returns an `Outcome`:
  either normal completion, or a raised exception together with the object state at the
  moment of the `throw`.
* C++ `int` counters and array extents are natural numbers.  The `int` data of
  `regularizeAxisSizes` are integers in the range of a 32-bit `int`; the product accumulated
  in `block` wraps modulo `2^32` (`wrapInt`), `%` and `/` are the truncating `Int.tmod` and
  `Int.tdiv`, and a division that C++ leaves undefined gives `Result.undefinedDivision`.
* The scalar type `Real` of `GradientAlgorithm_B` is a parameter `R` with uninterpreted
  `*`, `-`, `/` and uninterpreted decidable comparisons `<`, `<=`, `==`, of which no law is
  assumed (a floating-point type with NaN is an instance); vectors, objective, projection
  and status test are parameters.  A `while` loop is `whileLoop` with a bound on the number
  of passes, and the theorems show that the bound `maxit_` suffices.
-/

set_option autoImplicit false

/-! ## Control flow -/

/-- Exceptions raised by the embedded code. `TeuchosAssert` is `TEUCHOS_ASSERT(false)`;
`logic_error what` is `TEUCHOS_TEST_FOR_EXCEPTION(_, std::logic_error, what)`. -/
inductive Exception where
  | TeuchosAssert : Exception
  | logic_error (what : String) : Exception
  deriving DecidableEq, Repr

/-- Result of running a member function: it returned, or it threw with the object in the
state reached at the `throw`. -/
inductive Outcome (σ : Type) where
  | ok (s : σ) : Outcome σ
  | raised (e : Exception) (s : σ) : Outcome σ

namespace Outcome

variable {σ τ : Type}

/-- The object state at the end of the run (normal or exceptional). -/
def state : Outcome σ → σ
  | ok s => s
  | raised _ s => s

/-- The exception raised, if any. -/
def exception : Outcome σ → Option Exception
  | ok _ => none
  | raised e _ => some e

/-- True when the run ended normally. -/
def returned : Outcome σ → Bool
  | ok _ => true
  | raised _ _ => false

/-- Sequencing: statements after a `throw` are not executed. -/
def bind (o : Outcome σ) (k : σ → Outcome σ) : Outcome σ :=
  match o with
  | ok s => k s
  | raised e s => raised e s

/-- Apply a function to the carried state. -/
def map (f : σ → τ) : Outcome σ → Outcome τ
  | ok s => ok (f s)
  | raised e s => raised e (f s)

end Outcome

/-- Loop `for (int i = 0; i < n; ++i) body(i)` on a state. -/
def forLoop {σ : Type} (n : Nat) (body : Nat → σ → σ) (s : σ) : σ :=
  (List.range n).foldl (fun acc i => body i acc) s

/-- Loop `for (i = 0; i < n; ++i) body(i)` whose body may throw; a `throw` leaves the loop. -/
def forLoopE {σ : Type} (n : Nat) (body : Nat → σ → Outcome σ) (s : σ) : Outcome σ :=
  (List.range n).foldl (fun acc i => acc.bind (body i)) (Outcome.ok s)

/-- A perfect loop nest with the given bounds, the body receiving the list of loop indices,
outermost first.  `nest [a, b] body` unfolds to
`forLoop a (fun i => forLoop b (fun j => body [i, j]))`. -/
def nest {σ : Type} : List Nat → (List Nat → σ → σ) → σ → σ
  | [], body, s => body [] s
  | n :: ns, body, s => forLoop n (fun i acc => nest ns (fun rest => body (i :: rest)) acc) s

/-- Multi-index `idx` lies within the loop bounds / extents, position by position. -/
def inRange : List Nat → List Nat → Bool
  | [], [] => true
  | i :: idx, n :: bounds => decide (i < n) && inRange idx bounds
  | _, _ => false

namespace panzer

/-! ## Arrays -/

/-- Multidimensional array: `PHX::MDField` / `Kokkos::DynRankView`. -/
structure MDField (S : Type) where
  extents : List Nat
  data : List Nat → S

namespace MDField

variable {S : Type}

/-- Extent of the array along axis `i`: `dimension(i)`, `extent_int(i)`. -/
def dimension (f : MDField S) (i : Nat) : Nat := f.extents.getD i 0

/-- Read access `f(i0, i1, ...)`. -/
def get (f : MDField S) (idx : List Nat) : S := f.data idx

/-- Write access `f(i0, i1, ...) = v`. -/
def set (f : MDField S) (idx : List Nat) (v : S) : MDField S :=
  { f with data := fun j => if j = idx then v else f.data j }

end MDField

/-- Modelled from the spec: `MDFieldArrayFactory::buildArray` / `buildStaticArray`
(`Panzer_CommonArrayFactories.hpp` is not among the sources).  It returns an array with the
requested extents; a fresh view is zero-filled. -/
def buildArray {S : Type} [Zero S] (dims : List Nat) : MDField S :=
  { extents := dims, data := fun _ => 0 }

/-- `Kokkos::deep_copy(dst, src)`: the entries of `src` are copied, `dst` keeps its shape. -/
def deep_copy {S : Type} (dst src : MDField S) : MDField S :=
  { dst with data := src.data }

/-! ## Basis description -/

/-- Modelled from the spec: `PureBasis::EElementSpace` (`Panzer_PureBasis.hpp` is not among
the sources): the function spaces H(grad), H(curl), H(div) and constant; `OTHER` stands for
any enumerator value besides these four. -/
inductive EElementSpace where
  | HGRAD | HCURL | HDIV | CONST | OTHER
  deriving DecidableEq, Repr

/-- Operator types of `Intrepid2` used to query the reference tables. -/
inductive EOperator where
  | OPERATOR_VALUE | OPERATOR_GRAD | OPERATOR_CURL | OPERATOR_DIV
  deriving DecidableEq, Repr

/-- The accessors of `panzer::PureBasis` read by `BasisValues2`. -/
structure PureBasis where
  elementSpace : EElementSpace
  dimension : Nat
  cardinality : Nat
  numCells : Nat

/-- The accessors of `panzer::BasisIRLayout` read by `BasisValues2`. -/
structure BasisIRLayout where
  basis : PureBasis
  numPoints : Nat
  cardinality : Nat
  dimension : Nat
  numCells : Nat

/-- Modelled from the spec: the `Intrepid2::Basis` object, the external collaborator that
provides the basis-function reference tables queried by operator type.
`refValue op b x comp` is the value under operator `op` of basis function `b` at the point
with coordinate list `x`, component `comp` (`[]` for a scalar, `[d]` for a vector). -/
structure IntrepidBasis (S : Type) where
  refValue : EOperator → Nat → List S → List Nat → S
  dofCoord : Nat → Nat → S
  requireOrientation : Bool

/-- Coordinates of point number `ip` of a rank-2 `(IP, Dim)` point array. -/
def pointOf {S : Type} (points : MDField S) (ip : Nat) : List S :=
  (List.range (points.dimension 1)).map (fun d => points.get [ip, d])

/-- Modelled from the spec: `Intrepid2::Basis::getValues(output, points, op)`: every entry
`output(b, ip, ...)` of the output array receives the value under `op` of basis function
`b` at point `ip` of `points`. -/
def IntrepidBasis.getValues {S : Type} (basis : IntrepidBasis S) (output points : MDField S)
    (op : EOperator) : MDField S :=
  { output with
    data := fun idx =>
      match idx with
      | b :: ip :: comp =>
        if inRange idx output.extents then basis.refValue op b (pointOf points ip) comp
        else output.data idx
      | _ => output.data idx }

/-- Modelled from the spec: `Intrepid2::Basis::getDofCoords(output)`: entry `output(i, j)`
receives coordinate `j` of degree of freedom `i`. -/
def IntrepidBasis.getDofCoords {S : Type} (basis : IntrepidBasis S) (output : MDField S) :
    MDField S :=
  { output with
    data := fun idx =>
      match idx with
      | [i, j] => if inRange idx output.extents then basis.dofCoord i j else output.data idx
      | _ => output.data idx }

/-- The `Intrepid2` pull-back and mapping routines called by `BasisValues2`
(`FunctionSpaceTools`, `CellTools`); they are external, so each is a parameter taking the
output array first and returning its new contents. -/
structure Intrepid2Tools (S : Type) where
  HGRADtransformVALUE : MDField S → MDField S → MDField S
  HCURLtransformVALUE : MDField S → MDField S → MDField S → MDField S
  HDIVtransformVALUE : MDField S → MDField S → MDField S → MDField S → MDField S
  HGRADtransformGRAD : MDField S → MDField S → MDField S → MDField S
  HDIVtransformDIV : MDField S → MDField S → MDField S → MDField S
  HCURLtransformCURL : MDField S → MDField S → MDField S → MDField S → MDField S
  applyFieldSigns : MDField S → MDField S → MDField S
  mapToPhysicalFrame : MDField S → MDField S → MDField S → MDField S

/-- Modelled from the spec: `Intrepid2::FunctionSpaceTools::multiplyMeasure(out, measure, in)`,
which produces the weighted (quadrature-integrated) version of a physical array:
`out(c, b, p, ...) = measure(c, p) * in(c, b, p, ...)` for every entry of `out`. -/
def multiplyMeasure {S : Type} [Mul S] (output measure input : MDField S) : MDField S :=
  { output with
    data := fun idx =>
      match idx with
      | c :: _ :: p :: _ =>
        if inRange idx output.extents then measure.get [c, p] * input.get idx
        else output.data idx
      | _ => output.data idx }

/-! ## The `BasisValues2` object -/

/-- Data members of `panzer::BasisValues2<Scalar>`. -/
structure BasisValues2 (S : Type) where
  basis_ref_scalar : MDField S
  basis_scalar : MDField S
  basis_ref_vector : MDField S
  basis_vector : MDField S
  grad_basis_ref : MDField S
  grad_basis : MDField S
  curl_basis_ref_scalar : MDField S
  curl_basis_scalar : MDField S
  curl_basis_ref_vector : MDField S
  curl_basis_vector : MDField S
  div_basis_ref : MDField S
  div_basis : MDField S
  weighted_basis_scalar : MDField S
  weighted_basis_vector : MDField S
  weighted_grad_basis : MDField S
  weighted_curl_basis_scalar : MDField S
  weighted_curl_basis_vector : MDField S
  weighted_div_basis : MDField S
  basis_coordinates_ref : MDField S
  basis_coordinates : MDField S
  basis_layout : BasisIRLayout
  intrepid_basis : IntrepidBasis S
  compute_derivatives : Bool
  build_weighted : Bool
  references_evaluated : Bool

/-- `BasisValues2::getElementSpace`. -/
def BasisValues2.getElementSpace {S : Type} (self : BasisValues2 S) : EElementSpace :=
  self.basis_layout.basis.elementSpace

/-! ## `evaluateValuesCV` -/

section CV

variable {S : Type} [Zero S]

/-- Lines 234-236: copy the integration points of cell `icell` into `dyn_cub_points`. -/
def cvCopyPoints (num_ip num_dim : Nat) (cell_cub_points : MDField S) (icell : Nat)
    (dyn_cub_points : MDField S) : MDField S :=
  forLoop num_ip (fun ip acc =>
    forLoop num_dim (fun d acc =>
      acc.set [ip, d] (cell_cub_points.get [icell, ip, d])) acc) dyn_cub_points

/-- Lines 239-248 and 252-261 (the same text in the CONST and the HGRAD block): evaluate the
reference values at the points of the cell and transfer them to `basis_scalar(icell,.,.)`. -/
def cvScalarValues (self : BasisValues2 S) (dyn_cub_points : MDField S) (icell : Nat) :
    BasisValues2 S :=
  let num_ip := self.basis_layout.numPoints
  let num_card := self.basis_layout.cardinality
  let dyn_basis_ref_scalar :=
    self.intrepid_basis.getValues (buildArray [num_card, num_ip]) dyn_cub_points
      EOperator.OPERATOR_VALUE
  { self with
    basis_scalar :=
      forLoop num_card (fun b acc =>
        forLoop num_ip (fun ip acc =>
          acc.set [icell, b, ip] (dyn_basis_ref_scalar.get [b, ip])) acc) self.basis_scalar }

/-- Copy of `jac_inv(icell,.,.,.)` (or `jac`) into a one-cell array: lines 275-278, 303-306. -/
def cvCopyJac (num_ip num_dim : Nat) (jac : MDField S) (icell : Nat) (dyn_jac : MDField S) :
    MDField S :=
  let cellInd := 0
  forLoop num_ip (fun ip acc =>
    forLoop num_dim (fun d1 acc =>
      forLoop num_dim (fun d2 acc =>
        acc.set [cellInd, ip, d1, d2] (jac.get [icell, ip, d1, d2])) acc) acc) dyn_jac

/-- Copy of `jac_det(icell,.)` into a one-cell array: lines 329-330. -/
def cvCopyDet (num_ip : Nat) (jac_det : MDField S) (icell : Nat) (dyn_jac_det : MDField S) :
    MDField S :=
  let cellInd := 0
  forLoop num_ip (fun ip acc => acc.set [cellInd, ip] (jac_det.get [icell, ip])) dyn_jac_det

/-- Copy of both `jac_det(icell,.)` and `jac(icell,.,.,.)` in one loop over the points:
lines 354-360 and 389-395.  The state is the pair `(dyn_jac_det, dyn_jac)`. -/
def cvCopyDetJac (num_ip num_dim : Nat) (jac_det jac : MDField S) (icell : Nat)
    (dyn : MDField S × MDField S) : MDField S × MDField S :=
  let cellInd := 0
  forLoop num_ip (fun ip acc =>
    let det := acc.1.set [cellInd, ip] (jac_det.get [icell, ip])
    (det,
      forLoop num_dim (fun d1 acc2 =>
        forLoop num_dim (fun d2 acc2 =>
          acc2.set [cellInd, ip, d1, d2] (jac.get [icell, ip, d1, d2])) acc2) acc.2)) dyn

/-- Transfer of a one-cell rank-3 array into cell `icell` of a member array. -/
def cvStore3 (num_card num_ip : Nat) (icell : Nat) (dyn target : MDField S) : MDField S :=
  forLoop num_card (fun b acc =>
    forLoop num_ip (fun ip acc =>
      acc.set [icell, b, ip] (dyn.get [0, b, ip])) acc) target

/-- Transfer of a one-cell rank-4 array into cell `icell` of a member array. -/
def cvStore4 (num_card num_ip num_dim : Nat) (icell : Nat) (dyn target : MDField S) :
    MDField S :=
  forLoop num_card (fun b acc =>
    forLoop num_ip (fun ip acc =>
      forLoop num_dim (fun d acc =>
        acc.set [icell, b, ip, d] (dyn.get [0, b, ip, d])) acc) acc) target

/-- Lines 263-289: gradients of an HGRAD basis on cell `icell`. -/
def cvGrad (tools : Intrepid2Tools S) (self : BasisValues2 S) (dyn_cub_points jac_inv : MDField S)
    (icell : Nat) : BasisValues2 S :=
  let num_ip := self.basis_layout.numPoints
  let num_card := self.basis_layout.cardinality
  let num_dim := self.basis_layout.dimension
  let one_cell := 1
  let dyn_grad_basis_ref : MDField S := buildArray [num_card, num_ip, num_dim]
  let dyn_grad_basis : MDField S := buildArray [one_cell, num_card, num_ip, num_dim]
  let dyn_jac_inv : MDField S := buildArray [one_cell, num_ip, num_dim, num_dim]
  let dyn_grad_basis_ref :=
    self.intrepid_basis.getValues dyn_grad_basis_ref dyn_cub_points EOperator.OPERATOR_GRAD
  let dyn_jac_inv := cvCopyJac num_ip num_dim jac_inv icell dyn_jac_inv
  let dyn_grad_basis := tools.HGRADtransformGRAD dyn_grad_basis dyn_jac_inv dyn_grad_basis_ref
  { self with grad_basis := cvStore4 num_card num_ip num_dim icell dyn_grad_basis self.grad_basis }

/-- Lines 251-290: the HGRAD block of the cell loop. -/
def cvHGRAD (tools : Intrepid2Tools S) (self : BasisValues2 S) (dyn_cub_points jac_inv : MDField S)
    (icell : Nat) : BasisValues2 S :=
  let self := cvScalarValues self dyn_cub_points icell
  if self.compute_derivatives then cvGrad tools self dyn_cub_points jac_inv icell else self

/-- Lines 317-340: scalar curl of a two-dimensional HCURL basis on cell `icell`. -/
def cvCurl2D (tools : Intrepid2Tools S) (self : BasisValues2 S)
    (dyn_cub_points jac_det : MDField S) (icell : Nat) : BasisValues2 S :=
  let num_ip := self.basis_layout.numPoints
  let num_card := self.basis_layout.cardinality
  let one_cell := 1
  let dyn_curl_basis_ref_scalar : MDField S := buildArray [num_card, num_ip]
  let dyn_curl_basis_scalar : MDField S := buildArray [one_cell, num_card, num_ip]
  let dyn_jac_det : MDField S := buildArray [one_cell, num_ip]
  let dyn_curl_basis_ref_scalar :=
    self.intrepid_basis.getValues dyn_curl_basis_ref_scalar dyn_cub_points
      EOperator.OPERATOR_CURL
  let dyn_jac_det := cvCopyDet num_ip jac_det icell dyn_jac_det
  let dyn_curl_basis_scalar :=
    tools.HDIVtransformDIV dyn_curl_basis_scalar dyn_jac_det dyn_curl_basis_ref_scalar
  { self with
    curl_basis_scalar := cvStore3 num_card num_ip icell dyn_curl_basis_scalar self.curl_basis_scalar }

/-- Lines 341-372: vector curl of a three-dimensional HCURL basis on cell `icell`. -/
def cvCurl3D (tools : Intrepid2Tools S) (self : BasisValues2 S)
    (dyn_cub_points jac jac_det : MDField S) (icell : Nat) : BasisValues2 S :=
  let num_ip := self.basis_layout.numPoints
  let num_card := self.basis_layout.cardinality
  let num_dim := self.basis_layout.dimension
  let one_cell := 1
  let dyn_curl_basis_ref : MDField S := buildArray [num_card, num_ip, num_dim]
  let dyn_curl_basis : MDField S := buildArray [one_cell, num_card, num_ip, num_dim]
  let dyn_jac_det : MDField S := buildArray [one_cell, num_ip]
  let dyn_jac : MDField S := buildArray [one_cell, num_ip, num_dim, num_dim]
  let dyn_curl_basis_ref :=
    self.intrepid_basis.getValues dyn_curl_basis_ref dyn_cub_points EOperator.OPERATOR_CURL
  let dyn := cvCopyDetJac num_ip num_dim jac_det jac icell (dyn_jac_det, dyn_jac)
  let dyn_curl_basis := tools.HCURLtransformCURL dyn_curl_basis dyn.2 dyn.1 dyn_curl_basis_ref
  { self with
    curl_basis_vector :=
      cvStore4 num_card num_ip num_dim icell dyn_curl_basis self.curl_basis_vector }

/-- Lines 291-374: the HCURL block of the cell loop. -/
def cvHCURL (tools : Intrepid2Tools S) (self : BasisValues2 S)
    (dyn_cub_points jac jac_det jac_inv : MDField S) (icell : Nat) : BasisValues2 S :=
  let num_ip := self.basis_layout.numPoints
  let num_card := self.basis_layout.cardinality
  let num_dim := self.basis_layout.dimension
  let dyn_basis_ref_vector : MDField S := buildArray [num_card, num_ip, num_dim]
  let dyn_basis_ref_vector :=
    self.intrepid_basis.getValues dyn_basis_ref_vector dyn_cub_points EOperator.OPERATOR_VALUE
  let one_cell := 1
  let dyn_basis_vector : MDField S := buildArray [one_cell, num_card, num_ip, num_dim]
  let dyn_jac_inv : MDField S := buildArray [one_cell, num_ip, num_dim, num_dim]
  let dyn_jac_inv := cvCopyJac num_ip num_dim jac_inv icell dyn_jac_inv
  let dyn_basis_vector := tools.HCURLtransformVALUE dyn_basis_vector dyn_jac_inv dyn_basis_ref_vector
  let self : BasisValues2 S :=
    { self with
      basis_vector := cvStore4 num_card num_ip num_dim icell dyn_basis_vector self.basis_vector }
  let self :=
    if self.compute_derivatives && decide (num_dim = 2) then
      cvCurl2D tools self dyn_cub_points jac_det icell
    else self
  if self.compute_derivatives && decide (num_dim = 3) then
    cvCurl3D tools self dyn_cub_points jac jac_det icell
  else self

/-- Lines 407-424: divergence of an HDIV basis on cell `icell`; `dyn_jac_det` is the array
filled earlier in the HDIV block. -/
def cvDiv (tools : Intrepid2Tools S) (self : BasisValues2 S)
    (dyn_cub_points dyn_jac_det : MDField S) (icell : Nat) : BasisValues2 S :=
  let num_ip := self.basis_layout.numPoints
  let num_card := self.basis_layout.cardinality
  let one_cell := 1
  let dyn_div_basis_ref : MDField S := buildArray [num_card, num_ip]
  let dyn_div_basis : MDField S := buildArray [one_cell, num_card, num_ip]
  let dyn_div_basis_ref :=
    self.intrepid_basis.getValues dyn_div_basis_ref dyn_cub_points EOperator.OPERATOR_DIV
  let dyn_div_basis := tools.HDIVtransformDIV dyn_div_basis dyn_jac_det dyn_div_basis_ref
  { self with div_basis := cvStore3 num_card num_ip icell dyn_div_basis self.div_basis }

/-- Lines 375-426: the HDIV block of the cell loop. -/
def cvHDIV (tools : Intrepid2Tools S) (self : BasisValues2 S)
    (dyn_cub_points jac jac_det : MDField S) (icell : Nat) : BasisValues2 S :=
  let num_ip := self.basis_layout.numPoints
  let num_card := self.basis_layout.cardinality
  let num_dim := self.basis_layout.dimension
  let dyn_basis_ref_vector : MDField S := buildArray [num_card, num_ip, num_dim]
  let dyn_basis_ref_vector :=
    self.intrepid_basis.getValues dyn_basis_ref_vector dyn_cub_points EOperator.OPERATOR_VALUE
  let one_cell := 1
  let dyn_basis_vector : MDField S := buildArray [one_cell, num_card, num_ip, num_dim]
  let dyn_jac : MDField S := buildArray [one_cell, num_ip, num_dim, num_dim]
  let dyn_jac_det : MDField S := buildArray [one_cell, num_ip]
  let dyn := cvCopyDetJac num_ip num_dim jac_det jac icell (dyn_jac_det, dyn_jac)
  let dyn_basis_vector := tools.HDIVtransformVALUE dyn_basis_vector dyn.2 dyn.1 dyn_basis_ref_vector
  let self : BasisValues2 S :=
    { self with
      basis_vector := cvStore4 num_card num_ip num_dim icell dyn_basis_vector self.basis_vector }
  if self.compute_derivatives then cvDiv tools self dyn_cub_points dyn.1 icell else self

/-- Lines 233-429: one pass of the loop over cells.  The loop state is the object together
with the local array `dyn_cub_points`, which is allocated once before the loop.  The CONST
block is an `if` of its own; the chain `if HGRAD / else if HCURL / else if HDIV / else`
follows it. -/
def cvCellBody (tools : Intrepid2Tools S) (cell_cub_points jac jac_det jac_inv : MDField S)
    (icell : Nat) (st : BasisValues2 S × MDField S) : Outcome (BasisValues2 S × MDField S) :=
  let self := st.1
  let num_ip := self.basis_layout.numPoints
  let num_dim := self.basis_layout.dimension
  let elmtspace := self.getElementSpace
  let dyn_cub_points := cvCopyPoints num_ip num_dim cell_cub_points icell st.2
  let self :=
    if elmtspace = EElementSpace.CONST then cvScalarValues self dyn_cub_points icell else self
  if elmtspace = EElementSpace.HGRAD then
    Outcome.ok (cvHGRAD tools self dyn_cub_points jac_inv icell, dyn_cub_points)
  else if elmtspace = EElementSpace.HCURL then
    Outcome.ok (cvHCURL tools self dyn_cub_points jac jac_det jac_inv icell, dyn_cub_points)
  else if elmtspace = EElementSpace.HDIV then
    Outcome.ok (cvHDIV tools self dyn_cub_points jac jac_det icell, dyn_cub_points)
  else Outcome.raised Exception.TeuchosAssert (self, dyn_cub_points)

/-- `BasisValues2::evaluateValuesCV(cell_cub_points, jac, jac_det, jac_inv)`, lines 212-431. -/
def evaluateValuesCV (tools : Intrepid2Tools S) (self : BasisValues2 S)
    (cell_cub_points jac jac_det jac_inv : MDField S) : Outcome (BasisValues2 S) :=
  let num_ip := self.basis_layout.numPoints
  let num_dim := self.basis_layout.dimension
  let num_cells := jac.dimension 0
  let dyn_cub_points : MDField S := buildArray [num_ip, num_dim]
  (forLoopE num_cells (cvCellBody tools cell_cub_points jac jac_det jac_inv)
    (self, dyn_cub_points)).map Prod.fst

end CV

/-! ## `evaluateReferenceValues` and `evaluateValues` -/

section Evaluate

variable {S : Type} [Zero S] [Mul S]

/-- Copy of a rank-2 array `src(b,ip)` into `target(b,ip)`: lines 457-459, 494-496, 517-519. -/
def copy2 (n0 n1 : Nat) (src target : MDField S) : MDField S :=
  forLoop n0 (fun b acc =>
    forLoop n1 (fun ip acc => acc.set [b, ip] (src.get [b, ip])) acc) target

/-- Copy of a rank-3 array `src(b,ip,d)` into `target(b,ip,d)`: lines 468-471, 482-485. -/
def copy3 (n0 n1 n2 : Nat) (src target : MDField S) : MDField S :=
  forLoop n0 (fun b acc =>
    forLoop n1 (fun ip acc =>
      forLoop n2 (fun d acc => acc.set [b, ip, d] (src.get [b, ip, d])) acc) acc) target

/-- Lines 449-473: reference values; the final `else` is `TEUCHOS_ASSERT(false)`. -/
def refValuesStage (self : BasisValues2 S) (dyn_cub_points : MDField S) :
    Outcome (BasisValues2 S) :=
  let num_quad := self.basis_layout.numPoints
  let num_dim := self.basis_layout.dimension
  let num_card := self.basis_layout.cardinality
  let elmtspace := self.getElementSpace
  if elmtspace = EElementSpace.HGRAD ∨ elmtspace = EElementSpace.CONST then
    let dyn_basis_ref_scalar :=
      self.intrepid_basis.getValues (buildArray [num_card, num_quad]) dyn_cub_points
        EOperator.OPERATOR_VALUE
    Outcome.ok { self with
      basis_ref_scalar := copy2 num_card num_quad dyn_basis_ref_scalar self.basis_ref_scalar }
  else if elmtspace = EElementSpace.HDIV ∨ elmtspace = EElementSpace.HCURL then
    let dyn_basis_ref_vector :=
      self.intrepid_basis.getValues (buildArray [num_card, num_quad, num_dim]) dyn_cub_points
        EOperator.OPERATOR_VALUE
    Outcome.ok { self with
      basis_ref_vector :=
        copy3 num_card num_quad num_dim dyn_basis_ref_vector self.basis_ref_vector }
  else Outcome.raised Exception.TeuchosAssert self

/-- Lines 475-520: reference derivatives. -/
def refDerivStage (self : BasisValues2 S) (dyn_cub_points : MDField S)
    (compute_derivatives : Bool) : BasisValues2 S :=
  let num_quad := self.basis_layout.numPoints
  let num_dim := self.basis_layout.dimension
  let num_card := self.basis_layout.cardinality
  let elmtspace := self.getElementSpace
  if elmtspace = EElementSpace.HGRAD ∧ compute_derivatives = true then
    let dyn_grad_basis_ref :=
      self.intrepid_basis.getValues (buildArray [num_card, num_quad, num_dim]) dyn_cub_points
        EOperator.OPERATOR_GRAD
    { self with
      grad_basis_ref := copy3 num_card num_quad num_dim dyn_grad_basis_ref self.grad_basis_ref }
  else if elmtspace = EElementSpace.HCURL ∧ compute_derivatives = true ∧ num_dim = 2 then
    let dyn_curl_basis_ref :=
      self.intrepid_basis.getValues (buildArray [num_card, num_quad]) dyn_cub_points
        EOperator.OPERATOR_CURL
    { self with
      curl_basis_ref_scalar :=
        copy2 num_card num_quad dyn_curl_basis_ref self.curl_basis_ref_scalar }
  else if elmtspace = EElementSpace.HCURL ∧ compute_derivatives = true ∧ num_dim = 3 then
    let dyn_curl_basis_ref :=
      self.intrepid_basis.getValues (buildArray [num_card, num_quad, num_dim]) dyn_cub_points
        EOperator.OPERATOR_CURL
    { self with
      curl_basis_ref_vector :=
        copy3 num_card num_quad num_dim dyn_curl_basis_ref self.curl_basis_ref_vector }
  else if elmtspace = EElementSpace.HDIV ∧ compute_derivatives = true then
    let dyn_div_basis_ref :=
      self.intrepid_basis.getValues (buildArray [num_card, num_quad]) dyn_cub_points
        EOperator.OPERATOR_DIV
    { self with div_basis_ref := copy2 num_card num_quad dyn_div_basis_ref self.div_basis_ref }
  else self

/-- Lines 523-539: reference coordinates of the degrees of freedom. -/
def refCoordsStage (self : BasisValues2 S) (use_vertex_coordinates : Bool) : BasisValues2 S :=
  if use_vertex_coordinates then
    if self.getElementSpace ≠ EElementSpace.CONST then
      let dyn_basis_coordinates_ref :=
        self.intrepid_basis.getDofCoords
          (buildArray [self.basis_coordinates_ref.dimension 0,
            self.basis_coordinates_ref.dimension 1])
      { self with
        basis_coordinates_ref :=
          copy2 (self.basis_coordinates_ref.dimension 0) (self.basis_coordinates_ref.dimension 1)
            dyn_basis_coordinates_ref self.basis_coordinates_ref }
    else self
  else self

/-- `BasisValues2::evaluateReferenceValues(cub_points, compute_derivatives,
use_vertex_coordinates)`, lines 433-542. -/
def evaluateReferenceValues (self : BasisValues2 S) (cub_points : MDField S)
    (compute_derivatives use_vertex_coordinates : Bool) : Outcome (BasisValues2 S) :=
  let num_quad := self.basis_layout.numPoints
  let num_dim := self.basis_layout.dimension
  let dyn_cub_points : MDField S := buildArray [num_quad, num_dim]
  let dyn_cub_points := copy2 num_quad num_dim cub_points dyn_cub_points
  (refValuesStage self dyn_cub_points).bind fun self =>
    let self := refDerivStage self dyn_cub_points compute_derivatives
    let self := refCoordsStage self use_vertex_coordinates
    Outcome.ok { self with references_evaluated := true }

/-- Lines 88-130 of `evaluateValues`: physical values and their weighted versions. -/
def valuesStage (tools : Intrepid2Tools S) (self : BasisValues2 S)
    (jac jac_det jac_inv weighted_measure : MDField S) : Outcome (BasisValues2 S) :=
  let elmtspace := self.getElementSpace
  if elmtspace = EElementSpace.CONST ∨ elmtspace = EElementSpace.HGRAD then
    let self : BasisValues2 S :=
      { self with
        basis_scalar := tools.HGRADtransformVALUE self.basis_scalar self.basis_ref_scalar }
    Outcome.ok
      (if self.build_weighted then
        { self with
          weighted_basis_scalar :=
            multiplyMeasure self.weighted_basis_scalar weighted_measure self.basis_scalar }
      else self)
  else if elmtspace = EElementSpace.HCURL then
    let self : BasisValues2 S :=
      { self with
        basis_vector :=
          tools.HCURLtransformVALUE self.basis_vector jac_inv self.basis_ref_vector }
    Outcome.ok
      (if self.build_weighted then
        { self with
          weighted_basis_vector :=
            multiplyMeasure self.weighted_basis_vector weighted_measure self.basis_vector }
      else self)
  else if elmtspace = EElementSpace.HDIV then
    let self : BasisValues2 S :=
      { self with
        basis_vector :=
          tools.HDIVtransformVALUE self.basis_vector jac jac_det self.basis_ref_vector }
    Outcome.ok
      (if self.build_weighted then
        { self with
          weighted_basis_vector :=
            multiplyMeasure self.weighted_basis_vector weighted_measure self.basis_vector }
      else self)
  else Outcome.raised Exception.TeuchosAssert self

/-- Lines 132-186 of `evaluateValues`: physical derivatives and their weighted versions. -/
def derivStage (tools : Intrepid2Tools S) (self : BasisValues2 S)
    (jac jac_det jac_inv weighted_measure : MDField S) : BasisValues2 S :=
  let num_dim := self.basis_layout.dimension
  let elmtspace := self.getElementSpace
  if elmtspace = EElementSpace.HGRAD ∧ self.compute_derivatives = true then
    let self : BasisValues2 S :=
      { self with
        grad_basis := tools.HGRADtransformGRAD self.grad_basis jac_inv self.grad_basis_ref }
    if self.build_weighted then
      { self with
        weighted_grad_basis :=
          multiplyMeasure self.weighted_grad_basis weighted_measure self.grad_basis }
    else self
  else if elmtspace = EElementSpace.HCURL ∧ num_dim = 2 ∧ self.compute_derivatives = true then
    let self : BasisValues2 S :=
      { self with
        curl_basis_scalar :=
          tools.HDIVtransformDIV self.curl_basis_scalar jac_det self.curl_basis_ref_scalar }
    if self.build_weighted then
      { self with
        weighted_curl_basis_scalar :=
          multiplyMeasure self.weighted_curl_basis_scalar weighted_measure
            self.curl_basis_scalar }
    else self
  else if elmtspace = EElementSpace.HCURL ∧ num_dim = 3 ∧ self.compute_derivatives = true then
    let self : BasisValues2 S :=
      { self with
        curl_basis_vector :=
          tools.HCURLtransformCURL self.curl_basis_vector jac jac_det
            self.curl_basis_ref_vector }
    if self.build_weighted then
      { self with
        weighted_curl_basis_vector :=
          multiplyMeasure self.weighted_curl_basis_vector weighted_measure
            self.curl_basis_vector }
    else self
  else if elmtspace = EElementSpace.HDIV ∧ self.compute_derivatives = true then
    let self : BasisValues2 S :=
      { self with div_basis := tools.HDIVtransformDIV self.div_basis jac_det self.div_basis_ref }
    if self.build_weighted then
      { self with
        weighted_div_basis :=
          multiplyMeasure self.weighted_div_basis weighted_measure self.div_basis }
    else self
  else self

/-- Lines 190-209 of `evaluateValues`: physical coordinates of the degrees of freedom. -/
def coordsStage (tools : Intrepid2Tools S) (self : BasisValues2 S)
    (vertex_coordinates : MDField S) (use_vertex_coordinates : Bool) : BasisValues2 S :=
  if use_vertex_coordinates then
    { self with
      basis_coordinates :=
        tools.mapToPhysicalFrame self.basis_coordinates self.basis_coordinates_ref
          vertex_coordinates }
  else self

/-- The seven-argument `BasisValues2::evaluateValues(cub_points, jac, jac_det, jac_inv,
weighted_measure, vertex_coordinates, use_vertex_coordinates)`, lines 70-210. -/
def evaluateValues (tools : Intrepid2Tools S) (self : BasisValues2 S)
    (cub_points jac jac_det jac_inv weighted_measure vertex_coordinates : MDField S)
    (use_vertex_coordinates : Bool) : Outcome (BasisValues2 S) :=
  (evaluateReferenceValues self cub_points self.compute_derivatives
      use_vertex_coordinates).bind fun self =>
    (valuesStage tools self jac jac_det jac_inv weighted_measure).bind fun self =>
      let self := derivStage tools self jac jac_det jac_inv weighted_measure
      Outcome.ok (coordsStage tools self vertex_coordinates use_vertex_coordinates)

end Evaluate

/-! ## `applyOrientations` -/

section Orientations

variable {S : Type} [Zero S] [Mul S]

/-- The loop nest `arr(c, b, p, d) *= orientations(c, b)` (lines 705-709, 732-736, 740-744,
759-763). -/
def scaleVector (num_cell num_basis num_ip num_dim : Nat) (orientations arr : MDField S) :
    MDField S :=
  forLoop num_cell (fun c acc =>
    forLoop num_basis (fun b acc =>
      forLoop num_ip (fun p acc =>
        forLoop num_dim (fun d acc =>
          acc.set [c, b, p, d] (acc.get [c, b, p, d] * orientations.get [c, b])) acc) acc) acc)
    arr

/-- The loop nest `arr(c, b, p) *= orientations(c, b)` (lines 713-716, 768-771). -/
def scaleScalar (num_cell num_basis num_ip : Nat) (orientations arr : MDField S) : MDField S :=
  forLoop num_cell (fun c acc =>
    forLoop num_basis (fun b acc =>
      forLoop num_ip (fun p acc =>
        acc.set [c, b, p] (acc.get [c, b, p] * orientations.get [c, b])) acc) acc) arr

/-- `BasisValues2::applyOrientations(const PHX::MDField<Scalar,Cell,BASIS> & orientations)`,
lines 689-782. -/
def applyOrientations (tools : Intrepid2Tools S) (self : BasisValues2 S)
    (orientations : MDField S) : BasisValues2 S :=
  let num_cell := orientations.dimension 0
  let num_basis := orientations.dimension 1
  let num_dim := self.basis_layout.dimension
  let num_ip := self.basis_layout.numPoints
  let elmtspace := self.getElementSpace
  if elmtspace = EElementSpace.HCURL ∧ num_dim = 2 then
    let self : BasisValues2 S :=
      { self with
        basis_vector :=
          scaleVector num_cell num_basis num_ip num_dim orientations self.basis_vector }
    let self : BasisValues2 S :=
      if self.compute_derivatives then
        { self with
          curl_basis_scalar :=
            scaleScalar num_cell num_basis num_ip orientations self.curl_basis_scalar }
      else self
    if self.build_weighted then
      let self : BasisValues2 S :=
        { self with
          weighted_basis_vector := tools.applyFieldSigns self.weighted_basis_vector orientations }
      if self.compute_derivatives then
        { self with
          weighted_curl_basis_scalar :=
            tools.applyFieldSigns self.weighted_curl_basis_scalar orientations }
      else self
    else self
  else if elmtspace = EElementSpace.HCURL ∧ num_dim = 3 then
    let self : BasisValues2 S :=
      { self with
        basis_vector :=
          scaleVector num_cell num_basis num_ip num_dim orientations self.basis_vector }
    let self : BasisValues2 S :=
      if self.compute_derivatives then
        { self with
          curl_basis_vector :=
            scaleVector num_cell num_basis num_ip num_dim orientations self.curl_basis_vector }
      else self
    if self.build_weighted then
      let self : BasisValues2 S :=
        { self with
          weighted_basis_vector := tools.applyFieldSigns self.weighted_basis_vector orientations }
      if self.compute_derivatives then
        { self with
          weighted_curl_basis_vector :=
            tools.applyFieldSigns self.weighted_curl_basis_vector orientations }
      else self
    else self
  else if elmtspace = EElementSpace.HDIV then
    let self : BasisValues2 S :=
      { self with
        basis_vector :=
          scaleVector num_cell num_basis num_ip num_dim orientations self.basis_vector }
    let self : BasisValues2 S :=
      if self.compute_derivatives then
        { self with
          div_basis := scaleScalar num_cell num_basis num_ip orientations self.div_basis }
      else self
    if self.build_weighted then
      let self : BasisValues2 S :=
        { self with
          weighted_basis_vector := tools.applyFieldSigns self.weighted_basis_vector orientations }
      if self.compute_derivatives then
        { self with
          weighted_div_basis := tools.applyFieldSigns self.weighted_div_basis orientations }
      else self
    else self
  else self

/-- One call pattern of the `Intrepid2::Orientation` overload: a temporary of the same shape
is allocated with the listed extents, `deep_copy` fills it, and
`OrientationTools::modifyBasisByOrientation(out, tmp, orts, basis)` rewrites the array. -/
def orientArray {O : Type}
    (modifyBasisByOrientation : MDField S → MDField S → List O → IntrepidBasis S → MDField S)
    (rank : Nat) (drv : MDField S) (drv_orts : List O) (basis : IntrepidBasis S) : MDField S :=
  let drv_tmp : MDField S := buildArray ((List.range rank).map drv.dimension)
  let drv_tmp := deep_copy drv_tmp drv
  modifyBasisByOrientation drv drv_tmp drv_orts basis

/-- `BasisValues2::applyOrientations(const std::vector<Intrepid2::Orientation> &)`,
lines 545-687.  `O` is `Intrepid2::Orientation`; `modifyBasisByOrientation` is the external
`Intrepid2::OrientationTools` routine.  `static_cast<int>(orientations.size())` is the length
of the list (sizes are taken to lie in the range of `int`). -/
def applyOrientations_Orientation {O : Type}
    (modifyBasisByOrientation : MDField S → MDField S → List O → IntrepidBasis S → MDField S)
    (self : BasisValues2 S) (orientations : List O) : Outcome (BasisValues2 S) :=
  if !self.intrepid_basis.requireOrientation then
    Outcome.raised (Exception.logic_error "Basis does not require orientations.") self
  else
    let elmtspace := self.getElementSpace
    let num_cell := self.basis_layout.numCells
    let num_dim := self.basis_layout.dimension
    if num_cell ≠ orientations.length then
      Outcome.raised
        (Exception.logic_error
          "The number of cells does not match to the dimension of orientation array.") self
    else
      let drv_orts := orientations.take num_cell
      let modify := orientArray modifyBasisByOrientation
      if elmtspace = EElementSpace.HGRAD then
        let self : BasisValues2 S :=
          { self with
            basis_scalar := modify 3 self.basis_scalar drv_orts self.intrepid_basis }
        Outcome.ok
          (if self.compute_derivatives then
            { self with grad_basis := modify 4 self.grad_basis drv_orts self.intrepid_basis }
          else self)
      else if elmtspace = EElementSpace.HCURL ∧ num_dim = 2 then
        let self : BasisValues2 S :=
          { self with
            basis_vector := modify 4 self.basis_vector drv_orts self.intrepid_basis }
        Outcome.ok
          (if self.compute_derivatives then
            { self with
              curl_basis_scalar :=
                modify 3 self.curl_basis_scalar drv_orts self.intrepid_basis }
          else self)
      else if elmtspace = EElementSpace.HCURL ∧ num_dim = 3 then
        let self : BasisValues2 S :=
          { self with
            basis_vector := modify 4 self.basis_vector drv_orts self.intrepid_basis }
        Outcome.ok
          (if self.compute_derivatives then
            { self with
              curl_basis_vector :=
                modify 4 self.curl_basis_vector drv_orts self.intrepid_basis }
          else self)
      else if elmtspace = EElementSpace.HDIV then
        let self : BasisValues2 S :=
          { self with
            basis_vector := modify 4 self.basis_vector drv_orts self.intrepid_basis }
        Outcome.ok
          (if self.compute_derivatives then
            { self with div_basis := modify 3 self.div_basis drv_orts self.intrepid_basis }
          else self)
      else Outcome.ok self

end Orientations

/-! ## `setupArrays` -/

section Setup

variable {S : Type} [Zero S]

/-- Lines 813-938 of `setupArrays`: allocation of the value and derivative arrays according
to the element space.  The local variables `num_quad`, `dim`, `card`, `numcells` are passed in. -/
def allocStage (self : BasisValues2 S) (elmtspace : EElementSpace)
    (num_quad dim card numcells : Nat) : Outcome (BasisValues2 S) :=
  if elmtspace = EElementSpace.HGRAD then
    let self : BasisValues2 S :=
      { self with
        basis_ref_scalar := buildArray [card, num_quad]
        basis_scalar := buildArray [numcells, card, num_quad] }
    let self : BasisValues2 S :=
      if self.build_weighted then
        { self with weighted_basis_scalar := buildArray [numcells, card, num_quad] }
      else self
    Outcome.ok
      (if self.compute_derivatives then
        let self : BasisValues2 S :=
          { self with
            grad_basis_ref := buildArray [card, num_quad, dim]
            grad_basis := buildArray [numcells, card, num_quad, dim] }
        if self.build_weighted then
          { self with weighted_grad_basis := buildArray [numcells, card, num_quad, dim] }
        else self
      else self)
  else if elmtspace = EElementSpace.HCURL then
    let self : BasisValues2 S :=
      { self with
        basis_ref_vector := buildArray [card, num_quad, dim]
        basis_vector := buildArray [numcells, card, num_quad, dim] }
    let self : BasisValues2 S :=
      if self.build_weighted then
        { self with weighted_basis_vector := buildArray [numcells, card, num_quad, dim] }
      else self
    if self.compute_derivatives then
      if dim = 2 then
        let self : BasisValues2 S :=
          { self with
            curl_basis_ref_scalar := buildArray [card, num_quad]
            curl_basis_scalar := buildArray [numcells, card, num_quad] }
        Outcome.ok
          (if self.build_weighted then
            { self with weighted_curl_basis_scalar := buildArray [numcells, card, num_quad] }
          else self)
      else if dim = 3 then
        let self : BasisValues2 S :=
          { self with
            curl_basis_ref_vector := buildArray [card, num_quad, dim]
            curl_basis_vector := buildArray [numcells, card, num_quad, dim] }
        Outcome.ok
          (if self.build_weighted then
            { self with
              weighted_curl_basis_vector := buildArray [numcells, card, num_quad, dim] }
          else self)
      else Outcome.raised Exception.TeuchosAssert self
    else Outcome.ok self
  else if elmtspace = EElementSpace.HDIV then
    let self : BasisValues2 S :=
      { self with
        basis_ref_vector := buildArray [card, num_quad, dim]
        basis_vector := buildArray [numcells, card, num_quad, dim] }
    let self : BasisValues2 S :=
      if self.build_weighted then
        { self with weighted_basis_vector := buildArray [numcells, card, num_quad, dim] }
      else self
    Outcome.ok
      (if self.compute_derivatives then
        let self : BasisValues2 S :=
          { self with
            div_basis_ref := buildArray [card, num_quad]
            div_basis := buildArray [numcells, card, num_quad] }
        if self.build_weighted then
          { self with weighted_div_basis := buildArray [numcells, card, num_quad] }
        else self
      else self)
  else if elmtspace = EElementSpace.CONST then
    let self : BasisValues2 S :=
      { self with
        basis_ref_scalar := buildArray [card, num_quad]
        basis_scalar := buildArray [numcells, card, num_quad] }
    Outcome.ok
      (if self.build_weighted then
        { self with weighted_basis_scalar := buildArray [numcells, card, num_quad] }
      else self)
  else Outcome.raised Exception.TeuchosAssert self

/-- `BasisValues2::setupArrays(layout, computeDerivatives)`, lines 788-942.  `intrepid_basis`
is the object returned by `basisDesc->getIntrepid2Basis()`. -/
def setupArrays (self : BasisValues2 S) (layout : BasisIRLayout)
    (intrepid_basis : IntrepidBasis S) (computeDerivatives : Bool) : Outcome (BasisValues2 S) :=
  let self : BasisValues2 S :=
    { self with compute_derivatives := computeDerivatives, basis_layout := layout }
  let basisDesc := layout.basis
  let num_quad := layout.numPoints
  let dim := basisDesc.dimension
  let card := basisDesc.cardinality
  let numcells := basisDesc.numCells
  let elmtspace := basisDesc.elementSpace
  let self : BasisValues2 S := { self with intrepid_basis := intrepid_basis }
  (allocStage self elmtspace num_quad dim card numcells).bind fun self =>
    Outcome.ok { self with
      basis_coordinates_ref := buildArray [card, dim]
      basis_coordinates := buildArray [numcells, card, dim] }

end Setup

end panzer

namespace Domi

/-! ## `Domi::regularizeAxisSizes` -/

/-- The least value of the 32-bit type `int`. -/
def INT_MIN : Int := -2147483648

/-- The greatest value of the 32-bit type `int`. -/
def INT_MAX : Int := 2147483647

/-- The value `x` is representable in the type `int`. -/
def IsInt (x : Int) : Prop := INT_MIN ≤ x ∧ x ≤ INT_MAX

instance (x : Int) : Decidable (IsInt x) :=
  inferInstanceAs (Decidable (INT_MIN ≤ x ∧ x ≤ INT_MAX))

/-- The `int` that a mathematical integer is stored as: reduction modulo `2^32` into the
range from `INT_MIN` to `INT_MAX` (two's complement), which is what the compiled `int`
multiplication yields when the product does not fit. -/
def wrapInt (x : Int) : Int := (x + 2147483648) % 4294967296 - 2147483648

/-- Result of `regularizeAxisSizes`: the returned `Teuchos::Array<int>`, the
`Domi::InvalidArgument` exception with its message, or no result at all because an integer
division is undefined (`numProcs % block` with `block == 0`, or `INT_MIN % -1`; a trap on
common hardware). -/
inductive Result where
  | ok (result : List Int) : Result
  | InvalidArgument (msg : String) : Result
  | undefinedDivision : Result
  deriving DecidableEq, Repr

/-- Lines 61-62: copy the candidate array into the return array. -/
def copyCandidate (numDims : Nat) (axisSizes result : List Int) : List Int :=
  forLoop (min numDims axisSizes.length)
    (fun axis acc => acc.set axis (axisSizes.getD axis 0)) result

/-- Lines 65-73: the block of processors accounted for and the number of unspecified axis
sizes, as the pair `(block, unspecified)`.  `block` is an `int`: the product of line 72 is
stored through `wrapInt`. -/
def countBlock (numDims : Nat) (result : List Int) : Int × Nat :=
  forLoop numDims
    (fun axis acc =>
      if result.getD axis 0 ≤ 0 then (acc.1, acc.2 + 1)
      else (wrapInt (acc.1 * result.getD axis 0), acc.2))
    (1, 0)

/-- Lines 89-96: give the quotient to the first unspecified axis and 1 to the others; the
state is the pair `(result, quotient)`. -/
def fillUnspecified (numDims : Nat) (result : List Int) (quotient : Int) : List Int × Int :=
  forLoop numDims
    (fun axis acc =>
      if acc.1.getD axis 0 ≤ 0 then (acc.1.set axis acc.2, 1) else acc)
    (result, quotient)

/-- `Domi::regularizeAxisSizes(numProcs, numDims, axisSizes)`, lines 53-99.  The arguments
`numProcs` and the entries of `axisSizes` are values of type `int`.  The remainder of line
86 is undefined for a zero divisor and for `INT_MIN % -1`. -/
def regularizeAxisSizes (numProcs : Int) (numDims : Nat) (axisSizes : List Int) : Result :=
  let result := List.replicate numDims (-1 : Int)
  let result := copyCandidate numDims axisSizes result
  let counted := countBlock numDims result
  let block := counted.1
  let unspecified := counted.2
  if unspecified = 0 ∧ block ≠ numProcs then
    Result.InvalidArgument
      "Product of axis processor sizes does not equal total number of processors"
  else if block = 0 ∨ (numProcs = INT_MIN ∧ block = -1) then
    Result.undefinedDivision
  else if numProcs.tmod block ≠ 0 then
    Result.InvalidArgument "Number of processors do not divide evenly"
  else
    let quotient := numProcs.tdiv block
    Result.ok (fillUnspecified numDims result quotient).1

/-! ### Vocabulary of the specification -/

/-- Axis `i` is specified: the candidate array has an entry for it and the entry is positive. -/
def specified (axisSizes : List Int) (i : Nat) : Prop := 0 < axisSizes.getD i 0

instance (axisSizes : List Int) (i : Nat) : Decidable (specified axisSizes i) :=
  inferInstanceAs (Decidable (0 < axisSizes.getD i 0))

/-- Product of the specified sizes among the first `numDims` axes, as a mathematical
integer.  It is positive (`specifiedBlock_pos`); the `int` variable `block` of the code
holds it as long as it does not exceed `INT_MAX`. -/
def specifiedBlock (numDims : Nat) (axisSizes : List Int) : Int :=
  ((List.range numDims).map
    (fun i => if specified axisSizes i then axisSizes.getD i 0 else 1)).prod

/-- Axis `i` is the first unspecified axis. -/
def firstUnspecified (axisSizes : List Int) (i : Nat) : Prop :=
  ¬ specified axisSizes i ∧ ∀ j < i, specified axisSizes j

instance (axisSizes : List Int) (i : Nat) : Decidable (firstUnspecified axisSizes i) :=
  inferInstanceAs (Decidable (¬ specified axisSizes i ∧ ∀ j < i, specified axisSizes j))

/-- The size the specification assigns to axis `i`: the given value at a specified axis, the
quotient `numProcs / block` at the first unspecified axis, 1 at every other unspecified axis. -/
def expectedSize (numProcs : Int) (numDims : Nat) (axisSizes : List Int) (i : Nat) : Int :=
  if specified axisSizes i then axisSizes.getD i 0
  else if firstUnspecified axisSizes i then numProcs.tdiv (specifiedBlock numDims axisSizes)
  else 1

end Domi

/-! ## Vocabulary of the specification for `BasisValues2` -/

namespace panzer

/-- The array `weighted` is `physical` multiplied pointwise by the weighted measure: every
entry `weighted(c, b, p, ...)` equals `measure(c, p) * physical(c, b, p, ...)`. -/
def WeightedBy {S : Type} [Mul S] (measure physical weighted : MDField S) : Prop :=
  ∀ c b p rest, inRange (c :: b :: p :: rest) weighted.extents = true →
    weighted.get (c :: b :: p :: rest) = measure.get [c, p] * physical.get (c :: b :: p :: rest)

/-- The six weighted arrays of `t` have the shapes (extents) of those of `s`. -/
def SameWeightedShapes {S : Type} (s t : BasisValues2 S) : Prop :=
  t.weighted_basis_scalar.extents = s.weighted_basis_scalar.extents
  ∧ t.weighted_basis_vector.extents = s.weighted_basis_vector.extents
  ∧ t.weighted_grad_basis.extents = s.weighted_grad_basis.extents
  ∧ t.weighted_curl_basis_scalar.extents = s.weighted_curl_basis_scalar.extents
  ∧ t.weighted_curl_basis_vector.extents = s.weighted_curl_basis_vector.extents
  ∧ t.weighted_div_basis.extents = s.weighted_div_basis.extents

end panzer

/-! ## Concrete objects used to instantiate the theorems -/

namespace panzer.Examples

/-- Stand-in pull-back routines on integer scalars: each leaves its output array as it is. -/
def tools : Intrepid2Tools Int :=
  { HGRADtransformVALUE := fun out _ => out
    HCURLtransformVALUE := fun out _ _ => out
    HDIVtransformVALUE := fun out _ _ _ => out
    HGRADtransformGRAD := fun out _ _ => out
    HDIVtransformDIV := fun out _ _ => out
    HCURLtransformCURL := fun out _ _ _ => out
    applyFieldSigns := fun out _ => out
    mapToPhysicalFrame := fun out _ _ => out }

/-- A reference table on integer scalars: basis function `b` at point `x` has the value
`b + 1 + (sum of the coordinates of x)`. -/
def basis : IntrepidBasis Int :=
  { refValue := fun _ b x _ => (b : Int) + 1 + x.sum
    dofCoord := fun i j => (i : Int) + j
    requireOrientation := true }

/-- An array with the given extents and the same value in every entry. -/
def constField (dims : List Nat) (v : Int) : MDField Int :=
  { extents := dims, data := fun _ => v }

/-- A `BasisValues2` object for one cell, two basis functions and one integration point,
with every array entry equal to 5. -/
def object (space : EElementSpace) (dim : Nat) (derivatives weighted : Bool) :
    BasisValues2 Int :=
  { basis_ref_scalar := constField [2, 1] 5
    basis_scalar := constField [1, 2, 1] 5
    basis_ref_vector := constField [2, 1, dim] 5
    basis_vector := constField [1, 2, 1, dim] 5
    grad_basis_ref := constField [2, 1, dim] 5
    grad_basis := constField [1, 2, 1, dim] 5
    curl_basis_ref_scalar := constField [2, 1] 5
    curl_basis_scalar := constField [1, 2, 1] 5
    curl_basis_ref_vector := constField [2, 1, dim] 5
    curl_basis_vector := constField [1, 2, 1, dim] 5
    div_basis_ref := constField [2, 1] 5
    div_basis := constField [1, 2, 1] 5
    weighted_basis_scalar := constField [1, 2, 1] 5
    weighted_basis_vector := constField [1, 2, 1, dim] 5
    weighted_grad_basis := constField [1, 2, 1, dim] 5
    weighted_curl_basis_scalar := constField [1, 2, 1] 5
    weighted_curl_basis_vector := constField [1, 2, 1, dim] 5
    weighted_div_basis := constField [1, 2, 1] 5
    basis_coordinates_ref := constField [2, dim] 5
    basis_coordinates := constField [1, 2, dim] 5
    basis_layout :=
      { basis := { elementSpace := space, dimension := dim, cardinality := 2, numCells := 1 }
        numPoints := 1, cardinality := 2, dimension := dim, numCells := 1 }
    intrepid_basis := basis
    compute_derivatives := derivatives
    build_weighted := weighted
    references_evaluated := false }

/-- Integration points of one cell: coordinate `d` of point `ip` of cell `c` is `c + ip + d`. -/
def cellPoints (dim : Nat) : MDField Int :=
  { extents := [1, 1, dim]
    data := fun idx =>
      match idx with
      | [c, ip, d] => (c : Int) + ip + d
      | _ => 0 }

/-- A Jacobian array for one cell and one point (identity-like content is irrelevant). -/
def jacobian (dim : Nat) : MDField Int := constField [1, 1, dim, dim] 1

/-- A determinant array for one cell and one point. -/
def jacobianDet : MDField Int := constField [1, 1] 1

/-- A freshly constructed `BasisValues2` object: no array is allocated yet. -/
def fresh (weighted : Bool) : BasisValues2 Int :=
  { basis_ref_scalar := constField [] 0
    basis_scalar := constField [] 0
    basis_ref_vector := constField [] 0
    basis_vector := constField [] 0
    grad_basis_ref := constField [] 0
    grad_basis := constField [] 0
    curl_basis_ref_scalar := constField [] 0
    curl_basis_scalar := constField [] 0
    curl_basis_ref_vector := constField [] 0
    curl_basis_vector := constField [] 0
    div_basis_ref := constField [] 0
    div_basis := constField [] 0
    weighted_basis_scalar := constField [] 0
    weighted_basis_vector := constField [] 0
    weighted_grad_basis := constField [] 0
    weighted_curl_basis_scalar := constField [] 0
    weighted_curl_basis_vector := constField [] 0
    weighted_div_basis := constField [] 0
    basis_coordinates_ref := constField [] 0
    basis_coordinates := constField [] 0
    basis_layout :=
      { basis :=
          { elementSpace := EElementSpace.OTHER, dimension := 0, cardinality := 0, numCells := 0 }
        numPoints := 0, cardinality := 0, dimension := 0, numCells := 0 }
    intrepid_basis := basis
    compute_derivatives := false
    build_weighted := weighted
    references_evaluated := false }

/-- A layout for `numcells = 1`, `card = 2`, `num_quad = 4` in dimension `dim`. -/
def layout (space : EElementSpace) (dim : Nat) : BasisIRLayout :=
  { basis := { elementSpace := space, dimension := dim, cardinality := 2, numCells := 1 }
    numPoints := 4, cardinality := 2, dimension := dim, numCells := 1 }

/-- A reference table whose basis does not require orientations. -/
def plainBasis : IntrepidBasis Int :=
  { refValue := fun _ b x _ => (b : Int) + 1 + x.sum
    dofCoord := fun i j => (i : Int) + j
    requireOrientation := false }

/-- Stand-in for `OrientationTools::modifyBasisByOrientation` with orientations numbered by
naturals: it negates every entry of the copy. -/
def modifyBasisByOrientation (_out tmp : MDField Int) (_orts : List Nat)
    (_basis : IntrepidBasis Int) : MDField Int :=
  { tmp with data := fun idx => - tmp.data idx }

end panzer.Examples

/-! ## `ROL::GradientAlgorithm_B` -/

/-- Loop `while (cond) body` run with a bound `fuel` on the number of passes: `none` when the
bound is used up while the condition still holds. -/
def whileLoop {σ : Type} (cond : σ → Bool) (body : σ → σ) : Nat → σ → Option σ
  | 0, s => if cond s then none else some s
  | fuel + 1, s => if cond s then whileLoop cond body fuel (body s) else some s

namespace ROL

/-- The fields of `ROL::AlgorithmState<Real>` used by `GradientAlgorithm_B`. -/
structure AlgorithmState (R V : Type) where
  iter : Nat
  value : R
  gnorm : R
  snorm : R
  searchSize : R
  nfval : Nat
  ngrad : Nat
  iterateVec : V
  stepVec : V
  gradientVec : V

/-- The collaborators of `GradientAlgorithm_B`, none of which is among the sources, taken as
parameters: the `ROL::Vector` operations (`axpy a x y` is `y.axpy(a, x)`), the projection
`proj_->project`, the `ROL::Objective` (with an internal state of type `O` that `update`
may change), the status test `status_->check`, the base-class routine
`Algorithm_B::initialize(x, g)`, and the constants `one`, `half`, `ROL_EPSILON<Real>()`,
`ROL_INF<Real>()`.  The tolerance argument of `value` and `gradient` is not modelled. -/
structure Env (R V O : Type) where
  axpy : R → V → V → V
  dot : V → V → R
  norm : V → R
  dual : V → V
  project : V → V
  update : O → V → Bool → O
  value : O → V → R
  gradient : O → V → V
  check : AlgorithmState R V → Bool
  baseInitialize : AlgorithmState R V → V → V → AlgorithmState R V
  one : R
  half : R
  ROL_EPSILON : R
  ROL_INF : R

/-- Everything `GradientAlgorithm_B::run` reads and writes: the members of the algorithm
object, the arguments `x` and `obj`, the local variables of `run` (declared before the outer
loop, so they keep their values from one pass to the next), and two ghost fields that are
not in the source: `valueCalls` and `gradientCalls` count the calls of `obj.value` and
`obj.gradient`.  Output (`outStream`, `output`) is not modelled. -/
structure RunState (R V O : Type) where
  state_ : AlgorithmState R V
  maxit_ : Int
  alpha0_ : R
  alpha0bnd_ : R
  useralpha_ : Bool
  usePrevAlpha_ : Bool
  c1_ : R
  maxAlpha_ : R
  useAdapt_ : Bool
  rhodec_ : R
  rhoinc_ : R
  x : V
  obj : O
  s : V
  ftrial : R
  gs : R
  ftrialP : R
  alphaP : R
  ls_nfval : Nat
  incAlpha : Bool
  valueCalls : Nat
  gradientCalls : Nat

section GradientAlgorithm

/-! The scalar type `Real` is a parameter `R` with the operations `*`, `-`, unary `-`, `/` and
the comparisons `<`, `<=` (`a >= b` is `b <= a`, `a > b` is `b < a`) and `==` that the code
uses.  No law is assumed of them: a floating-point type, in which every comparison with a
not-a-number value is false, is an instance. -/

variable {R V O : Type} [LT R] [LE R] [DecidableRel (LT.lt : R → R → Prop)]
  [DecidableRel (LE.le : R → R → Prop)] [BEq R] [Mul R] [Sub R] [Neg R] [Div R]

/-- The statements `iterateVec->set(x); iterateVec->axpy(-searchSize, *stepVec);
proj_->project(*iterateVec); obj.update(*iterateVec, false);` (lines 141-144, 170-173,
192-195, 203-206). -/
def moveIterate (env : Env R V O) (c : RunState R V O) : RunState R V O :=
  let iterateVec := c.x
  let iterateVec := env.axpy (-c.state_.searchSize) c.state_.stepVec iterateVec
  let iterateVec := env.project iterateVec
  { c with
    state_ := { c.state_ with iterateVec := iterateVec }
    obj := env.update c.obj iterateVec false }

/-- The statement `ftrial = obj.value(*iterateVec, tol);` (lines 145, 174, 207). -/
def evalTrial (env : Env R V O) (c : RunState R V O) : RunState R V O :=
  { c with
    ftrial := env.value c.obj c.state_.iterateVec
    valueCalls := c.valueCalls + 1 }

/-- The statements `s->set(*iterateVec); s->axpy(-one, x);` (lines 147-148, 196-197). -/
def stepOf (env : Env R V O) (c : RunState R V O) : RunState R V O :=
  { c with s := env.axpy (-env.one) c.x c.state_.iterateVec }

/-- The statements `s->set(*iterateVec); s->axpy(-one, x); gs = s->dot(*stepVec);`
(lines 147-149, 176-178, 209-211). -/
def measureStep (env : Env R V O) (c : RunState R V O) : RunState R V O :=
  let c := stepOf env c
  let gs := env.dot c.s c.state_.stepVec
  { c with gs := gs }

/-- Lines 140-150: the first trial point of a line search. -/
def firstTrial (env : Env R V O) (c : RunState R V O) : RunState R V O :=
  let c : RunState R V O :=
    if !c.usePrevAlpha_ && !c.useAdapt_ then
      { c with state_ := { c.state_ with searchSize := c.alpha0_ } }
    else c
  let c := moveIterate env c
  let c := evalTrial env c
  let c : RunState R V O := { c with ls_nfval := 1 }
  let c := measureStep env c
  { c with incAlpha := decide (c.state_.value - c.ftrial ≥ (-c.c1_) * c.gs) }

/-- Lines 163-166: the condition of the step-increase loop. -/
def increaseCond (c : RunState R V O) : Bool :=
  decide (c.state_.value - c.ftrial ≥ (-c.c1_) * c.gs)
    && decide (c.ftrial ≤ c.ftrialP)
    && decide (c.state_.searchSize < c.maxAlpha_)
    && decide ((c.ls_nfval : Int) < c.maxit_)

/-- Lines 167-178: the body of the step-increase loop. -/
def increaseBody (env : Env R V O) (c : RunState R V O) : RunState R V O :=
  let c : RunState R V O :=
    { c with alphaP := c.state_.searchSize, ftrialP := c.ftrial }
  let c : RunState R V O :=
    { c with state_ := { c.state_ with searchSize := c.state_.searchSize * c.rhoinc_ } }
  let c := moveIterate env c
  let c := evalTrial env c
  let c : RunState R V O := { c with ls_nfval := c.ls_nfval + 1 }
  measureStep env c

/-- Lines 189-198: fall back to the saved trial when the last increase was not accepted. -/
def restorePrevious (env : Env R V O) (c : RunState R V O) : RunState R V O :=
  if c.state_.value - c.ftrial < (-c.c1_) * c.gs ∨ c.ftrial > c.ftrialP then
    let c : RunState R V O := { c with ftrial := c.ftrialP }
    let c : RunState R V O := { c with state_ := { c.state_ with searchSize := c.alphaP } }
    let c := moveIterate env c
    stepOf env c
  else c

/-- Line 201: the condition of the backtracking loop. -/
def backtrackCond (c : RunState R V O) : Bool :=
  decide (c.state_.value - c.ftrial < (-c.c1_) * c.gs)
    && decide ((c.ls_nfval : Int) < c.maxit_)

/-- Lines 202-211: the body of the backtracking loop. -/
def backtrackBody (env : Env R V O) (c : RunState R V O) : RunState R V O :=
  let c : RunState R V O :=
    { c with state_ := { c.state_ with searchSize := c.state_.searchSize * c.rhodec_ } }
  let c := moveIterate env c
  let c := evalTrial env c
  let c : RunState R V O := { c with ls_nfval := c.ls_nfval + 1 }
  measureStep env c

/-- Lines 139-222: the line search of one pass of the outer loop; each inner `while` may make
at most `fuel` passes. -/
def lineSearch (env : Env R V O) (fuel : Nat) (c : RunState R V O) : Option (RunState R V O) :=
  let c := firstTrial env c
  if c.incAlpha && c.useAdapt_ then
    let c : RunState R V O := { c with ftrialP := env.ROL_INF }
    (whileLoop increaseCond (increaseBody env) fuel c).map (restorePrevious env)
  else whileLoop backtrackCond (backtrackBody env) fuel c

/-- Lines 223-246: the rest of one pass of the outer loop after the line search. -/
def finishIteration (env : Env R V O) (c : RunState R V O) : RunState R V O :=
  let st := c.state_
  let st : AlgorithmState R V := { st with nfval := st.nfval + c.ls_nfval }
  let st : AlgorithmState R V := { st with stepVec := c.s }
  let st : AlgorithmState R V := { st with snorm := env.norm st.stepVec }
  let x := st.iterateVec
  let st : AlgorithmState R V := { st with iter := st.iter + 1 }
  let st : AlgorithmState R V := { st with value := c.ftrial }
  let obj := env.update c.obj x true
  let st : AlgorithmState R V := { st with gradientVec := env.gradient obj x }
  let st : AlgorithmState R V := { st with ngrad := st.ngrad + 1 }
  let st : AlgorithmState R V := { st with stepVec := env.dual st.gradientVec }
  let s := x
  let s := env.axpy (-env.one) st.stepVec s
  let s := env.project s
  let s := env.axpy (-env.one) x s
  let st : AlgorithmState R V := { st with gnorm := env.norm s }
  { c with state_ := st, x := x, obj := obj, s := s, gradientCalls := c.gradientCalls + 1 }

/-- Lines 139-250: one pass of the outer loop of `run`. -/
def outerIteration (env : Env R V O) (fuel : Nat) (c : RunState R V O) :
    Option (RunState R V O) :=
  (lineSearch env fuel c).map (finishIteration env)

/-- Lines 95-100 of `initialize`: when no initial step size is supplied by the user, evaluate
the objective at `P(x - g)`.  The result is the triple `(state_, obj, fnew)` together with
the ghost call counter. -/
def evalProjectedStep (env : Env R V O) (useralpha_ : Bool) (st : AlgorithmState R V) (obj : O)
    (fnew : R) (valueCalls : Nat) : AlgorithmState R V × O × R × Nat :=
  if !useralpha_ then
    let obj := env.update obj st.stepVec false
    let fnew := env.value obj st.stepVec
    ({ st with nfval := st.nfval + 1 }, obj, fnew, valueCalls + 1)
  else (st, obj, fnew, valueCalls)

/-- Lines 104-113 of `initialize`: the initial step size from the quadratic interpolant; the
result is the pair `(alpha0_, maxAlpha_)`. -/
def interpolateAlpha (env : Env R V O) (c : RunState R V O) (st : AlgorithmState R V)
    (fnew : R) : R × R :=
  if !c.useralpha_ then
    let gs := env.dot st.stepVec (env.dual st.gradientVec)
    let denom := fnew - st.value - gs
    let flag := c.maxAlpha_ == c.alpha0_
    let alpha0 := if denom > env.ROL_EPSILON then (-env.half) * gs / denom else c.alpha0bnd_
    let alpha0 := if alpha0 > c.alpha0bnd_ then alpha0 else env.one
    if flag then (alpha0, alpha0) else (alpha0, c.maxAlpha_)
  else (c.alpha0_, c.maxAlpha_)

/-- `GradientAlgorithm_B::initialize(x, g, obj, bnd, outStream)`, lines 71-115. -/
def initialize_B (env : Env R V O) (c : RunState R V O) (g : V) : RunState R V O :=
  let st := env.baseInitialize c.state_ c.x g
  let x := env.project c.x
  let obj := env.update c.obj x true
  let st : AlgorithmState R V := { st with value := env.value obj x }
  let valueCalls := c.valueCalls + 1
  let st : AlgorithmState R V := { st with nfval := st.nfval + 1 }
  let st : AlgorithmState R V := { st with gradientVec := env.gradient obj x }
  let gradientCalls := c.gradientCalls + 1
  let st : AlgorithmState R V := { st with ngrad := st.ngrad + 1 }
  let st : AlgorithmState R V := { st with stepVec := x }
  let st : AlgorithmState R V :=
    { st with stepVec := env.axpy (-env.one) (env.dual st.gradientVec) st.stepVec }
  let st : AlgorithmState R V := { st with stepVec := env.project st.stepVec }
  let fnew := st.value
  let r := evalProjectedStep env c.useralpha_ st obj fnew valueCalls
  let st := r.1
  let obj := r.2.1
  let fnew := r.2.2.1
  let valueCalls := r.2.2.2
  let st : AlgorithmState R V := { st with stepVec := env.axpy (-env.one) x st.stepVec }
  let st : AlgorithmState R V := { st with gnorm := env.norm st.stepVec }
  let st : AlgorithmState R V := { st with snorm := env.ROL_INF }
  let alphas := interpolateAlpha env c st fnew
  let st : AlgorithmState R V := { st with searchSize := alphas.1 }
  { c with
    state_ := st, x := x, obj := obj, alpha0_ := alphas.1, maxAlpha_ := alphas.2
    valueCalls := valueCalls, gradientCalls := gradientCalls }

/-- The outer loop of `run` (line 138), making at most `outer` passes. -/
def runLoop (env : Env R V O) (fuel : Nat) : Nat → RunState R V O → Option (RunState R V O)
  | 0, c => if env.check c.state_ then none else some c
  | outer + 1, c =>
    if env.check c.state_ then
      (outerIteration env fuel c).bind (runLoop env fuel outer)
    else some c

/-- `GradientAlgorithm_B::run(x, g, obj, bnd, outStream)`, lines 117-255, with the locals of
lines 127-130 set to their initial values; `zero` is `Real(0)`, and the clone `s` of `x`,
whose content the source leaves unspecified, starts as a copy of `x`. -/
def run (env : Env R V O) (fuel outer : Nat) (zero : R) (c : RunState R V O) (g : V) :
    Option (RunState R V O) :=
  let c := initialize_B env c g
  let c : RunState R V O :=
    { c with
      s := c.x, ftrial := zero, gs := zero, ftrialP := zero, alphaP := zero
      ls_nfval := 0, incAlpha := false }
  let c : RunState R V O :=
    { c with state_ := { c.state_ with stepVec := env.dual c.state_.gradientVec } }
  runLoop env fuel outer c

end GradientAlgorithm

end ROL

/-! ## Vocabulary of the specification for `GradientAlgorithm_B` -/

namespace ROL

section Vocabulary

variable {R V O : Type} [LT R] [LE R] [DecidableRel (LT.lt : R → R → Prop)]
  [DecidableRel (LE.le : R → R → Prop)] [Mul R] [Sub R] [Neg R]

/-- The trial point of step size `alpha` in the line search begun in `c`:
`P(x - alpha * stepVec)`. -/
def trialPoint (env : Env R V O) (c : RunState R V O) (alpha : R) : V :=
  env.project (env.axpy (-alpha) c.state_.stepVec c.x)

/-- The step `s` from `x` to the trial point of step size `alpha`. -/
def trialStep (env : Env R V O) (c : RunState R V O) (alpha : R) : V :=
  env.axpy (-env.one) c.x (trialPoint env c alpha)

/-- The scalar `fv` is an objective value of the trial of step size `alpha`: what `obj.value`
returns at the trial point when called right after `obj.update` at that point. -/
def TrialValue (env : Env R V O) (c : RunState R V O) (alpha fv : R) : Prop :=
  ∃ o, fv = env.value (env.update o (trialPoint env c alpha) false) (trialPoint env c alpha)

/-- The sufficient-decrease test `state.value - ftrial >= -c1_ * gs` for the trial of step
size `alpha` with value `fv` in the line search begun in `c`, `gs` being the product of the
step to that same trial point with `stepVec`. -/
def SufficientDecrease (env : Env R V O) (c : RunState R V O) (alpha fv : R) : Prop :=
  c.state_.value - fv ≥ (-c.c1_) * env.dot (trialStep env c alpha) c.state_.stepVec

instance (env : Env R V O) (c : RunState R V O) (alpha fv : R) :
    Decidable (SufficientDecrease env c alpha fv) :=
  inferInstanceAs
    (Decidable (c.state_.value - fv ≥ (-c.c1_) * env.dot (trialStep env c alpha) c.state_.stepVec))

/-- The negated form `state.value - ftrial < -c1_ * gs` of the test, as lines 189 and 201
write it, for the trial of step size `alpha` with value `fv`. -/
def InsufficientDecrease (env : Env R V O) (c : RunState R V O) (alpha fv : R) : Prop :=
  c.state_.value - fv < (-c.c1_) * env.dot (trialStep env c alpha) c.state_.stepVec

instance (env : Env R V O) (c : RunState R V O) (alpha fv : R) :
    Decidable (InsufficientDecrease env c alpha fv) :=
  inferInstanceAs
    (Decidable (c.state_.value - fv < (-c.c1_) * env.dot (trialStep env c alpha) c.state_.stepVec))

/-- The test has a definite outcome at every trial of the line search begun in `c`: its
negated form holds exactly when the test fails.  This is so whenever the two numbers compared
are ordered; it fails when one of them is not a number. -/
def DefiniteTest (env : Env R V O) (c : RunState R V O) : Prop :=
  ∀ alpha fv, TrialValue env c alpha fv →
    (InsufficientDecrease env c alpha fv ↔ ¬ SufficientDecrease env c alpha fv)

/-- The state `r` at the end of the line search begun in `c` holds an accepted trial: the
iterate is the trial point of the step size `state_->searchSize`, `s` is the step to it,
`ftrial` is an objective value of it, the objective was last updated at it, and the search
has changed none of `x`, `stepVec`, `state_->value` and `c1_`. -/
def AcceptedTrial (env : Env R V O) (c r : RunState R V O) : Prop :=
  r.state_.iterateVec = trialPoint env c r.state_.searchSize
  ∧ r.s = trialStep env c r.state_.searchSize
  ∧ TrialValue env c r.state_.searchSize r.ftrial
  ∧ (∃ o, r.obj = env.update o r.state_.iterateVec false)
  ∧ r.x = c.x ∧ r.state_.stepVec = c.state_.stepVec
  ∧ r.state_.value = c.state_.value ∧ r.c1_ = c.c1_

/-- What the inner loops of a line search started in `c0` keep: the parameters, the current
objective value and the cumulative counters are untouched; every new call of `obj.value` is
matched by an increment of `ls_nfval`, which never exceeds `max 1 maxit_`. -/
def SearchFrame (c0 c : RunState R V O) : Prop :=
  c.maxit_ = c0.maxit_ ∧ c.c1_ = c0.c1_ ∧ c.maxAlpha_ = c0.maxAlpha_
  ∧ c.state_.value = c0.state_.value
  ∧ c.state_.nfval = c0.state_.nfval ∧ c.state_.ngrad = c0.state_.ngrad
  ∧ c.gradientCalls = c0.gradientCalls
  ∧ c.valueCalls + c0.ls_nfval = c0.valueCalls + c.ls_nfval
  ∧ c0.ls_nfval ≤ c.ls_nfval
  ∧ (c.ls_nfval : Int) ≤ max (c0.ls_nfval : Int) c0.maxit_

/-- The current trial of a state `s` inside the line search begun in `c`: `x`, `stepVec`,
`state_->value` and `c1_` are those of `c`; the iterate, the step `s`, the product `gs` and
the value `ftrial` are those of the trial of step size `state_->searchSize`, the value
being taken in the current state of the objective, last updated at the iterate. -/
def CurrentTrial (env : Env R V O) (c s : RunState R V O) : Prop :=
  s.x = c.x ∧ s.state_.stepVec = c.state_.stepVec
  ∧ s.state_.value = c.state_.value ∧ s.c1_ = c.c1_
  ∧ s.state_.iterateVec = trialPoint env c s.state_.searchSize
  ∧ s.s = trialStep env c s.state_.searchSize
  ∧ s.gs = env.dot s.s c.state_.stepVec
  ∧ (∃ o, s.obj = env.update o s.state_.iterateVec false)
  ∧ s.ftrial = env.value s.obj s.state_.iterateVec

end Vocabulary

end ROL

/-! ## Concrete optimisation problem used to instantiate the theorems -/

namespace ROL.Examples

/-- Minimise `f(x) = -x` over the interval `[-100, 100]` of the rational line; the status
test stops after `iterLimit` iterations. -/
def env (iterLimit : Nat) : Env ℚ ℚ Unit :=
  { axpy := fun a x y => y + a * x
    dot := fun x y => x * y
    norm := fun x => max x (-x)
    dual := fun x => x
    project := fun x => max (-100) (min 100 x)
    update := fun o _ _ => o
    value := fun _ x => -x
    gradient := fun _ _ => -1
    check := fun st => decide (st.iter < iterLimit)
    baseInitialize := fun st x g => { st with iterateVec := x, stepVec := 0, gradientVec := g }
    one := 1
    half := 1 / 2
    ROL_EPSILON := 1 / 2 ^ 52
    ROL_INF := 10 ^ 307 }

/-- The algorithm object after construction from a parameter list with the given
"Initial Step Size", "Maximum Step Size" and "User Defined Initial Step Size", every other
entry at its default (20 evaluations, tolerance 1e-4, rates 0.5 and 2, adaptive step size
selection), together with the start point `x = 0`. -/
def start (alpha0 maxAlpha : ℚ) (useralpha : Bool) : RunState ℚ ℚ Unit :=
  { state_ :=
      { iter := 0, value := 0, gnorm := 0, snorm := 0, searchSize := 0, nfval := 0, ngrad := 0
        iterateVec := 0, stepVec := 0, gradientVec := 0 }
    maxit_ := 20
    alpha0_ := alpha0
    alpha0bnd_ := 1 / 10000
    useralpha_ := useralpha
    usePrevAlpha_ := false
    c1_ := 1 / 10000
    maxAlpha_ := maxAlpha
    useAdapt_ := true
    rhodec_ := 1 / 2
    rhoinc_ := 2
    x := 0
    obj := ()
    s := 0
    ftrial := 0
    gs := 0
    ftrialP := 0
    alphaP := 0
    ls_nfval := 0
    incAlpha := false
    valueCalls := 0
    gradientCalls := 0 }

/-- The state in which the first pass of the outer loop of `run` begins. -/
def atFirstPass (alpha0 maxAlpha : ℚ) (useralpha : Bool) : RunState ℚ ℚ Unit :=
  let c := initialize_B (env 1) (start alpha0 maxAlpha useralpha) 0
  { c with state_ := { c.state_ with stepVec := (env 1).dual c.state_.gradientVec } }

/-- A scalar type with a not-a-number value, as the floating-point types have: a rational
number or `nan`. -/
inductive Scalar where
  | finite (q : ℚ) : Scalar
  | nan : Scalar
  deriving DecidableEq

namespace Scalar

/-- A unary operation; the result for `nan` is `nan`. -/
def lift1 (f : ℚ → ℚ) : Scalar → Scalar
  | finite q => finite (f q)
  | nan => nan

/-- A binary operation; the result is `nan` when an operand is. -/
def lift2 (f : ℚ → ℚ → ℚ) : Scalar → Scalar → Scalar
  | finite p, finite q => finite (f p q)
  | finite _, nan => nan
  | nan, _ => nan

/-- A comparison; it is false when an operand is `nan`. -/
def compare2 (f : ℚ → ℚ → Bool) : Scalar → Scalar → Bool
  | finite p, finite q => f p q
  | finite _, nan => false
  | nan, _ => false

instance : Mul Scalar := ⟨lift2 (fun p q => p * q)⟩

instance : Sub Scalar := ⟨lift2 (fun p q => p - q)⟩

instance : Div Scalar := ⟨lift2 (fun p q => p / q)⟩

instance : Neg Scalar := ⟨lift1 (fun q => -q)⟩

instance : LT Scalar := ⟨fun a b => compare2 (fun p q => decide (p < q)) a b = true⟩

instance : LE Scalar := ⟨fun a b => compare2 (fun p q => decide (p ≤ q)) a b = true⟩

instance : DecidableRel (LT.lt : Scalar → Scalar → Prop) :=
  fun a b => inferInstanceAs (Decidable (compare2 (fun p q => decide (p < q)) a b = true))

instance : DecidableRel (LE.le : Scalar → Scalar → Prop) :=
  fun a b => inferInstanceAs (Decidable (compare2 (fun p q => decide (p ≤ q)) a b = true))

instance : BEq Scalar := ⟨compare2 (fun p q => decide (p = q))⟩

end Scalar

/-- Minimise over the interval `[-100, 100]` an objective that is `-x` on its domain `x < 1`
and whose computed value is not a number outside it (as with a term `log(1 - x)`). -/
def envNaN : Env Scalar Scalar Unit :=
  { axpy := fun a x y => Scalar.lift2 (fun p q => p + q) y (a * x)
    dot := fun x y => x * y
    norm := Scalar.lift1 (fun q => max q (-q))
    dual := fun x => x
    project := Scalar.lift1 (fun q => max (-100) (min 100 q))
    update := fun o _ _ => o
    value := fun _ x =>
      match x with
      | Scalar.finite q => if q < 1 then Scalar.finite (-q) else Scalar.nan
      | Scalar.nan => Scalar.nan
    gradient := fun _ _ => Scalar.finite (-1)
    check := fun st => decide (st.iter < 1)
    baseInitialize := fun st x g =>
      { st with iterateVec := x, stepVec := Scalar.finite 0, gradientVec := g }
    one := Scalar.finite 1
    half := Scalar.finite (1 / 2)
    ROL_EPSILON := Scalar.finite (1 / 2 ^ 52)
    ROL_INF := Scalar.finite (10 ^ 307) }

/-- The state in which the first pass of the outer loop of `run` begins for `envNaN`, from the
start point `x = 0` with the user-defined "Initial Step Size" `alpha0`, "Maximum Step Size"
4 and every other entry of the parameter list at its default. -/
def atFirstPassNaN (alpha0 : ℚ) : RunState Scalar Scalar Unit :=
  let z := Scalar.finite 0
  let c := initialize_B envNaN
    { state_ :=
        { iter := 0, value := z, gnorm := z, snorm := z, searchSize := z, nfval := 0, ngrad := 0
          iterateVec := z, stepVec := z, gradientVec := z }
      maxit_ := 20
      alpha0_ := Scalar.finite alpha0
      alpha0bnd_ := Scalar.finite (1 / 10000)
      useralpha_ := true
      usePrevAlpha_ := false
      c1_ := Scalar.finite (1 / 10000)
      maxAlpha_ := Scalar.finite 4
      useAdapt_ := true
      rhodec_ := Scalar.finite (1 / 2)
      rhoinc_ := Scalar.finite 2
      x := z
      obj := ()
      s := z
      ftrial := z
      gs := z
      ftrialP := z
      alphaP := z
      ls_nfval := 0
      incAlpha := false
      valueCalls := 0
      gradientCalls := 0 } z
  { c with state_ := { c.state_ with stepVec := envNaN.dual c.state_.gradientVec } }

/-- An objective on the half-line `x >= 0` with values above `ROL_INF = 10^307`: it is `-x`
at the points 0, 1 and 2, `10^307 + 3 * 10^300` at `5/2`, `10^307 + 10^300 / 2` at
`5/2 + 10^152`, and `2 * 10^307` elsewhere; its gradient is `-2 * 10^152` at `5/2` and `-1`
elsewhere.  The status test stops after `iterLimit` iterations. -/
def envLarge (iterLimit : Nat) : Env ℚ ℚ Unit :=
  { axpy := fun a x y => y + a * x
    dot := fun x y => x * y
    norm := fun x => max x (-x)
    dual := fun x => x
    project := fun x => max 0 x
    update := fun o _ _ => o
    value := fun _ x =>
      if x = 0 then 0 else if x = 1 then -1 else if x = 2 then -2
      else if x = 5 / 2 then 10 ^ 307 + 3 * 10 ^ 300
      else if x = 5 / 2 + 10 ^ 152 then 10 ^ 307 + 10 ^ 300 / 2
      else 2 * 10 ^ 307
    gradient := fun _ x => if x = 5 / 2 then -2 * 10 ^ 152 else -1
    check := fun st => decide (st.iter < iterLimit)
    baseInitialize := fun st x g => { st with iterateVec := x, stepVec := 0, gradientVec := g }
    one := 1
    half := 1 / 2
    ROL_EPSILON := 1 / 2 ^ 52
    ROL_INF := 10 ^ 307 }

/-- The algorithm object for `envLarge`: "Function Evaluation Limit" 3, user-defined
"Initial Step Size" 1, "Maximum Step Size" 2, every other entry at its default; start point
`x = 0`. -/
def startLarge : RunState ℚ ℚ Unit :=
  { start 1 2 true with maxit_ := 3 }

/-- The state in which the third pass of the outer loop of `run` begins for `envLarge`. -/
def atThirdPassLarge : Option (RunState ℚ ℚ Unit) :=
  let c := initialize_B (envLarge 3) startLarge 0
  let c : RunState ℚ ℚ Unit :=
    { c with state_ := { c.state_ with stepVec := (envLarge 3).dual c.state_.gradientVec } }
  (outerIteration (envLarge 3) 20 c).bind (outerIteration (envLarge 3) 20)

end ROL.Examples

/-! ## Loops -/

theorem forLoop_zero {σ : Type} (body : Nat → σ → σ) (s : σ) : forLoop 0 body s = s := rfl

theorem forLoop_succ {σ : Type} (n : Nat) (body : Nat → σ → σ) (s : σ) :
    forLoop (n + 1) body s = body n (forLoop n body s) := by
  simp [forLoop, List.range_succ, List.foldl_append]

/-- Loop-invariant rule for `forLoop`. -/
theorem forLoop_induct {σ : Type} (Inv : Nat → σ → Prop) (n : Nat) (body : Nat → σ → σ) (s : σ)
    (h0 : Inv 0 s) (hstep : ∀ i, i < n → ∀ a, Inv i a → Inv (i + 1) (body i a)) :
    Inv n (forLoop n body s) := by
  induction n with
  | zero => simpa [forLoop_zero] using h0
  | succ k ih =>
    rw [forLoop_succ]
    exact hstep k (Nat.lt_succ_self k) _
      (ih (fun i hi a ha => hstep i (Nat.lt_succ_of_lt hi) a ha))

theorem forLoopE_zero {σ : Type} (body : Nat → σ → Outcome σ) (s : σ) :
    forLoopE 0 body s = Outcome.ok s := rfl

theorem forLoopE_succ {σ : Type} (n : Nat) (body : Nat → σ → Outcome σ) (s : σ) :
    forLoopE (n + 1) body s = (forLoopE n body s).bind (body n) := by
  simp [forLoopE, List.range_succ, List.foldl_append]

/-- Loop-invariant rule for a loop whose body never throws under the invariant: the loop
returns and the invariant holds at the end. -/
theorem forLoopE_induct {σ : Type} (Inv : Nat → σ → Prop) (n : Nat)
    (body : Nat → σ → Outcome σ) (s : σ) (h0 : Inv 0 s)
    (hstep : ∀ i, i < n → ∀ a, Inv i a → ∃ a', body i a = Outcome.ok a' ∧ Inv (i + 1) a') :
    ∃ s', forLoopE n body s = Outcome.ok s' ∧ Inv n s' := by
  induction n with
  | zero => exact ⟨s, rfl, h0⟩
  | succ k ih =>
    obtain ⟨a, ha, hinv⟩ := ih (fun i hi a ha => hstep i (Nat.lt_succ_of_lt hi) a ha)
    obtain ⟨a', ha', hinv'⟩ := hstep k (Nat.lt_succ_self k) a hinv
    exact ⟨a', by rw [forLoopE_succ, ha, Outcome.bind, ha'], hinv'⟩

/-- Once a pass of the loop has thrown, the loop ends with that exception. -/
theorem forLoopE_raised_first {σ : Type} (n : Nat) (body : Nat → σ → Outcome σ) (s : σ)
    (e : Exception) (s' : σ) (h : body 0 s = Outcome.raised e s') :
    forLoopE (n + 1) body s = Outcome.raised e s' := by
  induction n with
  | zero => rw [forLoopE_succ, forLoopE_zero, Outcome.bind, h]
  | succ k ih => rw [forLoopE_succ, ih, Outcome.bind]

theorem inRange_nil_right (idx : List Nat) : inRange idx [] = true ↔ idx = [] := by
  cases idx <;> simp [inRange]

theorem inRange_cons_right (idx : List Nat) (n : Nat) (ns : List Nat) :
    inRange idx (n :: ns) = true ↔ ∃ i rest, idx = i :: rest ∧ i < n ∧ inRange rest ns = true := by
  cases idx with
  | nil => simp [inRange]
  | cons i rest =>
    simp only [inRange, Bool.and_eq_true, decide_eq_true_eq]
    constructor
    · rintro ⟨h1, h2⟩
      exact ⟨i, rest, rfl, h1, h2⟩
    · rintro ⟨j, r, h, h1, h2⟩
      cases h
      exact ⟨h1, h2⟩

/-! ## Loop nests that write an array -/

namespace panzer

section Nest

variable {S : Type}

theorem MDField.get_set_same (f : MDField S) (idx : List Nat) (v : S) :
    (f.set idx v).get idx = v := by
  simp [MDField.get, MDField.set]

theorem MDField.get_set_other (f : MDField S) (idx k : List Nat) (v : S) (h : k ≠ idx) :
    (f.set idx v).get k = f.get k := by
  simp [MDField.get, MDField.set, h]

theorem MDField.extents_set (f : MDField S) (idx : List Nat) (v : S) :
    (f.set idx v).extents = f.extents := rfl

/-- A loop nest of writes keeps the shape of the array. -/
theorem nest_set_extents (bounds : List Nat) (pre : List Nat) (val : List Nat → S → S)
    (a : MDField S) :
    (nest bounds (fun idx acc => acc.set (pre ++ idx) (val idx (acc.get (pre ++ idx)))) a).extents
      = a.extents := by
  induction bounds generalizing pre val a with
  | nil => rfl
  | cons n ns ih =>
    show (forLoop n _ a).extents = a.extents
    refine forLoop_induct (fun _ acc => acc.extents = a.extents) n _ a rfl ?_
    intro i _ acc hacc
    have h := ih (pre ++ [i]) (fun rest => val (i :: rest)) acc
    simp only [List.append_assoc, List.singleton_append] at h
    rw [h, hacc]

/-- An entry outside the index set of a loop nest of writes keeps its value. -/
theorem nest_set_miss (bounds : List Nat) (pre : List Nat) (val : List Nat → S → S)
    (a : MDField S) (k : List Nat)
    (h : ∀ idx, inRange idx bounds = true → k ≠ pre ++ idx) :
    (nest bounds (fun idx acc => acc.set (pre ++ idx) (val idx (acc.get (pre ++ idx)))) a).get k
      = a.get k := by
  induction bounds generalizing pre val a with
  | nil =>
    show (a.set (pre ++ []) _).get k = a.get k
    exact MDField.get_set_other _ _ _ _ (h [] rfl)
  | cons n ns ih =>
    show (forLoop n _ a).get k = a.get k
    refine forLoop_induct (fun _ acc => acc.get k = a.get k) n _ a rfl ?_
    intro i hi acc hacc
    have hk : ∀ rest, inRange rest ns = true → k ≠ (pre ++ [i]) ++ rest := by
      intro rest hrest
      have := h (i :: rest) (by simp [inRange, hi, hrest])
      simpa using this
    have h2 := ih (pre ++ [i]) (fun rest => val (i :: rest)) acc hk
    simp only [List.append_assoc, List.singleton_append] at h2
    rw [h2, hacc]

/-- An entry inside the index set of a loop nest of writes is written once, from its
value before the nest. -/
theorem nest_set_hit (bounds : List Nat) (pre : List Nat) (val : List Nat → S → S)
    (a : MDField S) (idx : List Nat) (h : inRange idx bounds = true) :
    (nest bounds (fun idx acc => acc.set (pre ++ idx) (val idx (acc.get (pre ++ idx)))) a).get
        (pre ++ idx)
      = val idx (a.get (pre ++ idx)) := by
  induction bounds generalizing pre val a idx with
  | nil =>
    rw [(inRange_nil_right idx).1 h]
    show (a.set (pre ++ []) _).get (pre ++ []) = _
    exact MDField.get_set_same _ _ _
  | cons n ns ih =>
    obtain ⟨i0, rest0, rfl, hi0, hrest0⟩ := (inRange_cons_right idx n ns).1 h
    show (forLoop n _ a).get (pre ++ i0 :: rest0) = _
    have key := forLoop_induct
      (fun i acc => acc.get (pre ++ i0 :: rest0)
        = if i0 < i then val (i0 :: rest0) (a.get (pre ++ i0 :: rest0))
          else a.get (pre ++ i0 :: rest0)) n
      (fun i acc => nest ns
        (fun rest acc => acc.set (pre ++ i :: rest) (val (i :: rest) (acc.get (pre ++ i :: rest))))
        acc) a (by simp) ?_
    · simpa [hi0] using key
    · intro i _ acc hacc
      show (nest ns _ acc).get (pre ++ i0 :: rest0) = _
      by_cases hii : i = i0
      · subst hii
        have h2 := ih (pre ++ [i]) (fun rest => val (i :: rest)) acc rest0 hrest0
        simp only [List.append_assoc, List.singleton_append] at h2
        rw [h2, hacc]
        simp
      · have hk : ∀ rest, inRange rest ns = true →
            pre ++ i0 :: rest0 ≠ (pre ++ [i]) ++ rest := by
          intro rest _ heq
          simp only [List.append_assoc, List.singleton_append, List.append_cancel_left_eq,
            List.cons.injEq] at heq
          exact hii heq.1.symm
        have h2 := nest_set_miss ns (pre ++ [i]) (fun rest => val (i :: rest)) acc _ hk
        simp only [List.append_assoc, List.singleton_append] at h2
        rw [h2, hacc]
        have : (i0 < i + 1) ↔ (i0 < i) := by omega
        simp [this]

end Nest

end panzer

/-! ## `evaluateValuesCV`: theorems -/

namespace panzer

section CVTheorems

variable {S : Type} [Zero S]

/-- For a CONST basis the first pass of the cell loop ends in `TEUCHOS_ASSERT(false)`: the
CONST block is not part of the `if / else if / else` chain that follows it. -/
theorem cvCellBody_CONST (tools : Intrepid2Tools S)
    (cell_cub_points jac jac_det jac_inv : MDField S) (icell : Nat)
    (st : BasisValues2 S × MDField S) (h : st.1.getElementSpace = EElementSpace.CONST) :
    (cvCellBody tools cell_cub_points jac jac_det jac_inv icell st).exception
      = some Exception.TeuchosAssert := by
  simp [cvCellBody, h, Outcome.exception]

/-- For a CONST basis and at least one cell `evaluateValuesCV` raises the assertion failure. -/
theorem evaluateValuesCV_CONST_exception (tools : Intrepid2Tools S) (self : BasisValues2 S)
    (cell_cub_points jac jac_det jac_inv : MDField S)
    (h : self.getElementSpace = EElementSpace.CONST) (hc : 0 < jac.dimension 0) :
    (evaluateValuesCV tools self cell_cub_points jac jac_det jac_inv).exception
      = some Exception.TeuchosAssert := by
  obtain ⟨n, hn⟩ : ∃ n, jac.dimension 0 = n + 1 := ⟨jac.dimension 0 - 1, by omega⟩
  have hb := cvCellBody_CONST tools cell_cub_points jac jac_det jac_inv 0
    (self, buildArray [self.basis_layout.numPoints, self.basis_layout.dimension]) h
  unfold evaluateValuesCV
  simp only [hn]
  cases hbody : cvCellBody tools cell_cub_points jac jac_det jac_inv 0
      (self, buildArray [self.basis_layout.numPoints, self.basis_layout.dimension]) with
  | ok s => rw [hbody] at hb; simp [Outcome.exception] at hb
  | raised e s =>
    rw [hbody] at hb
    rw [forLoopE_raised_first n _ _ e s hbody]
    simpa [Outcome.map, Outcome.exception] using hb

/-- C1 (evaluated at a failing input): for a CONST basis with one cell, two basis functions
and one integration point, `evaluateValuesCV` does not complete: it raises the assertion
failure of line 427, after `basis_scalar(0, b, 0)` has been assigned. -/
theorem evaluateValuesCV_CONST_raises :
    (evaluateValuesCV Examples.tools (Examples.object EElementSpace.CONST 1 false false)
        (Examples.cellPoints 1) (Examples.jacobian 1) Examples.jacobianDet
        (Examples.jacobian 1)).exception = some Exception.TeuchosAssert
    ∧ (evaluateValuesCV Examples.tools (Examples.object EElementSpace.CONST 1 false false)
        (Examples.cellPoints 1) (Examples.jacobian 1) Examples.jacobianDet
        (Examples.jacobian 1)).returned = false := by
  constructor <;> decide

omit [Zero S] in
theorem cvCopyPoints_extents (num_ip num_dim : Nat) (cell_cub_points : MDField S) (icell : Nat)
    (dyn : MDField S) :
    (cvCopyPoints num_ip num_dim cell_cub_points icell dyn).extents = dyn.extents :=
  nest_set_extents [num_ip, num_dim] [] (fun idx _ => cell_cub_points.get (icell :: idx)) dyn

omit [Zero S] in
theorem cvCopyPoints_get (num_ip num_dim : Nat) (cell_cub_points : MDField S) (icell : Nat)
    (dyn : MDField S) (ip d : Nat) (hip : ip < num_ip) (hd : d < num_dim) :
    (cvCopyPoints num_ip num_dim cell_cub_points icell dyn).get [ip, d]
      = cell_cub_points.get [icell, ip, d] :=
  nest_set_hit [num_ip, num_dim] [] (fun idx _ => cell_cub_points.get (icell :: idx)) dyn
    [ip, d] (by simp [inRange, hip, hd])

omit [Zero S] in
/-- After the copy, point `ip` of `dyn_cub_points` is point `ip` of cell `icell`. -/
theorem pointOf_cvCopyPoints (num_ip num_dim : Nat) (cell_cub_points : MDField S) (icell : Nat)
    (dyn : MDField S) (hdyn : dyn.extents = [num_ip, num_dim]) (ip : Nat) (hip : ip < num_ip) :
    pointOf (cvCopyPoints num_ip num_dim cell_cub_points icell dyn) ip
      = (List.range num_dim).map (fun d => cell_cub_points.get [icell, ip, d]) := by
  unfold pointOf
  have hdim : (cvCopyPoints num_ip num_dim cell_cub_points icell dyn).dimension 1 = num_dim := by
    simp [MDField.dimension, cvCopyPoints_extents, hdyn]
  rw [hdim]
  apply List.map_congr_left
  intro d hd
  exact cvCopyPoints_get num_ip num_dim cell_cub_points icell dyn ip d hip (List.mem_range.1 hd)

theorem cvScalarValues_basis_scalar (self : BasisValues2 S) (dyn : MDField S) (icell : Nat) :
    (cvScalarValues self dyn icell).basis_scalar
      = nest [self.basis_layout.cardinality, self.basis_layout.numPoints]
          (fun idx acc => acc.set ([icell] ++ idx)
            ((fun idx _ =>
              (self.intrepid_basis.getValues
                (buildArray [self.basis_layout.cardinality, self.basis_layout.numPoints]) dyn
                EOperator.OPERATOR_VALUE).get idx) idx (acc.get ([icell] ++ idx))))
          self.basis_scalar := rfl

/-- The scalar block writes the reference value at the cell's own point into
`basis_scalar(icell, b, ip)`. -/
theorem cvScalarValues_hit (self : BasisValues2 S) (dyn : MDField S) (icell b ip : Nat)
    (hb : b < self.basis_layout.cardinality) (hip : ip < self.basis_layout.numPoints) :
    (cvScalarValues self dyn icell).basis_scalar.get [icell, b, ip]
      = self.intrepid_basis.refValue EOperator.OPERATOR_VALUE b (pointOf dyn ip) [] := by
  rw [cvScalarValues_basis_scalar]
  have h := nest_set_hit [self.basis_layout.cardinality, self.basis_layout.numPoints] [icell]
    (fun idx _ =>
      (self.intrepid_basis.getValues
        (buildArray [self.basis_layout.cardinality, self.basis_layout.numPoints]) dyn
        EOperator.OPERATOR_VALUE).get idx) self.basis_scalar [b, ip]
    (by simp [inRange, hb, hip])
  simp only [List.singleton_append] at h ⊢
  rw [h]
  simp [IntrepidBasis.getValues, MDField.get, buildArray, inRange, hb, hip]

/-- The scalar block leaves the entries of the other cells alone. -/
theorem cvScalarValues_miss (self : BasisValues2 S) (dyn : MDField S) (icell c b ip : Nat)
    (hc : c ≠ icell) :
    (cvScalarValues self dyn icell).basis_scalar.get [c, b, ip]
      = self.basis_scalar.get [c, b, ip] := by
  rw [cvScalarValues_basis_scalar]
  refine nest_set_miss [self.basis_layout.cardinality, self.basis_layout.numPoints] [icell]
    (fun idx _ =>
      (self.intrepid_basis.getValues
        (buildArray [self.basis_layout.cardinality, self.basis_layout.numPoints]) dyn
        EOperator.OPERATOR_VALUE).get idx) self.basis_scalar [c, b, ip] ?_
  intro idx _ heq
  simp only [List.singleton_append, List.cons.injEq] at heq
  exact hc heq.1

theorem cvHGRAD_basis_scalar (tools : Intrepid2Tools S) (self : BasisValues2 S)
    (dyn jac_inv : MDField S) (icell : Nat) :
    (cvHGRAD tools self dyn jac_inv icell).basis_scalar
      = (cvScalarValues self dyn icell).basis_scalar := by
  unfold cvHGRAD
  simp only []
  split <;> rfl

theorem cvHGRAD_basis_layout (tools : Intrepid2Tools S) (self : BasisValues2 S)
    (dyn jac_inv : MDField S) (icell : Nat) :
    (cvHGRAD tools self dyn jac_inv icell).basis_layout = self.basis_layout := by
  unfold cvHGRAD
  simp only []
  split <;> rfl

theorem cvHGRAD_intrepid_basis (tools : Intrepid2Tools S) (self : BasisValues2 S)
    (dyn jac_inv : MDField S) (icell : Nat) :
    (cvHGRAD tools self dyn jac_inv icell).intrepid_basis = self.intrepid_basis := by
  unfold cvHGRAD
  simp only []
  split <;> rfl

/-- The cell loop of `evaluateValuesCV` for an HGRAD basis: it returns, and every entry of the
cells processed so far holds the reference value at that cell's own point. -/
theorem evaluateValuesCV_HGRAD_loop (tools : Intrepid2Tools S) (self : BasisValues2 S)
    (cell_cub_points jac jac_det jac_inv : MDField S)
    (h : self.getElementSpace = EElementSpace.HGRAD) (n : Nat) :
    ∃ st, forLoopE n (cvCellBody tools cell_cub_points jac jac_det jac_inv)
        (self, buildArray [self.basis_layout.numPoints, self.basis_layout.dimension])
        = Outcome.ok st
      ∧ st.1.basis_layout = self.basis_layout
      ∧ st.1.intrepid_basis = self.intrepid_basis
      ∧ st.2.extents = [self.basis_layout.numPoints, self.basis_layout.dimension]
      ∧ ∀ c b ip, c < n → b < self.basis_layout.cardinality →
          ip < self.basis_layout.numPoints →
          st.1.basis_scalar.get [c, b, ip]
            = self.intrepid_basis.refValue EOperator.OPERATOR_VALUE b
                ((List.range self.basis_layout.dimension).map
                  (fun d => cell_cub_points.get [c, ip, d])) [] := by
  refine forLoopE_induct
    (fun i (st : BasisValues2 S × MDField S) =>
      st.1.basis_layout = self.basis_layout
      ∧ st.1.intrepid_basis = self.intrepid_basis
      ∧ st.2.extents = [self.basis_layout.numPoints, self.basis_layout.dimension]
      ∧ ∀ c b ip, c < i → b < self.basis_layout.cardinality →
          ip < self.basis_layout.numPoints →
          st.1.basis_scalar.get [c, b, ip]
            = self.intrepid_basis.refValue EOperator.OPERATOR_VALUE b
                ((List.range self.basis_layout.dimension).map
                  (fun d => cell_cub_points.get [c, ip, d])) []) n _ _
    ⟨rfl, rfl, rfl, fun c b ip hc => absurd hc (Nat.not_lt_zero c)⟩ ?_
  rintro i _ ⟨st, dyn⟩ ⟨hlay, hbasis, hext, hval⟩
  simp only at hlay hbasis hext hval
  have hsp : st.getElementSpace = EElementSpace.HGRAD := by
    rw [BasisValues2.getElementSpace, hlay]; exact h
  refine ⟨(cvHGRAD tools st
      (cvCopyPoints st.basis_layout.numPoints st.basis_layout.dimension cell_cub_points i dyn)
      jac_inv i,
      cvCopyPoints st.basis_layout.numPoints st.basis_layout.dimension cell_cub_points i dyn),
    ?_, ?_, ?_, ?_, ?_⟩
  · simp [cvCellBody, hsp]
  · simp only [cvHGRAD_basis_layout, hlay]
  · simp only [cvHGRAD_intrepid_basis, hbasis]
  · simp only [cvCopyPoints_extents, hext, hlay]
  · intro c b ip hc hb hip
    simp only [cvHGRAD_basis_scalar]
    by_cases hci : c = i
    · subst hci
      rw [cvScalarValues_hit st _ c b ip (by rw [hlay]; exact hb) (by rw [hlay]; exact hip),
        hbasis, hlay,
        pointOf_cvCopyPoints _ _ cell_cub_points c dyn hext ip hip]
    · rw [cvScalarValues_miss st _ i c b ip hci]
      exact hval c b ip (by omega) hb hip

/-- C4: for an HGRAD basis `evaluateValuesCV` returns, and for every cell
`c < jac.dimension(0)`, every `b < cardinality` and every `ip < numPoints` the entry
`basis_scalar(c, b, ip)` is the reference-table value (`OPERATOR_VALUE`) of basis function
`b` at the point `cell_cub_points(c, ip, .)`, with no Jacobian factor; consequently the
entries of a cell do not depend on the points of the other cells: a run on a point array
that differs only in the points of cell `c` gives the same entries in every other cell. -/
theorem evaluateValuesCV_HGRAD (tools : Intrepid2Tools S) (self : BasisValues2 S)
    (cell_cub_points jac jac_det jac_inv : MDField S)
    (h : self.getElementSpace = EElementSpace.HGRAD) :
    (∃ s', evaluateValuesCV tools self cell_cub_points jac jac_det jac_inv = Outcome.ok s'
      ∧ ∀ c b ip, c < jac.dimension 0 → b < self.basis_layout.cardinality →
          ip < self.basis_layout.numPoints →
          s'.basis_scalar.get [c, b, ip]
            = self.intrepid_basis.refValue EOperator.OPERATOR_VALUE b
                ((List.range self.basis_layout.dimension).map
                  (fun d => cell_cub_points.get [c, ip, d])) [])
    ∧ ∀ (other_points : MDField S) (c : Nat),
        (∀ c' ip d, c' ≠ c → other_points.get [c', ip, d] = cell_cub_points.get [c', ip, d]) →
        ∀ c' b ip, c' ≠ c → c' < jac.dimension 0 → b < self.basis_layout.cardinality →
          ip < self.basis_layout.numPoints →
          (evaluateValuesCV tools self other_points jac jac_det jac_inv).state.basis_scalar.get
              [c', b, ip]
            = (evaluateValuesCV tools self cell_cub_points jac jac_det
                jac_inv).state.basis_scalar.get [c', b, ip] := by
  have run : ∀ pts : MDField S,
      ∃ s', evaluateValuesCV tools self pts jac jac_det jac_inv = Outcome.ok s'
        ∧ ∀ c b ip, c < jac.dimension 0 → b < self.basis_layout.cardinality →
          ip < self.basis_layout.numPoints →
          s'.basis_scalar.get [c, b, ip]
            = self.intrepid_basis.refValue EOperator.OPERATOR_VALUE b
                ((List.range self.basis_layout.dimension).map
                  (fun d => pts.get [c, ip, d])) [] := by
    intro pts
    obtain ⟨st, hst, _, _, _, hval⟩ :=
      evaluateValuesCV_HGRAD_loop tools self pts jac jac_det jac_inv h (jac.dimension 0)
    exact ⟨st.1, by simp only [evaluateValuesCV, hst, Outcome.map], hval⟩
  refine ⟨run cell_cub_points, ?_⟩
  intro other_points c hsame c' b ip hc' hlt hb hip
  obtain ⟨s1, hs1, hv1⟩ := run cell_cub_points
  obtain ⟨s2, hs2, hv2⟩ := run other_points
  rw [hs1, hs2]
  simp only [Outcome.state]
  rw [hv1 c' b ip hlt hb hip, hv2 c' b ip hlt hb hip]
  congr 1
  apply List.map_congr_left
  intro d _
  exact hsame c' ip d hc'

/-- Instance of C4: an HGRAD basis in two dimensions with gradients requested, on one cell
whose only integration point is `(0, 1)`; basis function 1 has the reference value 3 there. -/
theorem evaluateValuesCV_HGRAD_witness :
    (Examples.object EElementSpace.HGRAD 2 true false).getElementSpace = EElementSpace.HGRAD
    ∧ (evaluateValuesCV Examples.tools (Examples.object EElementSpace.HGRAD 2 true false)
        (Examples.cellPoints 2) (Examples.jacobian 2) Examples.jacobianDet
        (Examples.jacobian 2)).returned = true
    ∧ (evaluateValuesCV Examples.tools (Examples.object EElementSpace.HGRAD 2 true false)
        (Examples.cellPoints 2) (Examples.jacobian 2) Examples.jacobianDet
        (Examples.jacobian 2)).state.basis_scalar.get [0, 1, 0] = 3 := by
  obtain ⟨⟨s', hs, hv⟩, _⟩ :=
    evaluateValuesCV_HGRAD Examples.tools (Examples.object EElementSpace.HGRAD 2 true false)
      (Examples.cellPoints 2) (Examples.jacobian 2) Examples.jacobianDet (Examples.jacobian 2)
      rfl
  refine ⟨rfl, ?_, ?_⟩
  · rw [hs]; rfl
  · rw [hs]
    exact (hv 0 1 0 (by decide) (by decide) (by decide)).trans (by decide)

end CVTheorems

end panzer

/-! ## `applyOrientations`: theorems -/

namespace panzer

section OrientationTheorems

variable {S : Type} [Zero S] [Mul S]

omit [Zero S] in
/-- The rank-4 sign loop multiplies every entry in its index range by `orientations(c, b)`. -/
theorem scaleVector_get (num_cell num_basis num_ip num_dim : Nat) (orientations arr : MDField S)
    (c b p d : Nat) (hc : c < num_cell) (hb : b < num_basis) (hp : p < num_ip)
    (hd : d < num_dim) :
    (scaleVector num_cell num_basis num_ip num_dim orientations arr).get [c, b, p, d]
      = arr.get [c, b, p, d] * orientations.get [c, b] := by
  have h := nest_set_hit [num_cell, num_basis, num_ip, num_dim] []
    (fun (idx : List Nat) (v : S) =>
      match idx with
      | c :: b :: _ => v * orientations.get [c, b]
      | _ => v) arr [c, b, p, d] (by simp [inRange, hc, hb, hp, hd])
  exact h

omit [Zero S] in
/-- The rank-3 sign loop multiplies every entry in its index range by `orientations(c, b)`. -/
theorem scaleScalar_get (num_cell num_basis num_ip : Nat) (orientations arr : MDField S)
    (c b p : Nat) (hc : c < num_cell) (hb : b < num_basis) (hp : p < num_ip) :
    (scaleScalar num_cell num_basis num_ip orientations arr).get [c, b, p]
      = arr.get [c, b, p] * orientations.get [c, b] := by
  have h := nest_set_hit [num_cell, num_basis, num_ip] []
    (fun (idx : List Nat) (v : S) =>
      match idx with
      | c :: b :: _ => v * orientations.get [c, b]
      | _ => v) arr [c, b, p] (by simp [inRange, hc, hb, hp])
  exact h

omit [Zero S] in
/-- C2: for an HDIV basis, or an HCURL basis of dimension 2 or 3, the sign-field overload of
`applyOrientations` replaces `basis_vector(c,b,p,d)` by `basis_vector(c,b,p,d) *
orientations(c,b)` for all `c < orientations.dimension(0)`, `b < orientations.dimension(1)`,
`p < numPoints`, `d < dimension`; when `compute_derivatives` is set it multiplies the
entries of the matching derivative array (`curl_basis_scalar` for HCURL in 2D,
`curl_basis_vector` for HCURL in 3D, `div_basis` for HDIV) by the same `orientations(c,b)`;
and it leaves every reference array unchanged. -/
theorem applyOrientations_signs (tools : Intrepid2Tools S) (self : BasisValues2 S)
    (orientations : MDField S)
    (hsp : self.getElementSpace = EElementSpace.HDIV
      ∨ (self.getElementSpace = EElementSpace.HCURL
        ∧ (self.basis_layout.dimension = 2 ∨ self.basis_layout.dimension = 3))) :
    (∀ c b p d, c < orientations.dimension 0 → b < orientations.dimension 1 →
        p < self.basis_layout.numPoints → d < self.basis_layout.dimension →
        (applyOrientations tools self orientations).basis_vector.get [c, b, p, d]
          = self.basis_vector.get [c, b, p, d] * orientations.get [c, b])
    ∧ (self.compute_derivatives = true →
        (self.getElementSpace = EElementSpace.HCURL → self.basis_layout.dimension = 2 →
          ∀ c b p, c < orientations.dimension 0 → b < orientations.dimension 1 →
            p < self.basis_layout.numPoints →
            (applyOrientations tools self orientations).curl_basis_scalar.get [c, b, p]
              = self.curl_basis_scalar.get [c, b, p] * orientations.get [c, b])
        ∧ (self.getElementSpace = EElementSpace.HCURL → self.basis_layout.dimension = 3 →
          ∀ c b p d, c < orientations.dimension 0 → b < orientations.dimension 1 →
            p < self.basis_layout.numPoints → d < self.basis_layout.dimension →
            (applyOrientations tools self orientations).curl_basis_vector.get [c, b, p, d]
              = self.curl_basis_vector.get [c, b, p, d] * orientations.get [c, b])
        ∧ (self.getElementSpace = EElementSpace.HDIV →
          ∀ c b p, c < orientations.dimension 0 → b < orientations.dimension 1 →
            p < self.basis_layout.numPoints →
            (applyOrientations tools self orientations).div_basis.get [c, b, p]
              = self.div_basis.get [c, b, p] * orientations.get [c, b]))
    ∧ (applyOrientations tools self orientations).basis_ref_scalar = self.basis_ref_scalar
    ∧ (applyOrientations tools self orientations).basis_ref_vector = self.basis_ref_vector
    ∧ (applyOrientations tools self orientations).grad_basis_ref = self.grad_basis_ref
    ∧ (applyOrientations tools self orientations).curl_basis_ref_scalar
        = self.curl_basis_ref_scalar
    ∧ (applyOrientations tools self orientations).curl_basis_ref_vector
        = self.curl_basis_ref_vector
    ∧ (applyOrientations tools self orientations).div_basis_ref = self.div_basis_ref
    ∧ (applyOrientations tools self orientations).basis_coordinates_ref
        = self.basis_coordinates_ref := by
  rcases hsp with hdiv | ⟨hcurl, h2 | h3⟩
  · refine ⟨?_, ?_, ?_⟩
    · intro c b p d hc hb hp hd
      have := scaleVector_get _ _ _ _ orientations self.basis_vector c b p d hc hb hp hd
      unfold applyOrientations
      simp only [hdiv]
      cases hcd : self.compute_derivatives <;> cases hbw : self.build_weighted <;>
        simpa using this
    · intro hcd
      refine ⟨by simp [hdiv], by simp [hdiv], ?_⟩
      intro _ c b p hc hb hp
      have := scaleScalar_get _ _ _ orientations self.div_basis c b p hc hb hp
      unfold applyOrientations
      simp only [hdiv, hcd]
      cases hbw : self.build_weighted <;> simpa using this
    · unfold applyOrientations
      simp only [hdiv]
      cases hcd : self.compute_derivatives <;> cases hbw : self.build_weighted <;> simp
  · refine ⟨?_, ?_, ?_⟩
    · intro c b p d hc hb hp hd
      have := scaleVector_get _ _ _ _ orientations self.basis_vector c b p d hc hb hp hd
      unfold applyOrientations
      simp only [hcurl, h2]
      cases hcd : self.compute_derivatives <;> cases hbw : self.build_weighted <;>
        simpa [h2] using this
    · intro hcd
      refine ⟨?_, by simp [h2], by simp [hcurl]⟩
      intro _ _ c b p hc hb hp
      have := scaleScalar_get _ _ _ orientations self.curl_basis_scalar c b p hc hb hp
      unfold applyOrientations
      simp only [hcurl, h2, hcd]
      cases hbw : self.build_weighted <;> simpa [h2] using this
    · unfold applyOrientations
      simp only [hcurl, h2]
      cases hcd : self.compute_derivatives <;> cases hbw : self.build_weighted <;> simp
  · refine ⟨?_, ?_, ?_⟩
    · intro c b p d hc hb hp hd
      have := scaleVector_get _ _ _ _ orientations self.basis_vector c b p d hc hb hp hd
      unfold applyOrientations
      simp only [hcurl, h3]
      cases hcd : self.compute_derivatives <;> cases hbw : self.build_weighted <;>
        simpa [h3] using this
    · intro hcd
      refine ⟨by simp [h3], ?_, by simp [hcurl]⟩
      intro _ _ c b p d hc hb hp hd
      have := scaleVector_get _ _ _ _ orientations self.curl_basis_vector c b p d hc hb hp hd
      unfold applyOrientations
      simp only [hcurl, h3, hcd]
      cases hbw : self.build_weighted <;> simpa [h3] using this
    · unfold applyOrientations
      simp only [hcurl, h3]
      cases hcd : self.compute_derivatives <;> cases hbw : self.build_weighted <;> simp

/-- Instance of C2: an HDIV basis in two dimensions with derivatives, every array entry 5 and
every sign -1: the physical entries become `5 * -1`. -/
theorem applyOrientations_signs_witness :
    (Examples.object EElementSpace.HDIV 2 true true).getElementSpace = EElementSpace.HDIV
    ∧ (applyOrientations Examples.tools (Examples.object EElementSpace.HDIV 2 true true)
        (Examples.constField [1, 2] (-1))).basis_vector.get [0, 1, 0, 1] = 5 * -1
    ∧ (applyOrientations Examples.tools (Examples.object EElementSpace.HDIV 2 true true)
        (Examples.constField [1, 2] (-1))).div_basis.get [0, 1, 0] = 5 * -1 :=
  ⟨rfl,
    (applyOrientations_signs Examples.tools (Examples.object EElementSpace.HDIV 2 true true)
      (Examples.constField [1, 2] (-1)) (Or.inl rfl)).1 0 1 0 1
      (by decide) (by decide) (by decide) (by decide),
    ((applyOrientations_signs Examples.tools (Examples.object EElementSpace.HDIV 2 true true)
      (Examples.constField [1, 2] (-1)) (Or.inl rfl)).2.1 rfl).2.2 rfl 0 1 0
      (by decide) (by decide) (by decide)⟩

end OrientationTheorems

end panzer

/-! ## `evaluateValues`: theorems -/

namespace panzer

section EvaluateTheorems

variable {S : Type} [Zero S] [Mul S]

omit [Zero S] in
/-- Every in-range entry written by `multiplyMeasure` is the measure times the input entry. -/
theorem multiplyMeasure_get (output measure input : MDField S) (c b p : Nat) (rest : List Nat)
    (h : inRange (c :: b :: p :: rest) output.extents = true) :
    (multiplyMeasure output measure input).get (c :: b :: p :: rest)
      = measure.get [c, p] * input.get (c :: b :: p :: rest) := by
  simp [multiplyMeasure, MDField.get, h]

omit [Zero S] in
theorem multiplyMeasure_extents (output measure input : MDField S) :
    (multiplyMeasure output measure input).extents = output.extents := rfl

omit [Mul S] in
/-- The reference stage of `evaluateValues` returns exactly for the four named spaces; it
keeps the layout and the flags and sets `references_evaluated`. -/
theorem evaluateReferenceValues_ok (self : BasisValues2 S) (cub_points : MDField S)
    (compute_derivatives use_vertex_coordinates : Bool)
    (hsp : self.getElementSpace = EElementSpace.CONST
      ∨ self.getElementSpace = EElementSpace.HGRAD
      ∨ self.getElementSpace = EElementSpace.HCURL
      ∨ self.getElementSpace = EElementSpace.HDIV) :
    ∃ s1, evaluateReferenceValues self cub_points compute_derivatives use_vertex_coordinates
        = Outcome.ok s1
      ∧ s1.basis_layout = self.basis_layout
      ∧ s1.build_weighted = self.build_weighted
      ∧ s1.compute_derivatives = self.compute_derivatives
      ∧ s1.references_evaluated = true := by
  have hderiv : ∀ (s : BasisValues2 S) (d : MDField S) (cd : Bool),
      (refDerivStage s d cd).basis_layout = s.basis_layout
      ∧ (refDerivStage s d cd).build_weighted = s.build_weighted
      ∧ (refDerivStage s d cd).compute_derivatives = s.compute_derivatives := by
    intro s d cd
    unfold refDerivStage
    simp only []
    split_ifs <;> exact ⟨rfl, rfl, rfl⟩
  have hcoords : ∀ (s : BasisValues2 S) (u : Bool),
      (refCoordsStage s u).basis_layout = s.basis_layout
      ∧ (refCoordsStage s u).build_weighted = s.build_weighted
      ∧ (refCoordsStage s u).compute_derivatives = s.compute_derivatives := by
    intro s u
    unfold refCoordsStage
    split_ifs <;> exact ⟨rfl, rfl, rfl⟩
  have hvals : ∃ s0, refValuesStage self
        (copy2 self.basis_layout.numPoints self.basis_layout.dimension cub_points
          (buildArray [self.basis_layout.numPoints, self.basis_layout.dimension]))
        = Outcome.ok s0
      ∧ s0.basis_layout = self.basis_layout
      ∧ s0.build_weighted = self.build_weighted
      ∧ s0.compute_derivatives = self.compute_derivatives := by
    unfold refValuesStage
    rcases hsp with h | h | h | h <;> simp [h]
  obtain ⟨s0, hs0, hl0, hb0, hc0⟩ := hvals
  refine ⟨{ refCoordsStage (refDerivStage s0
        (copy2 self.basis_layout.numPoints self.basis_layout.dimension cub_points
          (buildArray [self.basis_layout.numPoints, self.basis_layout.dimension]))
        compute_derivatives) use_vertex_coordinates with references_evaluated := true },
    ?_, ?_, ?_, ?_, rfl⟩
  · unfold evaluateReferenceValues
    simp only [hs0, Outcome.bind]
  · show (refCoordsStage (refDerivStage s0 _ _) _).basis_layout = _
    rw [(hcoords _ _).1, (hderiv _ _ _).1, hl0]
  · show (refCoordsStage (refDerivStage s0 _ _) _).build_weighted = _
    rw [(hcoords _ _).2.1, (hderiv _ _ _).2.1, hb0]
  · show (refCoordsStage (refDerivStage s0 _ _) _).compute_derivatives = _
    rw [(hcoords _ _).2.2, (hderiv _ _ _).2.2, hc0]

omit [Mul S] in
/-- For a space outside the four named ones the reference stage raises the assertion. -/
theorem evaluateReferenceValues_raises (self : BasisValues2 S) (cub_points : MDField S)
    (compute_derivatives use_vertex_coordinates : Bool)
    (h1 : self.getElementSpace ≠ EElementSpace.CONST)
    (h2 : self.getElementSpace ≠ EElementSpace.HGRAD)
    (h3 : self.getElementSpace ≠ EElementSpace.HCURL)
    (h4 : self.getElementSpace ≠ EElementSpace.HDIV) :
    evaluateReferenceValues self cub_points compute_derivatives use_vertex_coordinates
      = Outcome.raised Exception.TeuchosAssert self := by
  unfold evaluateReferenceValues refValuesStage
  simp [h1, h2, h3, h4, Outcome.bind]

omit [Zero S] in
theorem weightedBy_multiplyMeasure (output measure input : MDField S) :
    WeightedBy measure input (multiplyMeasure output measure input) := by
  intro c b p rest h
  exact multiplyMeasure_get output measure input c b p rest h

omit [Zero S] in
/-- The value stage returns for the four named spaces, keeps layout and flags, and with
`build_weighted` set leaves the weighted value array equal to measure times physical. -/
theorem valuesStage_ok (tools : Intrepid2Tools S) (s1 : BasisValues2 S)
    (jac jac_det jac_inv weighted_measure : MDField S)
    (hsp : s1.getElementSpace = EElementSpace.CONST
      ∨ s1.getElementSpace = EElementSpace.HGRAD
      ∨ s1.getElementSpace = EElementSpace.HCURL
      ∨ s1.getElementSpace = EElementSpace.HDIV) :
    ∃ s2, valuesStage tools s1 jac jac_det jac_inv weighted_measure = Outcome.ok s2
      ∧ s2.basis_layout = s1.basis_layout
      ∧ s2.build_weighted = s1.build_weighted
      ∧ s2.compute_derivatives = s1.compute_derivatives
      ∧ s2.references_evaluated = s1.references_evaluated
      ∧ (s1.build_weighted = true →
          (s1.getElementSpace = EElementSpace.HGRAD ∨ s1.getElementSpace = EElementSpace.CONST →
            WeightedBy weighted_measure s2.basis_scalar s2.weighted_basis_scalar)
          ∧ (s1.getElementSpace = EElementSpace.HCURL ∨ s1.getElementSpace = EElementSpace.HDIV →
            WeightedBy weighted_measure s2.basis_vector s2.weighted_basis_vector)) := by
  unfold valuesStage
  cases hbw : s1.build_weighted <;> rcases hsp with h | h | h | h <;>
    simp [h, hbw, weightedBy_multiplyMeasure]

omit [Zero S] in
/-- The derivative stage keeps layout, flags and the value arrays, and with `build_weighted`
set leaves the matching weighted derivative array equal to measure times physical. -/
theorem derivStage_spec (tools : Intrepid2Tools S) (s2 : BasisValues2 S)
    (jac jac_det jac_inv weighted_measure : MDField S) :
    (derivStage tools s2 jac jac_det jac_inv weighted_measure).basis_layout = s2.basis_layout
    ∧ (derivStage tools s2 jac jac_det jac_inv weighted_measure).references_evaluated
        = s2.references_evaluated
    ∧ (derivStage tools s2 jac jac_det jac_inv weighted_measure).basis_scalar = s2.basis_scalar
    ∧ (derivStage tools s2 jac jac_det jac_inv weighted_measure).weighted_basis_scalar
        = s2.weighted_basis_scalar
    ∧ (derivStage tools s2 jac jac_det jac_inv weighted_measure).basis_vector = s2.basis_vector
    ∧ (derivStage tools s2 jac jac_det jac_inv weighted_measure).weighted_basis_vector
        = s2.weighted_basis_vector
    ∧ (s2.build_weighted = true → s2.compute_derivatives = true →
        (s2.getElementSpace = EElementSpace.HGRAD →
          WeightedBy weighted_measure
            (derivStage tools s2 jac jac_det jac_inv weighted_measure).grad_basis
            (derivStage tools s2 jac jac_det jac_inv weighted_measure).weighted_grad_basis)
        ∧ (s2.getElementSpace = EElementSpace.HCURL → s2.basis_layout.dimension = 2 →
          WeightedBy weighted_measure
            (derivStage tools s2 jac jac_det jac_inv weighted_measure).curl_basis_scalar
            (derivStage tools s2 jac jac_det jac_inv
              weighted_measure).weighted_curl_basis_scalar)
        ∧ (s2.getElementSpace = EElementSpace.HCURL → s2.basis_layout.dimension = 3 →
          WeightedBy weighted_measure
            (derivStage tools s2 jac jac_det jac_inv weighted_measure).curl_basis_vector
            (derivStage tools s2 jac jac_det jac_inv
              weighted_measure).weighted_curl_basis_vector)
        ∧ (s2.getElementSpace = EElementSpace.HDIV →
          WeightedBy weighted_measure
            (derivStage tools s2 jac jac_det jac_inv weighted_measure).div_basis
            (derivStage tools s2 jac jac_det jac_inv weighted_measure).weighted_div_basis)) := by
  refine ⟨?_, ?_, ?_, ?_, ?_, ?_, ?_⟩
  · unfold derivStage; simp only []; split_ifs <;> rfl
  · unfold derivStage; simp only []; split_ifs <;> rfl
  · unfold derivStage; simp only []; split_ifs <;> rfl
  · unfold derivStage; simp only []; split_ifs <;> rfl
  · unfold derivStage; simp only []; split_ifs <;> rfl
  · unfold derivStage; simp only []; split_ifs <;> rfl
  · intro hbw hcd
    refine ⟨?_, ?_, ?_, ?_⟩
    · intro h
      unfold derivStage
      simp [h, hbw, hcd, weightedBy_multiplyMeasure]
    · intro h hd
      unfold derivStage
      simp [h, hd, hbw, hcd, weightedBy_multiplyMeasure]
    · intro h hd
      unfold derivStage
      simp [h, hd, hbw, hcd, weightedBy_multiplyMeasure]
    · intro h
      unfold derivStage
      simp [h, hbw, hcd, weightedBy_multiplyMeasure]

omit [Zero S] [Mul S] in
theorem sameWeightedShapes_refl (s : BasisValues2 S) : SameWeightedShapes s s :=
  ⟨rfl, rfl, rfl, rfl, rfl, rfl⟩

omit [Zero S] [Mul S] in
theorem sameWeightedShapes_trans {s t u : BasisValues2 S} (h1 : SameWeightedShapes s t)
    (h2 : SameWeightedShapes t u) : SameWeightedShapes s u := by
  unfold SameWeightedShapes at h1 h2 ⊢
  simp only [h2.1, h2.2.1, h2.2.2.1, h2.2.2.2.1, h2.2.2.2.2.1, h2.2.2.2.2.2]
  exact h1

omit [Mul S] in
/-- The reference stage does not touch the weighted arrays. -/
theorem evaluateReferenceValues_shapes (self : BasisValues2 S) (cub_points : MDField S)
    (compute_derivatives use_vertex_coordinates : Bool) :
    SameWeightedShapes self
      (evaluateReferenceValues self cub_points compute_derivatives
        use_vertex_coordinates).state := by
  have hderiv : ∀ (s : BasisValues2 S) (d : MDField S) (cd : Bool),
      SameWeightedShapes s (refDerivStage s d cd) := by
    intro s d cd
    unfold refDerivStage
    simp only []
    split_ifs <;> exact sameWeightedShapes_refl s
  have hcoords : ∀ (s : BasisValues2 S) (u : Bool),
      SameWeightedShapes s (refCoordsStage s u) := by
    intro s u
    unfold refCoordsStage
    split_ifs <;> exact sameWeightedShapes_refl s
  unfold evaluateReferenceValues
  simp only []
  cases hv : refValuesStage self
      (copy2 self.basis_layout.numPoints self.basis_layout.dimension cub_points
        (buildArray [self.basis_layout.numPoints, self.basis_layout.dimension])) with
  | raised e s0 =>
    have h0 : SameWeightedShapes self s0 := by
      unfold refValuesStage at hv
      simp only [] at hv
      split_ifs at hv
      cases hv
      exact sameWeightedShapes_refl self
    exact h0
  | ok s0 =>
    have h0 : SameWeightedShapes self s0 := by
      unfold refValuesStage at hv
      simp only [] at hv
      split_ifs at hv <;> cases hv <;> exact sameWeightedShapes_refl self
    exact sameWeightedShapes_trans h0 (sameWeightedShapes_trans (hderiv _ _ _) (hcoords _ _))

omit [Zero S] in
/-- The value stage keeps the shapes of the weighted arrays: `multiplyMeasure` writes the
entries of its output array and does not reshape it. -/
theorem valuesStage_shapes (tools : Intrepid2Tools S) (s1 : BasisValues2 S)
    (jac jac_det jac_inv weighted_measure : MDField S) :
    SameWeightedShapes s1 (valuesStage tools s1 jac jac_det jac_inv weighted_measure).state := by
  unfold valuesStage
  simp only []
  cases hbw : s1.build_weighted <;> split_ifs <;>
    simp [SameWeightedShapes, Outcome.state, hbw, multiplyMeasure]

omit [Zero S] in
/-- The derivative stage keeps the shapes of the weighted arrays. -/
theorem derivStage_shapes (tools : Intrepid2Tools S) (s2 : BasisValues2 S)
    (jac jac_det jac_inv weighted_measure : MDField S) :
    SameWeightedShapes s2 (derivStage tools s2 jac jac_det jac_inv weighted_measure) := by
  unfold derivStage
  simp only []
  cases hbw : s2.build_weighted <;> split_ifs <;>
    simp [SameWeightedShapes, hbw, multiplyMeasure]

omit [Zero S] [Mul S] in
/-- The coordinate stage does not touch the weighted arrays. -/
theorem coordsStage_shapes (tools : Intrepid2Tools S) (s3 : BasisValues2 S)
    (vertex_coordinates : MDField S) (use_vertex_coordinates : Bool) :
    SameWeightedShapes s3 (coordsStage tools s3 vertex_coordinates use_vertex_coordinates) := by
  unfold coordsStage
  split_ifs <;> exact sameWeightedShapes_refl s3

/-- The seven-argument `evaluateValues` keeps the shapes the weighted arrays were allocated
with, whether it returns or raises. -/
theorem evaluateValues_shapes (tools : Intrepid2Tools S) (self : BasisValues2 S)
    (cub_points jac jac_det jac_inv weighted_measure vertex_coordinates : MDField S)
    (use_vertex_coordinates : Bool) :
    SameWeightedShapes self
      (evaluateValues tools self cub_points jac jac_det jac_inv weighted_measure
        vertex_coordinates use_vertex_coordinates).state := by
  have h1 := evaluateReferenceValues_shapes self cub_points self.compute_derivatives
    use_vertex_coordinates
  unfold evaluateValues
  cases hr : evaluateReferenceValues self cub_points self.compute_derivatives
      use_vertex_coordinates with
  | raised e s1 =>
    rw [hr] at h1
    exact h1
  | ok s1 =>
    rw [hr] at h1
    have h2 := valuesStage_shapes tools s1 jac jac_det jac_inv weighted_measure
    simp only [Outcome.bind]
    cases hv : valuesStage tools s1 jac jac_det jac_inv weighted_measure with
    | raised e s2 =>
      rw [hv] at h2
      exact sameWeightedShapes_trans h1 h2
    | ok s2 =>
      rw [hv] at h2
      exact sameWeightedShapes_trans h1 (sameWeightedShapes_trans h2
        (sameWeightedShapes_trans (derivStage_shapes tools s2 jac jac_det jac_inv
        weighted_measure) (coordsStage_shapes tools _ vertex_coordinates
        use_vertex_coordinates)))

/-- Run of the seven-argument `evaluateValues` on one of the four named spaces: it returns,
`references_evaluated` is set, and with `build_weighted` set every weighted array that the
run fills is the measure times the matching physical array. -/
theorem evaluateValues_run (tools : Intrepid2Tools S) (self : BasisValues2 S)
    (cub_points jac jac_det jac_inv weighted_measure vertex_coordinates : MDField S)
    (use_vertex_coordinates : Bool)
    (hsp : self.getElementSpace = EElementSpace.CONST
      ∨ self.getElementSpace = EElementSpace.HGRAD
      ∨ self.getElementSpace = EElementSpace.HCURL
      ∨ self.getElementSpace = EElementSpace.HDIV) :
    ∃ s', evaluateValues tools self cub_points jac jac_det jac_inv weighted_measure
        vertex_coordinates use_vertex_coordinates = Outcome.ok s'
      ∧ s'.references_evaluated = true
      ∧ (self.build_weighted = true →
        (self.getElementSpace = EElementSpace.HGRAD ∨ self.getElementSpace = EElementSpace.CONST →
          WeightedBy weighted_measure s'.basis_scalar s'.weighted_basis_scalar)
        ∧ (self.getElementSpace = EElementSpace.HCURL ∨ self.getElementSpace = EElementSpace.HDIV →
          WeightedBy weighted_measure s'.basis_vector s'.weighted_basis_vector)
        ∧ (self.compute_derivatives = true →
          (self.getElementSpace = EElementSpace.HGRAD →
            WeightedBy weighted_measure s'.grad_basis s'.weighted_grad_basis)
          ∧ (self.getElementSpace = EElementSpace.HCURL → self.basis_layout.dimension = 2 →
            WeightedBy weighted_measure s'.curl_basis_scalar s'.weighted_curl_basis_scalar)
          ∧ (self.getElementSpace = EElementSpace.HCURL → self.basis_layout.dimension = 3 →
            WeightedBy weighted_measure s'.curl_basis_vector s'.weighted_curl_basis_vector)
          ∧ (self.getElementSpace = EElementSpace.HDIV →
            WeightedBy weighted_measure s'.div_basis s'.weighted_div_basis))) := by
  obtain ⟨s1, hs1, hl1, hb1, hc1, hr1⟩ :=
    evaluateReferenceValues_ok self cub_points self.compute_derivatives use_vertex_coordinates hsp
  have hsp1 : s1.getElementSpace = self.getElementSpace := by
    simp only [BasisValues2.getElementSpace, hl1]
  obtain ⟨s2, hs2, hl2, hb2, hc2, hr2, hw2⟩ :=
    valuesStage_ok tools s1 jac jac_det jac_inv weighted_measure (by rw [hsp1]; exact hsp)
  have hsp2 : s2.getElementSpace = self.getElementSpace := by
    simp only [BasisValues2.getElementSpace, hl2, hl1]
  obtain ⟨dl, dr, dbs, dwbs, dbv, dwbv, dw⟩ :=
    derivStage_spec tools s2 jac jac_det jac_inv weighted_measure
  have hcoords : ∀ s : BasisValues2 S,
      (coordsStage tools s vertex_coordinates use_vertex_coordinates).references_evaluated
          = s.references_evaluated
      ∧ (coordsStage tools s vertex_coordinates use_vertex_coordinates).basis_scalar
          = s.basis_scalar
      ∧ (coordsStage tools s vertex_coordinates use_vertex_coordinates).weighted_basis_scalar
          = s.weighted_basis_scalar
      ∧ (coordsStage tools s vertex_coordinates use_vertex_coordinates).basis_vector
          = s.basis_vector
      ∧ (coordsStage tools s vertex_coordinates use_vertex_coordinates).weighted_basis_vector
          = s.weighted_basis_vector
      ∧ (coordsStage tools s vertex_coordinates use_vertex_coordinates).grad_basis = s.grad_basis
      ∧ (coordsStage tools s vertex_coordinates use_vertex_coordinates).weighted_grad_basis
          = s.weighted_grad_basis
      ∧ (coordsStage tools s vertex_coordinates use_vertex_coordinates).curl_basis_scalar
          = s.curl_basis_scalar
      ∧ (coordsStage tools s vertex_coordinates use_vertex_coordinates).weighted_curl_basis_scalar
          = s.weighted_curl_basis_scalar
      ∧ (coordsStage tools s vertex_coordinates use_vertex_coordinates).curl_basis_vector
          = s.curl_basis_vector
      ∧ (coordsStage tools s vertex_coordinates use_vertex_coordinates).weighted_curl_basis_vector
          = s.weighted_curl_basis_vector
      ∧ (coordsStage tools s vertex_coordinates use_vertex_coordinates).div_basis = s.div_basis
      ∧ (coordsStage tools s vertex_coordinates use_vertex_coordinates).weighted_div_basis
          = s.weighted_div_basis := by
    intro s
    unfold coordsStage
    split <;> exact ⟨rfl, rfl, rfl, rfl, rfl, rfl, rfl, rfl, rfl, rfl, rfl, rfl, rfl⟩
  obtain ⟨c0, c1, c2, c3, c4, c5, c6, c7, c8, c9, c10, c11, c12⟩ :=
    hcoords (derivStage tools s2 jac jac_det jac_inv weighted_measure)
  refine ⟨coordsStage tools (derivStage tools s2 jac jac_det jac_inv weighted_measure)
      vertex_coordinates use_vertex_coordinates, ?_, ?_, ?_⟩
  · unfold evaluateValues
    simp only [hs1, Outcome.bind, hs2]
  · rw [c0, dr, hr2, hr1]
  · intro hbw
    have hbw1 : s1.build_weighted = true := by rw [hb1]; exact hbw
    have hbw2 : s2.build_weighted = true := by rw [hb2]; exact hbw1
    obtain ⟨hws, hwv⟩ := hw2 hbw1
    refine ⟨?_, ?_, ?_⟩
    · intro h
      rw [c1, c2, dbs, dwbs]
      exact hws (by rw [hsp1]; exact h)
    · intro h
      rw [c3, c4, dbv, dwbv]
      exact hwv (by rw [hsp1]; exact h)
    · intro hcd
      have hcd2 : s2.compute_derivatives = true := by rw [hc2, hc1]; exact hcd
      obtain ⟨g, k2, k3, dv⟩ := dw hbw2 hcd2
      have hdim : s2.basis_layout.dimension = self.basis_layout.dimension := by rw [hl2, hl1]
      refine ⟨?_, ?_, ?_, ?_⟩
      · intro h
        rw [c5, c6]
        exact g (by rw [hsp2]; exact h)
      · intro h hd
        rw [c7, c8]
        exact k2 (by rw [hsp2]; exact h) (by rw [hdim]; exact hd)
      · intro h hd
        rw [c9, c10]
        exact k3 (by rw [hsp2]; exact h) (by rw [hdim]; exact hd)
      · intro h
        rw [c11, c12]
        exact dv (by rw [hsp2]; exact h)

/-- C3: when `build_weighted` is set, the seven-argument `evaluateValues` (on one of the four
supported spaces) returns; the weighted arrays keep the shapes they were allocated with, and
every entry of a weighted array equals the corresponding entry of the physical array
multiplied by the weighted measure: `weighted_basis_scalar(c,b,p) = weighted_measure(c,p) *
basis_scalar(c,b,p)` for HGRAD and CONST, `weighted_basis_vector(c,b,p,d) =
weighted_measure(c,p) * basis_vector(c,b,p,d)` for HCURL and HDIV, and, when
`compute_derivatives` is set, likewise the weighted gradient (HGRAD), curl (HCURL, scalar in
2D and vector in 3D) and divergence (HDIV) arrays. -/
theorem evaluateValues_weighted (tools : Intrepid2Tools S) (self : BasisValues2 S)
    (cub_points jac jac_det jac_inv weighted_measure vertex_coordinates : MDField S)
    (use_vertex_coordinates : Bool)
    (hbw : self.build_weighted = true)
    (hsp : self.getElementSpace = EElementSpace.CONST
      ∨ self.getElementSpace = EElementSpace.HGRAD
      ∨ self.getElementSpace = EElementSpace.HCURL
      ∨ self.getElementSpace = EElementSpace.HDIV) :
    ∃ s', evaluateValues tools self cub_points jac jac_det jac_inv weighted_measure
        vertex_coordinates use_vertex_coordinates = Outcome.ok s'
      ∧ SameWeightedShapes self s'
      ∧ (self.getElementSpace = EElementSpace.HGRAD ∨ self.getElementSpace = EElementSpace.CONST →
          ∀ c b p, inRange [c, b, p] self.weighted_basis_scalar.extents = true →
            s'.weighted_basis_scalar.get [c, b, p]
              = weighted_measure.get [c, p] * s'.basis_scalar.get [c, b, p])
      ∧ (self.getElementSpace = EElementSpace.HCURL ∨ self.getElementSpace = EElementSpace.HDIV →
          ∀ c b p d, inRange [c, b, p, d] self.weighted_basis_vector.extents = true →
            s'.weighted_basis_vector.get [c, b, p, d]
              = weighted_measure.get [c, p] * s'.basis_vector.get [c, b, p, d])
      ∧ (self.compute_derivatives = true →
          (self.getElementSpace = EElementSpace.HGRAD →
            ∀ c b p d, inRange [c, b, p, d] self.weighted_grad_basis.extents = true →
              s'.weighted_grad_basis.get [c, b, p, d]
                = weighted_measure.get [c, p] * s'.grad_basis.get [c, b, p, d])
          ∧ (self.getElementSpace = EElementSpace.HCURL → self.basis_layout.dimension = 2 →
            ∀ c b p, inRange [c, b, p] self.weighted_curl_basis_scalar.extents = true →
              s'.weighted_curl_basis_scalar.get [c, b, p]
                = weighted_measure.get [c, p] * s'.curl_basis_scalar.get [c, b, p])
          ∧ (self.getElementSpace = EElementSpace.HCURL → self.basis_layout.dimension = 3 →
            ∀ c b p d, inRange [c, b, p, d] self.weighted_curl_basis_vector.extents = true →
              s'.weighted_curl_basis_vector.get [c, b, p, d]
                = weighted_measure.get [c, p] * s'.curl_basis_vector.get [c, b, p, d])
          ∧ (self.getElementSpace = EElementSpace.HDIV →
            ∀ c b p, inRange [c, b, p] self.weighted_div_basis.extents = true →
              s'.weighted_div_basis.get [c, b, p]
                = weighted_measure.get [c, p] * s'.div_basis.get [c, b, p])) := by
  obtain ⟨s', hs, _, hw⟩ := evaluateValues_run tools self cub_points jac jac_det jac_inv
    weighted_measure vertex_coordinates use_vertex_coordinates hsp
  have hshape := evaluateValues_shapes tools self cub_points jac jac_det jac_inv
    weighted_measure vertex_coordinates use_vertex_coordinates
  rw [hs] at hshape
  obtain ⟨e1, e2, e3, e4, e5, e6⟩ := hshape
  simp only [Outcome.state] at e1 e2 e3 e4 e5 e6
  obtain ⟨w1, w2, w3⟩ := hw hbw
  refine ⟨s', hs, ⟨e1, e2, e3, e4, e5, e6⟩, ?_, ?_, ?_⟩
  · intro h c b p hin
    exact w1 h c b p [] (by rw [e1]; exact hin)
  · intro h c b p d hin
    exact w2 h c b p [d] (by rw [e2]; exact hin)
  · intro hcd
    obtain ⟨g, k2, k3, dv⟩ := w3 hcd
    refine ⟨?_, ?_, ?_, ?_⟩
    · intro h c b p d hin
      exact g h c b p [d] (by rw [e3]; exact hin)
    · intro h hd c b p hin
      exact k2 h hd c b p [] (by rw [e4]; exact hin)
    · intro h hd c b p d hin
      exact k3 h hd c b p [d] (by rw [e5]; exact hin)
    · intro h c b p hin
      exact dv h c b p [] (by rw [e6]; exact hin)

/-- C5: the seven-argument `evaluateValues` raises the assertion failure if and only if the
element space is none of CONST, HGRAD, HCURL, HDIV, and for each of those four spaces it
returns normally with `references_evaluated` set to true. -/
theorem evaluateValues_assert_iff (tools : Intrepid2Tools S) (self : BasisValues2 S)
    (cub_points jac jac_det jac_inv weighted_measure vertex_coordinates : MDField S)
    (use_vertex_coordinates : Bool) :
    ((evaluateValues tools self cub_points jac jac_det jac_inv weighted_measure
          vertex_coordinates use_vertex_coordinates).exception = some Exception.TeuchosAssert
      ↔ (self.getElementSpace ≠ EElementSpace.CONST ∧ self.getElementSpace ≠ EElementSpace.HGRAD
        ∧ self.getElementSpace ≠ EElementSpace.HCURL
        ∧ self.getElementSpace ≠ EElementSpace.HDIV))
    ∧ ((self.getElementSpace = EElementSpace.CONST ∨ self.getElementSpace = EElementSpace.HGRAD
        ∨ self.getElementSpace = EElementSpace.HCURL
        ∨ self.getElementSpace = EElementSpace.HDIV) →
      ∃ s', evaluateValues tools self cub_points jac jac_det jac_inv weighted_measure
          vertex_coordinates use_vertex_coordinates = Outcome.ok s'
        ∧ s'.references_evaluated = true) := by
  have hok : (self.getElementSpace = EElementSpace.CONST
      ∨ self.getElementSpace = EElementSpace.HGRAD
      ∨ self.getElementSpace = EElementSpace.HCURL
      ∨ self.getElementSpace = EElementSpace.HDIV) →
      ∃ s', evaluateValues tools self cub_points jac jac_det jac_inv weighted_measure
          vertex_coordinates use_vertex_coordinates = Outcome.ok s'
        ∧ s'.references_evaluated = true := by
    intro hsp
    obtain ⟨s', hs, hr, _⟩ := evaluateValues_run tools self cub_points jac jac_det jac_inv
      weighted_measure vertex_coordinates use_vertex_coordinates hsp
    exact ⟨s', hs, hr⟩
  refine ⟨⟨?_, ?_⟩, hok⟩
  · intro hex
    by_contra hnot
    have hsp : self.getElementSpace = EElementSpace.CONST
        ∨ self.getElementSpace = EElementSpace.HGRAD
        ∨ self.getElementSpace = EElementSpace.HCURL
        ∨ self.getElementSpace = EElementSpace.HDIV := by
      by_contra hn
      simp only [not_or] at hn
      exact hnot hn
    obtain ⟨s', hs, _⟩ := hok hsp
    rw [hs] at hex
    simp [Outcome.exception] at hex
  · rintro ⟨h1, h2, h3, h4⟩
    unfold evaluateValues
    rw [evaluateReferenceValues_raises self cub_points _ _ h1 h2 h3 h4]
    rfl

/-- Instance of C5: a space outside the four named ones raises the assertion, and an HGRAD
basis returns with `references_evaluated` set. -/
theorem evaluateValues_assert_iff_witness :
    (evaluateValues Examples.tools (Examples.object EElementSpace.OTHER 2 false false)
        (Examples.constField [1, 2] 0) (Examples.jacobian 2) Examples.jacobianDet
        (Examples.jacobian 2) (Examples.constField [1, 1] 7) (Examples.constField [1, 3, 2] 0)
        false).exception = some Exception.TeuchosAssert
    ∧ ∃ s', evaluateValues Examples.tools (Examples.object EElementSpace.HGRAD 2 false false)
        (Examples.constField [1, 2] 0) (Examples.jacobian 2) Examples.jacobianDet
        (Examples.jacobian 2) (Examples.constField [1, 1] 7) (Examples.constField [1, 3, 2] 0)
        false = Outcome.ok s'
      ∧ s'.references_evaluated = true :=
  ⟨(evaluateValues_assert_iff Examples.tools (Examples.object EElementSpace.OTHER 2 false false)
      (Examples.constField [1, 2] 0) (Examples.jacobian 2) Examples.jacobianDet
      (Examples.jacobian 2) (Examples.constField [1, 1] 7) (Examples.constField [1, 3, 2] 0)
      false).1.2 (by decide),
    (evaluateValues_assert_iff Examples.tools (Examples.object EElementSpace.HGRAD 2 false false)
      (Examples.constField [1, 2] 0) (Examples.jacobian 2) Examples.jacobianDet
      (Examples.jacobian 2) (Examples.constField [1, 1] 7) (Examples.constField [1, 3, 2] 0)
      false).2 (Or.inr (Or.inl rfl))⟩

/-- Instance of C3: an HDIV basis in two dimensions with derivatives and weights, every
physical entry 5 and the weighted measure 7 everywhere: the weighted entries are `7 * 5`,
in arrays of the allocated shapes. -/
theorem evaluateValues_weighted_witness :
    (Examples.object EElementSpace.HDIV 2 true true).build_weighted = true
    ∧ (Examples.object EElementSpace.HDIV 2 true true).getElementSpace = EElementSpace.HDIV
    ∧ ∃ s', evaluateValues Examples.tools (Examples.object EElementSpace.HDIV 2 true true)
        (Examples.constField [1, 2] 0) (Examples.jacobian 2) Examples.jacobianDet
        (Examples.jacobian 2) (Examples.constField [1, 1] 7) (Examples.constField [1, 3, 2] 0)
        true = Outcome.ok s'
      ∧ s'.weighted_basis_vector.extents = [1, 2, 1, 2]
      ∧ s'.weighted_div_basis.extents = [1, 2, 1]
      ∧ s'.weighted_basis_vector.get [0, 1, 0, 1] = 7 * s'.basis_vector.get [0, 1, 0, 1]
      ∧ s'.weighted_div_basis.get [0, 1, 0] = 7 * s'.div_basis.get [0, 1, 0] := by
  obtain ⟨s', hs, hshape, _, hv, hd⟩ :=
    evaluateValues_weighted Examples.tools (Examples.object EElementSpace.HDIV 2 true true)
      (Examples.constField [1, 2] 0) (Examples.jacobian 2) Examples.jacobianDet
      (Examples.jacobian 2) (Examples.constField [1, 1] 7) (Examples.constField [1, 3, 2] 0)
      true rfl (Or.inr (Or.inr (Or.inr rfl)))
  exact ⟨rfl, rfl, s', hs, hshape.2.1, hshape.2.2.2.2.2,
    hv (Or.inr rfl) 0 1 0 1 (by decide), (hd rfl).2.2.2 rfl 0 1 0 (by decide)⟩

end EvaluateTheorems

end panzer

/-! ## `setupArrays`: theorems -/

namespace panzer

section SetupTheorems

variable {S : Type} [Zero S]

/-- The allocation stage on the value arrays: for each of the four spaces the value arrays
have the documented shapes in the state it ends in (also when it ends in the assertion of
line 876), and it returns unless the space is HCURL with derivatives in a dimension other
than 2 and 3. -/
theorem allocStage_spec (self : BasisValues2 S) (elmtspace : EElementSpace)
    (num_quad dim card numcells : Nat) :
    ((elmtspace = EElementSpace.HGRAD ∨ elmtspace = EElementSpace.CONST) →
      (allocStage self elmtspace num_quad dim card numcells).state.basis_ref_scalar.extents
          = [card, num_quad]
      ∧ (allocStage self elmtspace num_quad dim card numcells).state.basis_scalar.extents
          = [numcells, card, num_quad])
    ∧ ((elmtspace = EElementSpace.HCURL ∨ elmtspace = EElementSpace.HDIV) →
      (allocStage self elmtspace num_quad dim card numcells).state.basis_ref_vector.extents
          = [card, num_quad, dim]
      ∧ (allocStage self elmtspace num_quad dim card numcells).state.basis_vector.extents
          = [numcells, card, num_quad, dim])
    ∧ (elmtspace ≠ EElementSpace.OTHER →
      ¬ (elmtspace = EElementSpace.HCURL ∧ self.compute_derivatives = true ∧ dim ≠ 2 ∧ dim ≠ 3) →
      (allocStage self elmtspace num_quad dim card numcells).returned = true) := by
  unfold allocStage
  cases elmtspace <;> cases hcd : self.compute_derivatives <;> cases hbw : self.build_weighted <;>
    simp [Outcome.state, Outcome.returned, buildArray] <;>
    split_ifs <;> simp_all [Outcome.state, Outcome.returned]

/-- The shapes allocated by `setupArrays` for the four supported element spaces, and its
normal return outside the guarded case of line 876. -/
theorem setupArrays_shapes (self : BasisValues2 S) (layout : BasisIRLayout)
    (intrepid_basis : IntrepidBasis S) (computeDerivatives : Bool)
    (hsp : layout.basis.elementSpace = EElementSpace.CONST
      ∨ layout.basis.elementSpace = EElementSpace.HGRAD
      ∨ layout.basis.elementSpace = EElementSpace.HCURL
      ∨ layout.basis.elementSpace = EElementSpace.HDIV) :
    ((layout.basis.elementSpace = EElementSpace.HGRAD
        ∨ layout.basis.elementSpace = EElementSpace.CONST) →
      (setupArrays self layout intrepid_basis computeDerivatives).state.basis_ref_scalar.extents
          = [layout.basis.cardinality, layout.numPoints]
      ∧ (setupArrays self layout intrepid_basis computeDerivatives).state.basis_scalar.extents
          = [layout.basis.numCells, layout.basis.cardinality, layout.numPoints])
    ∧ ((layout.basis.elementSpace = EElementSpace.HCURL
        ∨ layout.basis.elementSpace = EElementSpace.HDIV) →
      (setupArrays self layout intrepid_basis computeDerivatives).state.basis_ref_vector.extents
          = [layout.basis.cardinality, layout.numPoints, layout.basis.dimension]
      ∧ (setupArrays self layout intrepid_basis computeDerivatives).state.basis_vector.extents
          = [layout.basis.numCells, layout.basis.cardinality, layout.numPoints,
              layout.basis.dimension])
    ∧ (¬ (layout.basis.elementSpace = EElementSpace.HCURL ∧ computeDerivatives = true
          ∧ layout.basis.dimension ≠ 2 ∧ layout.basis.dimension ≠ 3) →
      ∃ s', setupArrays self layout intrepid_basis computeDerivatives = Outcome.ok s'
        ∧ s'.basis_coordinates_ref.extents = [layout.basis.cardinality, layout.basis.dimension]
        ∧ s'.basis_coordinates.extents
            = [layout.basis.numCells, layout.basis.cardinality, layout.basis.dimension]) := by
  have hne : layout.basis.elementSpace ≠ EElementSpace.OTHER := by
    rcases hsp with h | h | h | h <;> simp [h]
  have key : ∀ s0 : BasisValues2 S, s0.compute_derivatives = computeDerivatives →
      ((layout.basis.elementSpace = EElementSpace.HGRAD
          ∨ layout.basis.elementSpace = EElementSpace.CONST) →
        ((allocStage s0 layout.basis.elementSpace layout.numPoints layout.basis.dimension
            layout.basis.cardinality layout.basis.numCells).bind fun s =>
          Outcome.ok { s with
            basis_coordinates_ref := buildArray [layout.basis.cardinality, layout.basis.dimension]
            basis_coordinates :=
              buildArray [layout.basis.numCells, layout.basis.cardinality,
                layout.basis.dimension] }).state.basis_ref_scalar.extents
            = [layout.basis.cardinality, layout.numPoints]
        ∧ ((allocStage s0 layout.basis.elementSpace layout.numPoints layout.basis.dimension
            layout.basis.cardinality layout.basis.numCells).bind fun s =>
          Outcome.ok { s with
            basis_coordinates_ref := buildArray [layout.basis.cardinality, layout.basis.dimension]
            basis_coordinates :=
              buildArray [layout.basis.numCells, layout.basis.cardinality,
                layout.basis.dimension] }).state.basis_scalar.extents
            = [layout.basis.numCells, layout.basis.cardinality, layout.numPoints])
      ∧ ((layout.basis.elementSpace = EElementSpace.HCURL
          ∨ layout.basis.elementSpace = EElementSpace.HDIV) →
        ((allocStage s0 layout.basis.elementSpace layout.numPoints layout.basis.dimension
            layout.basis.cardinality layout.basis.numCells).bind fun s =>
          Outcome.ok { s with
            basis_coordinates_ref := buildArray [layout.basis.cardinality, layout.basis.dimension]
            basis_coordinates :=
              buildArray [layout.basis.numCells, layout.basis.cardinality,
                layout.basis.dimension] }).state.basis_ref_vector.extents
            = [layout.basis.cardinality, layout.numPoints, layout.basis.dimension]
        ∧ ((allocStage s0 layout.basis.elementSpace layout.numPoints layout.basis.dimension
            layout.basis.cardinality layout.basis.numCells).bind fun s =>
          Outcome.ok { s with
            basis_coordinates_ref := buildArray [layout.basis.cardinality, layout.basis.dimension]
            basis_coordinates :=
              buildArray [layout.basis.numCells, layout.basis.cardinality,
                layout.basis.dimension] }).state.basis_vector.extents
            = [layout.basis.numCells, layout.basis.cardinality, layout.numPoints,
                layout.basis.dimension])
      ∧ (¬ (layout.basis.elementSpace = EElementSpace.HCURL ∧ computeDerivatives = true
            ∧ layout.basis.dimension ≠ 2 ∧ layout.basis.dimension ≠ 3) →
        ∃ s', ((allocStage s0 layout.basis.elementSpace layout.numPoints layout.basis.dimension
            layout.basis.cardinality layout.basis.numCells).bind fun s =>
          Outcome.ok { s with
            basis_coordinates_ref := buildArray [layout.basis.cardinality, layout.basis.dimension]
            basis_coordinates :=
              buildArray [layout.basis.numCells, layout.basis.cardinality,
                layout.basis.dimension] }) = Outcome.ok s'
          ∧ s'.basis_coordinates_ref.extents = [layout.basis.cardinality, layout.basis.dimension]
          ∧ s'.basis_coordinates.extents
              = [layout.basis.numCells, layout.basis.cardinality, layout.basis.dimension]) := by
    intro s0 hcd0
    obtain ⟨hs, hv, hret⟩ := allocStage_spec s0 layout.basis.elementSpace layout.numPoints
      layout.basis.dimension layout.basis.cardinality layout.basis.numCells
    rw [hcd0] at hret
    cases hal : allocStage s0 layout.basis.elementSpace layout.numPoints layout.basis.dimension
        layout.basis.cardinality layout.basis.numCells with
    | ok s =>
      rw [hal] at hs hv
      exact ⟨fun h => hs h, fun h => hv h, fun _ => ⟨_, rfl, rfl, rfl⟩⟩
    | raised e s =>
      rw [hal] at hs hv hret
      refine ⟨fun h => hs h, fun h => hv h, fun hg => ?_⟩
      have := hret hne hg
      simp [Outcome.returned] at this
  exact key _ rfl

/-- The guard of line 876: for HCURL with derivatives in a dimension other than 2 and 3
`setupArrays` raises the assertion, and the coordinate arrays are still the ones the object
had at the call. -/
theorem setupArrays_guard (self : BasisValues2 S) (layout : BasisIRLayout)
    (intrepid_basis : IntrepidBasis S) (computeDerivatives : Bool)
    (hsp : layout.basis.elementSpace = EElementSpace.HCURL) (hcd : computeDerivatives = true)
    (h2 : layout.basis.dimension ≠ 2) (h3 : layout.basis.dimension ≠ 3) :
    (setupArrays self layout intrepid_basis computeDerivatives).exception
        = some Exception.TeuchosAssert
    ∧ (setupArrays self layout intrepid_basis computeDerivatives).state.basis_coordinates_ref
        = self.basis_coordinates_ref
    ∧ (setupArrays self layout intrepid_basis computeDerivatives).state.basis_coordinates
        = self.basis_coordinates := by
  unfold setupArrays allocStage
  cases hbw : self.build_weighted <;>
    simp [hsp, hcd, h2, h3, hbw, Outcome.bind, Outcome.exception, Outcome.state]

/-- C6 (as amended): for a layout of one of the four supported element spaces, in the state
`setupArrays` ends in the value arrays have the documented shapes: `basis_ref_scalar` is
`(card, num_quad)` and `basis_scalar` is `(numcells, card, num_quad)` for HGRAD and CONST;
`basis_ref_vector` is `(card, num_quad, dim)` and `basis_vector` is
`(numcells, card, num_quad, dim)` for HCURL and HDIV.  Unless the space is HCURL with
`computeDerivatives` set and `dim` other than 2 and 3, `setupArrays` returns normally and
`basis_coordinates_ref` is `(card, dim)` and `basis_coordinates` is `(numcells, card, dim)`.
In that excepted case, for every such `dim`, `setupArrays` raises the assertion failure of
line 876 and the coordinate arrays have not been allocated: they are the arrays the object
had at the call. -/
theorem setupArrays_extents (self : BasisValues2 S) (layout : BasisIRLayout)
    (intrepid_basis : IntrepidBasis S) (computeDerivatives : Bool)
    (hsp : layout.basis.elementSpace = EElementSpace.CONST
      ∨ layout.basis.elementSpace = EElementSpace.HGRAD
      ∨ layout.basis.elementSpace = EElementSpace.HCURL
      ∨ layout.basis.elementSpace = EElementSpace.HDIV) :
    ((layout.basis.elementSpace = EElementSpace.HGRAD
        ∨ layout.basis.elementSpace = EElementSpace.CONST) →
      (setupArrays self layout intrepid_basis computeDerivatives).state.basis_ref_scalar.extents
          = [layout.basis.cardinality, layout.numPoints]
      ∧ (setupArrays self layout intrepid_basis computeDerivatives).state.basis_scalar.extents
          = [layout.basis.numCells, layout.basis.cardinality, layout.numPoints])
    ∧ ((layout.basis.elementSpace = EElementSpace.HCURL
        ∨ layout.basis.elementSpace = EElementSpace.HDIV) →
      (setupArrays self layout intrepid_basis computeDerivatives).state.basis_ref_vector.extents
          = [layout.basis.cardinality, layout.numPoints, layout.basis.dimension]
      ∧ (setupArrays self layout intrepid_basis computeDerivatives).state.basis_vector.extents
          = [layout.basis.numCells, layout.basis.cardinality, layout.numPoints,
              layout.basis.dimension])
    ∧ (¬ (layout.basis.elementSpace = EElementSpace.HCURL ∧ computeDerivatives = true
          ∧ layout.basis.dimension ≠ 2 ∧ layout.basis.dimension ≠ 3) →
      ∃ s', setupArrays self layout intrepid_basis computeDerivatives = Outcome.ok s'
        ∧ s'.basis_coordinates_ref.extents = [layout.basis.cardinality, layout.basis.dimension]
        ∧ s'.basis_coordinates.extents
            = [layout.basis.numCells, layout.basis.cardinality, layout.basis.dimension])
    ∧ ((layout.basis.elementSpace = EElementSpace.HCURL ∧ computeDerivatives = true
          ∧ layout.basis.dimension ≠ 2 ∧ layout.basis.dimension ≠ 3) →
      (setupArrays self layout intrepid_basis computeDerivatives).exception
          = some Exception.TeuchosAssert
      ∧ (setupArrays self layout intrepid_basis computeDerivatives).state.basis_coordinates_ref
          = self.basis_coordinates_ref
      ∧ (setupArrays self layout intrepid_basis computeDerivatives).state.basis_coordinates
          = self.basis_coordinates) := by
  obtain ⟨h1, h2, h3⟩ := setupArrays_shapes self layout intrepid_basis computeDerivatives hsp
  exact ⟨h1, h2, h3, fun hg =>
    setupArrays_guard self layout intrepid_basis computeDerivatives hg.1 hg.2.1 hg.2.2.1
      hg.2.2.2⟩

/-- C6 (counterexample to the claim as stated): for the supported space HCURL with
`computeDerivatives` set on a one-dimensional layout, `setupArrays` on a fresh object ends in
the assertion of line 876 and the coordinate arrays do not have the shapes `(card, dim)` and
`(numcells, card, dim)`: they were never allocated. -/
theorem setupArrays_HCURL_1D_counterexample :
    (setupArrays (Examples.fresh false) (Examples.layout EElementSpace.HCURL 1) Examples.basis
        true).exception = some Exception.TeuchosAssert
    ∧ (setupArrays (Examples.fresh false) (Examples.layout EElementSpace.HCURL 1) Examples.basis
        true).state.basis_coordinates_ref.extents
        ≠ [(Examples.layout EElementSpace.HCURL 1).basis.cardinality,
            (Examples.layout EElementSpace.HCURL 1).basis.dimension]
    ∧ (setupArrays (Examples.fresh false) (Examples.layout EElementSpace.HCURL 1) Examples.basis
        true).state.basis_coordinates.extents
        ≠ [(Examples.layout EElementSpace.HCURL 1).basis.numCells,
            (Examples.layout EElementSpace.HCURL 1).basis.cardinality,
            (Examples.layout EElementSpace.HCURL 1).basis.dimension] := by
  refine ⟨?_, ?_, ?_⟩ <;> decide

/-- Instance of the amended C6: an HCURL layout in three dimensions with derivatives, and the
guarded case in four dimensions. -/
theorem setupArrays_extents_witness :
    (setupArrays (Examples.fresh true) (Examples.layout EElementSpace.HCURL 3) Examples.basis
        true).state.basis_ref_vector.extents = [2, 4, 3]
    ∧ (setupArrays (Examples.fresh true) (Examples.layout EElementSpace.HCURL 3) Examples.basis
        true).state.basis_vector.extents = [1, 2, 4, 3]
    ∧ (∃ s', setupArrays (Examples.fresh true) (Examples.layout EElementSpace.HCURL 3)
          Examples.basis true = Outcome.ok s'
        ∧ s'.basis_coordinates_ref.extents = [2, 3]
        ∧ s'.basis_coordinates.extents = [1, 2, 3])
    ∧ (setupArrays (Examples.fresh true) (Examples.layout EElementSpace.HCURL 4) Examples.basis
        true).exception = some Exception.TeuchosAssert :=
  ⟨((setupArrays_extents (Examples.fresh true) (Examples.layout EElementSpace.HCURL 3)
      Examples.basis true (Or.inr (Or.inr (Or.inl rfl)))).2.1 (Or.inl rfl)).1,
    ((setupArrays_extents (Examples.fresh true) (Examples.layout EElementSpace.HCURL 3)
      Examples.basis true (Or.inr (Or.inr (Or.inl rfl)))).2.1 (Or.inl rfl)).2,
    (setupArrays_extents (Examples.fresh true) (Examples.layout EElementSpace.HCURL 3)
      Examples.basis true (Or.inr (Or.inr (Or.inl rfl)))).2.2.1 (by decide),
    ((setupArrays_extents (Examples.fresh true) (Examples.layout EElementSpace.HCURL 4)
      Examples.basis true (Or.inr (Or.inr (Or.inl rfl)))).2.2.2 (by decide)).1⟩

end SetupTheorems

end panzer

/-! ## `applyOrientations` with `Intrepid2::Orientation`: theorems -/

namespace panzer

section OrientationErrors

variable {S : Type} [Zero S] [Mul S]

omit [Mul S] in
/-- C7: the `Intrepid2::Orientation` overload of `applyOrientations` raises `std::logic_error`
if the basis does not require orientations, and raises `std::logic_error` if the number of
cells of the basis layout differs from `orientations.size()`; in both cases the object is in
the state it had at the call, so no basis array has been modified. -/
theorem applyOrientations_Orientation_raises {O : Type}
    (modifyBasisByOrientation : MDField S → MDField S → List O → IntrepidBasis S → MDField S)
    (self : BasisValues2 S) (orientations : List O) :
    (self.intrepid_basis.requireOrientation = false →
      applyOrientations_Orientation modifyBasisByOrientation self orientations
        = Outcome.raised (Exception.logic_error "Basis does not require orientations.") self)
    ∧ (self.basis_layout.numCells ≠ orientations.length →
      ∃ what, applyOrientations_Orientation modifyBasisByOrientation self orientations
        = Outcome.raised (Exception.logic_error what) self) := by
  constructor
  · intro h
    simp [applyOrientations_Orientation, h]
  · intro h
    cases hreq : self.intrepid_basis.requireOrientation
    · exact ⟨"Basis does not require orientations.",
        by simp [applyOrientations_Orientation, hreq]⟩
    · exact ⟨"The number of cells does not match to the dimension of orientation array.",
        by simp [applyOrientations_Orientation, hreq, h]⟩

/-- Instance of C7: a basis that does not require orientations, and a one-cell layout given
two orientations. -/
theorem applyOrientations_Orientation_raises_witness :
    applyOrientations_Orientation Examples.modifyBasisByOrientation
        { Examples.object EElementSpace.HGRAD 2 true false with
          intrepid_basis := Examples.plainBasis } [0]
      = Outcome.raised (Exception.logic_error "Basis does not require orientations.")
          { Examples.object EElementSpace.HGRAD 2 true false with
            intrepid_basis := Examples.plainBasis }
    ∧ ∃ what, applyOrientations_Orientation Examples.modifyBasisByOrientation
          (Examples.object EElementSpace.HGRAD 2 true false) [0, 1]
        = Outcome.raised (Exception.logic_error what)
            (Examples.object EElementSpace.HGRAD 2 true false) :=
  ⟨(applyOrientations_Orientation_raises Examples.modifyBasisByOrientation
      { Examples.object EElementSpace.HGRAD 2 true false with
        intrepid_basis := Examples.plainBasis } [0]).1 rfl,
    (applyOrientations_Orientation_raises Examples.modifyBasisByOrientation
      (Examples.object EElementSpace.HGRAD 2 true false) [0, 1]).2 (by decide)⟩

end OrientationErrors

end panzer

/-! ## `regularizeAxisSizes`: theorems -/

namespace Domi

theorem specifiedBlock_zero (axisSizes : List Int) : specifiedBlock 0 axisSizes = 1 := rfl

theorem specifiedBlock_succ (n : Nat) (axisSizes : List Int) :
    specifiedBlock (n + 1) axisSizes
      = specifiedBlock n axisSizes * (if specified axisSizes n then axisSizes.getD n 0 else 1) := by
  simp [specifiedBlock, List.range_succ, List.prod_append]

theorem specifiedBlock_pos (n : Nat) (axisSizes : List Int) : 0 < specifiedBlock n axisSizes := by
  induction n with
  | zero => simp [specifiedBlock_zero]
  | succ k ih =>
    rw [specifiedBlock_succ]
    by_cases h : specified axisSizes k
    · simp only [h, if_true]
      exact Int.mul_pos ih h
    · simpa [h] using ih

/-- The return array after the copy of lines 59-62: it has `numDims` entries; entry `k` is the
candidate's entry when the candidate has one and -1 otherwise. -/
theorem copyCandidate_spec (numDims : Nat) (axisSizes : List Int) :
    (copyCandidate numDims axisSizes (List.replicate numDims (-1))).length = numDims
    ∧ ∀ k, k < numDims →
      (copyCandidate numDims axisSizes (List.replicate numDims (-1))).getD k 0
        = if k < axisSizes.length then axisSizes.getD k 0 else -1 := by
  have key := forLoop_induct
    (fun i (r : List Int) => r.length = numDims
      ∧ ∀ k, k < numDims → r.getD k 0 = if k < i then axisSizes.getD k 0 else -1)
    (min numDims axisSizes.length)
    (fun axis acc => acc.set axis (axisSizes.getD axis 0)) (List.replicate numDims (-1))
    ⟨by simp, fun k hk => by simp [List.getD_eq_getElem?_getD, hk]⟩ ?_
  · refine ⟨key.1, fun k hk => ?_⟩
    have := key.2 k hk
    unfold copyCandidate
    rw [this]
    have : k < min numDims axisSizes.length ↔ k < axisSizes.length := by omega
    simp only [this]
  · rintro i hi r ⟨hlen, hval⟩
    refine ⟨by simp [hlen], fun k hk => ?_⟩
    by_cases hki : k = i
    · subst hki
      simp [List.getD_eq_getElem?_getD, hlen, hk]
    · have h1 : (r.set i (axisSizes.getD i 0)).getD k 0 = r.getD k 0 := by
        simp [List.getD_eq_getElem?_getD, List.getElem?_set, Ne.symm hki]
      rw [h1, hval k hk]
      have : k < i + 1 ↔ k < i := by omega
      simp only [this]

/-- In the copied array an entry is `<= 0` exactly at the unspecified axes, and at a specified
axis it is the given value. -/
theorem copyCandidate_specified (numDims : Nat) (axisSizes : List Int) (k : Nat)
    (hk : k < numDims) :
    ((copyCandidate numDims axisSizes (List.replicate numDims (-1))).getD k 0 ≤ 0
        ↔ ¬ specified axisSizes k)
    ∧ (specified axisSizes k →
        (copyCandidate numDims axisSizes (List.replicate numDims (-1))).getD k 0
          = axisSizes.getD k 0) := by
  rw [(copyCandidate_spec numDims axisSizes).2 k hk]
  unfold specified
  by_cases hlen : k < axisSizes.length
  · simp [hlen]
  · have hnone : axisSizes[k]? = none := List.getElem?_eq_none (Nat.le_of_not_lt hlen)
    simp [hlen, List.getD_eq_getElem?_getD, hnone]

theorem specifiedBlock_le_succ (n : Nat) (axisSizes : List Int) :
    specifiedBlock n axisSizes ≤ specifiedBlock (n + 1) axisSizes := by
  rw [specifiedBlock_succ]
  have hpos := specifiedBlock_pos n axisSizes
  by_cases h : specified axisSizes n
  · simp only [h, if_true]
    have h1 : (1 : Int) ≤ axisSizes.getD n 0 := h
    nlinarith
  · simp [h]

theorem specifiedBlock_mono (axisSizes : List Int) {m n : Nat} (h : m ≤ n) :
    specifiedBlock m axisSizes ≤ specifiedBlock n axisSizes := by
  induction n with
  | zero =>
    have : m = 0 := by omega
    rw [this]
  | succ k ih =>
    by_cases hk : m ≤ k
    · exact le_trans (ih hk) (specifiedBlock_le_succ k axisSizes)
    · have : m = k + 1 := by omega
      rw [this]

/-- Storing a value of the range of `int` does not change it. -/
theorem wrapInt_of_isInt (x : Int) (h : IsInt x) : wrapInt x = x := by
  obtain ⟨h1, h2⟩ := h
  unfold INT_MIN at h1
  unfold INT_MAX at h2
  unfold wrapInt
  omega

/-- The counting loop of lines 65-73 on an array that agrees with the candidate:
`unspecified` is zero exactly when all axes are specified, and `block` is the product of the
specified sizes provided that product does not exceed `INT_MAX`. -/
theorem countBlock_spec (numDims : Nat) (axisSizes result : List Int)
    (h : ∀ k, k < numDims →
      (result.getD k 0 ≤ 0 ↔ ¬ specified axisSizes k)
      ∧ (specified axisSizes k → result.getD k 0 = axisSizes.getD k 0)) :
    (specifiedBlock numDims axisSizes ≤ INT_MAX →
      (countBlock numDims result).1 = specifiedBlock numDims axisSizes)
    ∧ ((countBlock numDims result).2 = 0 ↔ ∀ k, k < numDims → specified axisSizes k) := by
  refine forLoop_induct
    (fun i (st : Int × Nat) =>
      (specifiedBlock i axisSizes ≤ INT_MAX → st.1 = specifiedBlock i axisSizes)
      ∧ (st.2 = 0 ↔ ∀ k, k < i → specified axisSizes k)) numDims _ (1, 0)
    ⟨fun _ => rfl, by simp⟩ ?_
  rintro i hi ⟨b, u⟩ ⟨hb, hu⟩
  simp only at hb hu
  obtain ⟨h1, h2⟩ := h i hi
  by_cases hs : specified axisSizes i
  · have hnot : ¬ result.getD i 0 ≤ 0 := fun hle => (h1.1 hle) hs
    simp only [hnot, if_false]
    refine ⟨fun hno => ?_, ?_⟩
    · have hprev : specifiedBlock i axisSizes ≤ INT_MAX :=
        le_trans (specifiedBlock_le_succ i axisSizes) hno
      rw [hb hprev, h2 hs]
      have heq : specifiedBlock (i + 1) axisSizes
          = specifiedBlock i axisSizes * axisSizes.getD i 0 := by
        rw [specifiedBlock_succ]; simp [hs]
      rw [← heq]
      apply wrapInt_of_isInt
      refine ⟨?_, hno⟩
      have := specifiedBlock_pos (i + 1) axisSizes
      unfold INT_MIN
      omega
    · rw [hu]
      constructor
      · intro hall k hk
        by_cases hki : k = i
        · subst hki; exact hs
        · exact hall k (by omega)
      · intro hall k hk
        exact hall k (by omega)
  · have hle : result.getD i 0 ≤ 0 := h1.2 hs
    simp only [hle, if_true]
    refine ⟨fun hno => ?_, ?_⟩
    · have heq : specifiedBlock (i + 1) axisSizes = specifiedBlock i axisSizes := by
        rw [specifiedBlock_succ]; simp [hs]
      rw [heq] at hno ⊢
      exact hb hno
    · constructor
      · intro h0
        omega
      · intro hall
        exact absurd (hall i (Nat.lt_succ_self i)) hs

/-- The filling loop of lines 89-96: every axis receives the size the specification assigns
to it. -/
theorem fillUnspecified_spec (numDims : Nat) (axisSizes result : List Int) (quotient : Int)
    (hlen : result.length = numDims)
    (h : ∀ k, k < numDims →
      (result.getD k 0 ≤ 0 ↔ ¬ specified axisSizes k)
      ∧ (specified axisSizes k → result.getD k 0 = axisSizes.getD k 0)) :
    (fillUnspecified numDims result quotient).1.length = numDims
    ∧ ∀ k, k < numDims →
      (fillUnspecified numDims result quotient).1.getD k 0
        = if specified axisSizes k then axisSizes.getD k 0
          else if firstUnspecified axisSizes k then quotient else 1 := by
  have key := forLoop_induct
    (fun i (st : List Int × Int) => st.1.length = numDims
      ∧ (∀ k, k < numDims → st.1.getD k 0
          = if k < i then
              (if specified axisSizes k then axisSizes.getD k 0
                else if firstUnspecified axisSizes k then quotient else 1)
            else result.getD k 0)
      ∧ st.2 = if ∀ j, j < i → specified axisSizes j then quotient else 1)
    numDims
    (fun axis acc => if acc.1.getD axis 0 ≤ 0 then (acc.1.set axis acc.2, 1) else acc)
    (result, quotient) ⟨hlen, fun k _ => by simp, by simp⟩ ?_
  · refine ⟨key.1, fun k hk => ?_⟩
    have := key.2.1 k hk
    unfold fillUnspecified
    rw [this]
    simp [hk]
  · rintro i hi ⟨r, q⟩ ⟨hl, hval, hq⟩
    simp only at hl hval hq
    obtain ⟨h1, h2⟩ := h i hi
    have hri : r.getD i 0 = result.getD i 0 := by
      rw [hval i hi]; simp
    by_cases hs : specified axisSizes i
    · have hnot : ¬ r.getD i 0 ≤ 0 := by
        rw [hri]; exact fun hle => (h1.1 hle) hs
      simp only [hnot, if_false]
      refine ⟨hl, fun k hk => ?_, ?_⟩
      · by_cases hki : k = i
        · subst hki
          rw [hri, h2 hs]
          simp [hs]
        · rw [hval k hk]
          have : k < i + 1 ↔ k < i := by omega
          simp only [this]
      · rw [hq]
        have : (∀ j, j < i + 1 → specified axisSizes j) ↔ (∀ j, j < i → specified axisSizes j) := by
          constructor
          · intro hall j hj
            exact hall j (by omega)
          · intro hall j hj
            by_cases hji : j = i
            · subst hji; exact hs
            · exact hall j (by omega)
        simp only [this]
    · have hle : r.getD i 0 ≤ 0 := by
        rw [hri]; exact h1.2 hs
      simp only [hle, if_true]
      refine ⟨by simp [hl], fun k hk => ?_, ?_⟩
      · by_cases hki : k = i
        · subst hki
          have hset : (r.set k q).getD k 0 = q := by
            simp [List.getD_eq_getElem?_getD, hl, hk]
          rw [hset, hq]
          simp [hs, firstUnspecified]
        · have hset : (r.set i q).getD k 0 = r.getD k 0 := by
            simp [List.getD_eq_getElem?_getD, List.getElem?_set, Ne.symm hki]
          rw [hset, hval k hk]
          have : k < i + 1 ↔ k < i := by omega
          simp only [this]
      · have : ¬ ∀ j, j < i + 1 → specified axisSizes j :=
          fun hall => hs (hall i (Nat.lt_succ_self i))
        simp [this]

/-- The three exits of `regularizeAxisSizes` in the vocabulary of the specification, when the
product of the specified sizes does not overflow `int`. -/
theorem regularizeAxisSizes_cases (numProcs : Int) (numDims : Nat) (axisSizes : List Int)
    (hno : specifiedBlock numDims axisSizes ≤ INT_MAX) :
    (((∀ k, k < numDims → specified axisSizes k)
        ∧ specifiedBlock numDims axisSizes ≠ numProcs) →
      regularizeAxisSizes numProcs numDims axisSizes
        = Result.InvalidArgument
            "Product of axis processor sizes does not equal total number of processors")
    ∧ (¬ ((∀ k, k < numDims → specified axisSizes k)
          ∧ specifiedBlock numDims axisSizes ≠ numProcs) →
        ¬ specifiedBlock numDims axisSizes ∣ numProcs →
      regularizeAxisSizes numProcs numDims axisSizes
        = Result.InvalidArgument "Number of processors do not divide evenly")
    ∧ (¬ ((∀ k, k < numDims → specified axisSizes k)
          ∧ specifiedBlock numDims axisSizes ≠ numProcs) →
        specifiedBlock numDims axisSizes ∣ numProcs →
      ∃ r, regularizeAxisSizes numProcs numDims axisSizes = Result.ok r
        ∧ r.length = numDims
        ∧ ∀ k, k < numDims → r.getD k 0 = expectedSize numProcs numDims axisSizes k) := by
  have hcopy := copyCandidate_specified numDims axisSizes
  have hlen := (copyCandidate_spec numDims axisSizes).1
  obtain ⟨hblock', hun⟩ := countBlock_spec numDims axisSizes
    (copyCandidate numDims axisSizes (List.replicate numDims (-1))) hcopy
  have hblock := hblock' hno
  have hpos := specifiedBlock_pos numDims axisSizes
  have hdef : ¬ (specifiedBlock numDims axisSizes = 0
      ∨ (numProcs = INT_MIN ∧ specifiedBlock numDims axisSizes = -1)) := by
    rintro (h | ⟨_, h⟩) <;> omega
  refine ⟨?_, ?_, ?_⟩
  · rintro ⟨hall, hne⟩
    unfold regularizeAxisSizes
    simp only [hblock]
    rw [if_pos ⟨hun.2 hall, hne⟩]
  · intro hfirst hndvd
    unfold regularizeAxisSizes
    simp only [hblock]
    rw [if_neg (fun hc => hfirst ⟨hun.1 hc.1, hc.2⟩), if_neg hdef]
    rw [if_pos (fun hc => hndvd (Int.dvd_of_tmod_eq_zero hc))]
  · intro hfirst hdvd
    obtain ⟨hl, hv⟩ := fillUnspecified_spec numDims axisSizes
      (copyCandidate numDims axisSizes (List.replicate numDims (-1)))
      (numProcs.tdiv (specifiedBlock numDims axisSizes)) hlen hcopy
    refine ⟨_, ?_, hl, fun k hk => by rw [hv k hk]; rfl⟩
    unfold regularizeAxisSizes
    simp only [hblock]
    rw [if_neg (fun hc => hfirst ⟨hun.1 hc.1, hc.2⟩), if_neg hdef]
    rw [if_neg (fun hc => hc (Int.tmod_eq_zero_of_dvd hdvd))]

/-- C8 (as amended): when at least one of the first `numDims` axis sizes is unspecified
(missing or `<= 0`) and the product `block` of the specified sizes does not overflow `int`
(it is at most `INT_MAX`) and divides `numProcs`, `regularizeAxisSizes` returns an array of
`numDims` sizes that holds `numProcs / block` at the first unspecified axis, 1 at every
other unspecified axis, and the given value at every specified axis. -/
theorem regularizeAxisSizes_underspecified (numProcs : Int) (numDims : Nat)
    (axisSizes : List Int)
    (hun : ∃ i, i < numDims ∧ ¬ specified axisSizes i)
    (hno : specifiedBlock numDims axisSizes ≤ INT_MAX)
    (hdiv : specifiedBlock numDims axisSizes ∣ numProcs) :
    ∃ r, regularizeAxisSizes numProcs numDims axisSizes = Result.ok r
      ∧ r.length = numDims
      ∧ (∀ i, i < numDims → firstUnspecified axisSizes i →
          r.getD i 0 = numProcs.tdiv (specifiedBlock numDims axisSizes))
      ∧ (∀ i, i < numDims → ¬ specified axisSizes i → ¬ firstUnspecified axisSizes i →
          r.getD i 0 = 1)
      ∧ (∀ i, i < numDims → specified axisSizes i → r.getD i 0 = axisSizes.getD i 0) := by
  obtain ⟨i, hi, hni⟩ := hun
  obtain ⟨r, hr, hl, hv⟩ := (regularizeAxisSizes_cases numProcs numDims axisSizes hno).2.2
    (fun hc => hni (hc.1 i hi)) hdiv
  refine ⟨r, hr, hl, ?_, ?_, ?_⟩
  · intro k hk hf
    rw [hv k hk, expectedSize, if_neg hf.1, if_pos hf]
  · intro k hk hns hnf
    rw [hv k hk, expectedSize, if_neg hns, if_neg hnf]
  · intro k hk hs
    rw [hv k hk, expectedSize, if_pos hs]

/-- C8 (counterexample to the claim as stated): with `numProcs = INT_MIN` and the sizes
`65536, 32768, 0`, the third axis is unspecified and the product `2^31` of the specified
sizes divides `numProcs`, with `numProcs / block = -1`; but the `int` variable `block` holds
`INT_MIN`, and the code returns 1 at the first unspecified axis.  With `numProcs = 0` and the
sizes `65536, 65536, 0` the product `2^32` divides `numProcs`, `block` holds 0 and the
remainder of line 86 is undefined: there is no result. -/
theorem regularizeAxisSizes_underspecified_counterexample :
    ((∃ i, i < 3 ∧ ¬ specified [65536, 32768, 0] i)
      ∧ specifiedBlock 3 [65536, 32768, 0] ∣ (-2147483648)
      ∧ firstUnspecified [65536, 32768, 0] 2
      ∧ (-2147483648 : Int).tdiv (specifiedBlock 3 [65536, 32768, 0]) = -1
      ∧ regularizeAxisSizes (-2147483648) 3 [65536, 32768, 0] = Result.ok [65536, 32768, 1])
    ∧ ((∃ i, i < 3 ∧ ¬ specified [65536, 65536, 0] i)
      ∧ specifiedBlock 3 [65536, 65536, 0] ∣ 0
      ∧ regularizeAxisSizes 0 3 [65536, 65536, 0] = Result.undefinedDivision) := by
  refine ⟨⟨?_, ?_, ?_, ?_, ?_⟩, ?_, ?_, ?_⟩ <;> decide

/-- Instance of the amended C8: twelve processors on three axes with only the last size
given as 3. -/
theorem regularizeAxisSizes_underspecified_witness :
    regularizeAxisSizes 12 3 [0, -1, 3] = Result.ok [4, 1, 3]
    ∧ ∃ r, regularizeAxisSizes 12 3 [0, -1, 3] = Result.ok r
      ∧ r.length = 3
      ∧ (∀ i, i < 3 → firstUnspecified [0, -1, 3] i →
          r.getD i 0 = (12 : Int).tdiv (specifiedBlock 3 [0, -1, 3]))
      ∧ (∀ i, i < 3 → ¬ specified [0, -1, 3] i → ¬ firstUnspecified [0, -1, 3] i →
          r.getD i 0 = 1)
      ∧ (∀ i, i < 3 → specified [0, -1, 3] i → r.getD i 0 = ([0, -1, 3] : List Int).getD i 0) :=
  ⟨by decide,
    regularizeAxisSizes_underspecified 12 3 [0, -1, 3] ⟨0, by decide, by decide⟩
      (by decide) ⟨4, by decide⟩⟩

/-- C9: if the first `numDims` entries of `axisSizes` exist and are all positive and their
product equals `numProcs` (which, being an `int`, is at most `INT_MAX`),
`regularizeAxisSizes` returns exactly those `numDims` sizes. -/
theorem regularizeAxisSizes_fully_specified (numProcs : Int) (numDims : Nat)
    (axisSizes : List Int)
    (hint : IsInt numProcs)
    (hlen : numDims ≤ axisSizes.length)
    (hpos : ∀ x, x ∈ axisSizes.take numDims → 0 < x)
    (hprod : (axisSizes.take numDims).prod = numProcs) :
    regularizeAxisSizes numProcs numDims axisSizes = Result.ok (axisSizes.take numDims) := by
  have hspec : ∀ k, k < numDims → specified axisSizes k := by
    intro k hk
    have hkl : k < axisSizes.length := by omega
    unfold specified
    rw [List.getD_eq_getElem _ _ hkl]
    apply hpos
    rw [List.mem_take_iff_getElem]
    exact ⟨k, by omega, rfl⟩
  have hblock : ∀ n, n ≤ numDims → specifiedBlock n axisSizes = (axisSizes.take n).prod := by
    intro n
    induction n with
    | zero => intro _; simp [specifiedBlock_zero]
    | succ m ih =>
      intro hm
      have hml : m < axisSizes.length := by omega
      rw [specifiedBlock_succ, ih (by omega), if_pos (hspec m (by omega)),
        List.prod_take_succ _ _ hml, List.getD_eq_getElem _ _ hml]
  have hb : specifiedBlock numDims axisSizes = numProcs := by
    rw [hblock numDims (Nat.le_refl _), hprod]
  obtain ⟨r, hr, hl, hv⟩ := (regularizeAxisSizes_cases numProcs numDims axisSizes
    (by rw [hb]; exact hint.2)).2.2 (fun hc => hc.2 hb) (by rw [hb])
  rw [hr]
  congr 1
  apply List.ext_getElem
  · simp [hl, hlen]
  · intro k h1 h2
    have hk : k < numDims := by omega
    have hkl : k < axisSizes.length := by omega
    have := hv k hk
    rw [expectedSize, if_pos (hspec k hk), List.getD_eq_getElem _ _ h1,
      List.getD_eq_getElem _ _ hkl] at this
    rw [this, List.getElem_take]

/-- Instance of C9: a 2 x 3 x 2 partition of twelve processors (a fourth entry is ignored). -/
theorem regularizeAxisSizes_fully_specified_witness :
    regularizeAxisSizes 12 3 [2, 3, 2, 7] = Result.ok [2, 3, 2] :=
  regularizeAxisSizes_fully_specified 12 3 [2, 3, 2, 7] (by decide) (by decide) (by decide)
    (by decide)

/-- C10 (as amended): provided the product of the specified sizes does not overflow `int`
(it is at most `INT_MAX`), `regularizeAxisSizes` returns normally if and only if either every
one of the `numDims` axes is specified and the product of the sizes equals `numProcs`, or
some axis is unspecified and the product of the specified sizes divides `numProcs`; in every
other case it raises `InvalidArgument` with one of its two messages. -/
theorem regularizeAxisSizes_returns_iff (numProcs : Int) (numDims : Nat)
    (axisSizes : List Int)
    (hno : specifiedBlock numDims axisSizes ≤ INT_MAX) :
    ((∃ r, regularizeAxisSizes numProcs numDims axisSizes = Result.ok r)
      ↔ (((∀ i, i < numDims → specified axisSizes i)
            ∧ specifiedBlock numDims axisSizes = numProcs)
          ∨ ((∃ i, i < numDims ∧ ¬ specified axisSizes i)
            ∧ specifiedBlock numDims axisSizes ∣ numProcs)))
    ∧ ((¬ ∃ r, regularizeAxisSizes numProcs numDims axisSizes = Result.ok r) →
        regularizeAxisSizes numProcs numDims axisSizes
          = Result.InvalidArgument
              "Product of axis processor sizes does not equal total number of processors"
        ∨ regularizeAxisSizes numProcs numDims axisSizes
          = Result.InvalidArgument "Number of processors do not divide evenly") := by
  obtain ⟨h1, h2, h3⟩ := regularizeAxisSizes_cases numProcs numDims axisSizes hno
  by_cases hfirst : (∀ k, k < numDims → specified axisSizes k)
      ∧ specifiedBlock numDims axisSizes ≠ numProcs
  · have hres := h1 hfirst
    refine ⟨⟨?_, ?_⟩, fun _ => Or.inl hres⟩
    · rintro ⟨r, hr⟩
      rw [hres] at hr
      cases hr
    · rintro (⟨_, hb⟩ | ⟨⟨i, hi, hni⟩, _⟩)
      · exact absurd hb hfirst.2
      · exact absurd (hfirst.1 i hi) hni
  · by_cases hdvd : specifiedBlock numDims axisSizes ∣ numProcs
    · obtain ⟨r, hr, _, _⟩ := h3 hfirst hdvd
      refine ⟨⟨fun _ => ?_, fun _ => ⟨r, hr⟩⟩, fun hno => absurd ⟨r, hr⟩ hno⟩
      by_cases hall : ∀ i, i < numDims → specified axisSizes i
      · left
        refine ⟨hall, ?_⟩
        by_contra hne
        exact hfirst ⟨hall, hne⟩
      · right
        simp only [not_forall] at hall
        obtain ⟨i, hi, hni⟩ := hall
        exact ⟨⟨i, hi, hni⟩, hdvd⟩
    · have hres := h2 hfirst hdvd
      refine ⟨⟨?_, ?_⟩, fun _ => Or.inr hres⟩
      · rintro ⟨r, hr⟩
        rw [hres] at hr
        cases hr
      · rintro (⟨_, hb⟩ | ⟨_, hd⟩)
        · exact absurd (by rw [hb]) hdvd
        · exact absurd hd hdvd

/-- C10 (counterexample to the claim as stated): on 131072 processors with the sizes
`65536, 65537, 0` the third axis is unspecified and the product `4295032832` of the specified
sizes does not divide `numProcs`, yet the code returns normally, with `65536, 65537, 2`: the
`int` variable `block` holds `65536`. -/
theorem regularizeAxisSizes_returns_iff_counterexample :
    regularizeAxisSizes 131072 3 [65536, 65537, 0] = Result.ok [65536, 65537, 2]
    ∧ specifiedBlock 3 [65536, 65537, 0] = 4295032832
    ∧ ¬ (((∀ i, i < 3 → specified [65536, 65537, 0] i)
          ∧ specifiedBlock 3 [65536, 65537, 0] = 131072)
        ∨ ((∃ i, i < 3 ∧ ¬ specified [65536, 65537, 0] i)
          ∧ specifiedBlock 3 [65536, 65537, 0] ∣ 131072)) := by
  refine ⟨?_, ?_, ?_⟩ <;> decide

/-- Instance of the amended C10: a fully specified partition with the wrong product, and an
underspecified one whose block does not divide the number of processors. -/
theorem regularizeAxisSizes_returns_iff_witness :
    regularizeAxisSizes 12 2 [2, 5]
        = Result.InvalidArgument
            "Product of axis processor sizes does not equal total number of processors"
    ∧ regularizeAxisSizes 12 3 [2, 5]
        = Result.InvalidArgument "Number of processors do not divide evenly"
    ∧ ((∃ r, regularizeAxisSizes 12 3 [2, 3] = Result.ok r)
      ↔ (((∀ i, i < 3 → specified [2, 3] i) ∧ specifiedBlock 3 [2, 3] = 12)
          ∨ ((∃ i, i < 3 ∧ ¬ specified [2, 3] i) ∧ specifiedBlock 3 [2, 3] ∣ 12))) :=
  ⟨by decide, by decide, (regularizeAxisSizes_returns_iff 12 3 [2, 3] (by decide)).1⟩

end Domi


/-! ## `GradientAlgorithm_B`: theorems -/

/-- Rule for a bounded `while` loop: with an invariant and a measure that every pass
decreases, a bound of at least the initial measure suffices; the loop returns, the invariant
holds and the condition is false at the end. -/
theorem whileLoop_returns {σ : Type} (cond : σ → Bool) (body : σ → σ) (Inv : σ → Prop)
    (measure : σ → Nat)
    (hstep : ∀ s, Inv s → cond s = true → Inv (body s) ∧ measure (body s) < measure s) :
    ∀ fuel s, Inv s → measure s ≤ fuel →
      ∃ s', whileLoop cond body fuel s = some s' ∧ Inv s' ∧ cond s' = false := by
  intro fuel
  induction fuel with
  | zero =>
    intro s hinv hm
    cases hc : cond s
    · exact ⟨s, by simp [whileLoop, hc], hinv, hc⟩
    · have := (hstep s hinv hc).2
      omega
  | succ k ih =>
    intro s hinv hm
    cases hc : cond s
    · exact ⟨s, by simp [whileLoop, hc], hinv, hc⟩
    · obtain ⟨hinv', hlt⟩ := hstep s hinv hc
      obtain ⟨s', hs', hi', hc'⟩ := ih (body s) hinv' (by omega)
      exact ⟨s', by simp [whileLoop, hc, hs'], hi', hc'⟩

namespace ROL

section LineSearchTheorems

variable {R V O : Type} [LT R] [LE R] [DecidableRel (LT.lt : R → R → Prop)]
  [DecidableRel (LE.le : R → R → Prop)] [BEq R] [Mul R] [Sub R] [Neg R] [Div R]

omit [LT R] [LE R] [DecidableRel (LT.lt : R → R → Prop)]
  [DecidableRel (LE.le : R → R → Prop)] [BEq R] [Mul R] [Sub R] [Neg R] [Div R] in
theorem SearchFrame.refl (c : RunState R V O) : SearchFrame c c :=
  ⟨rfl, rfl, rfl, rfl, rfl, rfl, rfl, rfl, Nat.le_refl _, le_max_left _ _⟩

omit [BEq R] [Div R] in
/-- One pass of the step-increase loop keeps the frame. -/
theorem increaseBody_frame (env : Env R V O) (c0 c : RunState R V O) (h : SearchFrame c0 c)
    (hc : increaseCond c = true) : SearchFrame c0 (increaseBody env c) := by
  obtain ⟨h1, h2, h3, h4, h5, h6, h7, h8, h9, h10⟩ := h
  have hlt : (c.ls_nfval : Int) < c.maxit_ := by
    simp only [increaseCond, Bool.and_eq_true, decide_eq_true_eq] at hc
    exact hc.2
  refine ⟨h1, h2, h3, h4, h5, h6, h7, ?_, ?_, ?_⟩
  · show c.valueCalls + 1 + c0.ls_nfval = c0.valueCalls + (c.ls_nfval + 1)
    omega
  · show c0.ls_nfval ≤ c.ls_nfval + 1
    omega
  · show ((c.ls_nfval + 1 : Nat) : Int) ≤ max (c0.ls_nfval : Int) c0.maxit_
    rw [h1] at hlt
    have : ((c.ls_nfval + 1 : Nat) : Int) ≤ c0.maxit_ := by omega
    exact le_trans this (le_max_right _ _)

omit [LE R] [DecidableRel (LE.le : R → R → Prop)] [BEq R] [Div R] in
/-- One pass of the backtracking loop keeps the frame. -/
theorem backtrackBody_frame (env : Env R V O) (c0 c : RunState R V O) (h : SearchFrame c0 c)
    (hc : backtrackCond c = true) : SearchFrame c0 (backtrackBody env c) := by
  obtain ⟨h1, h2, h3, h4, h5, h6, h7, h8, h9, h10⟩ := h
  have hlt : (c.ls_nfval : Int) < c.maxit_ := by
    simp only [backtrackCond, Bool.and_eq_true, decide_eq_true_eq] at hc
    exact hc.2
  refine ⟨h1, h2, h3, h4, h5, h6, h7, ?_, ?_, ?_⟩
  · show c.valueCalls + 1 + c0.ls_nfval = c0.valueCalls + (c.ls_nfval + 1)
    omega
  · show c0.ls_nfval ≤ c.ls_nfval + 1
    omega
  · show ((c.ls_nfval + 1 : Nat) : Int) ≤ max (c0.ls_nfval : Int) c0.maxit_
    rw [h1] at hlt
    have : ((c.ls_nfval + 1 : Nat) : Int) ≤ c0.maxit_ := by omega
    exact le_trans this (le_max_right _ _)

omit [LT R] [LE R] [DecidableRel (LT.lt : R → R → Prop)]
  [DecidableRel (LE.le : R → R → Prop)] [BEq R] [Sub R] [Div R] in
/-- One pass of the step-increase loop ends with the trial of the new step size evaluated. -/
theorem increaseBody_trial (env : Env R V O) (c s : RunState R V O)
    (h : CurrentTrial env c s) : CurrentTrial env c (increaseBody env s) := by
  obtain ⟨hx, hsv, hv, hc1, _⟩ := h
  refine ⟨hx, hsv, hv, hc1, ?_, ?_, ?_, ⟨s.obj, rfl⟩, rfl⟩
  · unfold trialPoint
    rw [← hx, ← hsv]
    rfl
  · unfold trialStep trialPoint
    rw [← hx, ← hsv]
    rfl
  · rw [← hsv]
    rfl

omit [LT R] [LE R] [DecidableRel (LT.lt : R → R → Prop)]
  [DecidableRel (LE.le : R → R → Prop)] [BEq R] [Sub R] [Div R] in
/-- One pass of the backtracking loop ends with the trial of the new step size evaluated. -/
theorem backtrackBody_trial (env : Env R V O) (c s : RunState R V O)
    (h : CurrentTrial env c s) : CurrentTrial env c (backtrackBody env s) := by
  obtain ⟨hx, hsv, hv, hc1, _⟩ := h
  refine ⟨hx, hsv, hv, hc1, ?_, ?_, ?_, ⟨s.obj, rfl⟩, rfl⟩
  · unfold trialPoint
    rw [← hx, ← hsv]
    rfl
  · unfold trialStep trialPoint
    rw [← hx, ← hsv]
    rfl
  · rw [← hsv]
    rfl

omit [LT R] [DecidableRel (LT.lt : R → R → Prop)] [DecidableRel (LE.le : R → R → Prop)]
  [BEq R] [Div R] in
/-- For the current trial the test of the code, on the variables `ftrial` and `gs`, is the
sufficient-decrease test of that trial. -/
theorem CurrentTrial.test_iff (env : Env R V O) (c s : RunState R V O)
    (h : CurrentTrial env c s) :
    s.state_.value - s.ftrial ≥ (-s.c1_) * s.gs
      ↔ SufficientDecrease env c s.state_.searchSize s.ftrial := by
  obtain ⟨_, _, hv, hc1, _, hs, hgs, _, _⟩ := h
  unfold SufficientDecrease
  rw [hv, hc1, hgs, hs]

omit [LE R] [DecidableRel (LT.lt : R → R → Prop)] [DecidableRel (LE.le : R → R → Prop)]
  [BEq R] [Div R] in
/-- For the current trial the negated test of the code, on the variables `ftrial` and `gs`,
is the negated test of that trial. -/
theorem CurrentTrial.negated_iff (env : Env R V O) (c s : RunState R V O)
    (h : CurrentTrial env c s) :
    s.state_.value - s.ftrial < (-s.c1_) * s.gs
      ↔ InsufficientDecrease env c s.state_.searchSize s.ftrial := by
  obtain ⟨_, _, hv, hc1, _, hs, hgs, _, _⟩ := h
  unfold InsufficientDecrease
  rw [hv, hc1, hgs, hs]

omit [LT R] [LE R] [DecidableRel (LT.lt : R → R → Prop)]
  [DecidableRel (LE.le : R → R → Prop)] [BEq R] [Mul R] [Sub R] [Div R] in
/-- The value `ftrial` of the current trial is an objective value of it. -/
theorem CurrentTrial.value (env : Env R V O) (c s : RunState R V O)
    (h : CurrentTrial env c s) : TrialValue env c s.state_.searchSize s.ftrial := by
  obtain ⟨_, _, _, _, hit, _, _, ⟨o, ho⟩, hf⟩ := h
  refine ⟨o, ?_⟩
  rw [hf, ho, hit]

omit [LT R] [LE R] [DecidableRel (LT.lt : R → R → Prop)]
  [DecidableRel (LE.le : R → R → Prop)] [BEq R] [Mul R] [Sub R] [Div R] in
/-- A current trial is an accepted trial when the search stops at it. -/
theorem CurrentTrial.accepted (env : Env R V O) (c s : RunState R V O)
    (h : CurrentTrial env c s) : AcceptedTrial env c s :=
  ⟨h.2.2.2.2.1, h.2.2.2.2.2.1, CurrentTrial.value env c s h, h.2.2.2.2.2.2.2.1,
    h.1, h.2.1, h.2.2.1, h.2.2.2.1⟩

omit [LT R] [DecidableRel (LT.lt : R → R → Prop)] [BEq R] [Div R] in
/-- The first trial of a line search: one call of `obj.value`, `ls_nfval = 1`, nothing else
of the bookkeeping changes, and the trial of the step size is evaluated. -/
theorem firstTrial_spec (env : Env R V O) (c : RunState R V O) :
    (firstTrial env c).maxit_ = c.maxit_ ∧ (firstTrial env c).c1_ = c.c1_
    ∧ (firstTrial env c).maxAlpha_ = c.maxAlpha_
    ∧ (firstTrial env c).useAdapt_ = c.useAdapt_
    ∧ (firstTrial env c).state_.value = c.state_.value
    ∧ (firstTrial env c).state_.nfval = c.state_.nfval
    ∧ (firstTrial env c).state_.ngrad = c.state_.ngrad
    ∧ (firstTrial env c).gradientCalls = c.gradientCalls
    ∧ (firstTrial env c).valueCalls = c.valueCalls + 1
    ∧ (firstTrial env c).ls_nfval = 1
    ∧ CurrentTrial env c (firstTrial env c)
    ∧ ((firstTrial env c).incAlpha = true ↔
        (firstTrial env c).state_.value - (firstTrial env c).ftrial
          ≥ (-(firstTrial env c).c1_) * (firstTrial env c).gs) := by
  unfold firstTrial CurrentTrial trialStep trialPoint
  simp only []
  split <;>
    simp [moveIterate, evalTrial, measureStep, stepOf] <;>
    exact ⟨c.obj, rfl⟩

omit [LE R] [DecidableRel (LE.le : R → R → Prop)] [BEq R] [Div R] in
/-- Falling back to the saved trial changes neither counters nor parameters. -/
theorem restorePrevious_spec (env : Env R V O) (c : RunState R V O) :
    (restorePrevious env c).maxit_ = c.maxit_ ∧ (restorePrevious env c).c1_ = c.c1_
    ∧ (restorePrevious env c).state_.value = c.state_.value
    ∧ (restorePrevious env c).state_.nfval = c.state_.nfval
    ∧ (restorePrevious env c).state_.ngrad = c.state_.ngrad
    ∧ (restorePrevious env c).gradientCalls = c.gradientCalls
    ∧ (restorePrevious env c).valueCalls = c.valueCalls
    ∧ (restorePrevious env c).ls_nfval = c.ls_nfval := by
  unfold restorePrevious
  split <;> simp [moveIterate, stepOf]

omit [BEq R] [Div R] in
/-- The step-increase branch (lines 162-199) started in a state `c2` that holds the first
trial of the search begun in `c`, with the test satisfied and `ftrialP` at `ROL_INF`: it
returns and keeps the frame; and when the test has a definite outcome at every trial and the
first trial value does not exceed `ROL_INF`, it ends at an accepted trial that satisfies the
sufficient-decrease test. -/
theorem increase_branch (env : Env R V O) (c c2 : RunState R V O) (fuel : Nat)
    (htrial : CurrentTrial env c c2)
    (hfuel : (c2.maxit_ - c2.ls_nfval).toNat ≤ fuel)
    (hP : c2.ftrialP = env.ROL_INF)
    (hsd : c2.state_.value - c2.ftrial ≥ (-c2.c1_) * c2.gs) :
    ∃ r0, whileLoop increaseCond (increaseBody env) fuel c2 = some r0
      ∧ SearchFrame c2 r0
      ∧ (DefiniteTest env c → ¬ c2.ftrial > env.ROL_INF →
          AcceptedTrial env c (restorePrevious env r0)
          ∧ SufficientDecrease env c (restorePrevious env r0).state_.searchSize
              (restorePrevious env r0).ftrial) := by
  obtain ⟨r0, hr0, ⟨hframe, htr, hJ⟩, _⟩ := whileLoop_returns increaseCond (increaseBody env)
    (fun s => SearchFrame c2 s ∧ CurrentTrial env c s
      ∧ ((s.ftrialP = env.ROL_INF ∧ s.ftrial = c2.ftrial
            ∧ s.state_.value - s.ftrial ≥ (-s.c1_) * s.gs)
          ∨ (SufficientDecrease env c s.alphaP s.ftrialP
            ∧ TrialValue env c s.alphaP s.ftrialP)))
    (fun s => (s.maxit_ - s.ls_nfval).toNat)
    (by
      rintro s ⟨hf, ht, _⟩ hc
      refine ⟨⟨increaseBody_frame env c2 s hf hc, increaseBody_trial env c s ht,
        Or.inr ?_⟩, ?_⟩
      · have hsd' : s.state_.value - s.ftrial ≥ (-s.c1_) * s.gs := by
          simp only [increaseCond, Bool.and_eq_true, decide_eq_true_eq] at hc
          exact hc.1.1.1
        exact ⟨(CurrentTrial.test_iff env c s ht).1 hsd', CurrentTrial.value env c s ht⟩
      · have hlt : (s.ls_nfval : Int) < s.maxit_ := by
          simp only [increaseCond, Bool.and_eq_true, decide_eq_true_eq] at hc
          exact hc.2
        show (s.maxit_ - ((s.ls_nfval + 1 : Nat) : Int)).toNat < (s.maxit_ - s.ls_nfval).toNat
        omega)
    fuel c2 ⟨SearchFrame.refl c2, htrial, Or.inl ⟨hP, rfl, hsd⟩⟩ hfuel
  refine ⟨r0, hr0, hframe, fun hcmp hinf => ?_⟩
  by_cases hrev : r0.state_.value - r0.ftrial < (-r0.c1_) * r0.gs ∨ r0.ftrial > r0.ftrialP
  · rcases hJ with ⟨hP0, hf0, hsd0⟩ | ⟨hsaved, hval⟩
    · rcases hrev with hlt | hgt
      · exact absurd ((CurrentTrial.test_iff env c r0 htr).1 hsd0)
          ((hcmp _ _ (CurrentTrial.value env c r0 htr)).1
            ((CurrentTrial.negated_iff env c r0 htr).1 hlt))
      · rw [hP0, hf0] at hgt
        exact absurd hgt hinf
    · obtain ⟨hx, hsv, hv, hc1, _⟩ := htr
      have hres : restorePrevious env r0
          = stepOf env (moveIterate env
              { r0 with
                ftrial := r0.ftrialP
                state_ := { r0.state_ with searchSize := r0.alphaP } }) := by
        unfold restorePrevious
        rw [if_pos hrev]
      rw [hres]
      refine ⟨⟨?_, ?_, hval, ⟨r0.obj, rfl⟩, hx, hsv, hv, hc1⟩, hsaved⟩
      · unfold trialPoint
        rw [← hx, ← hsv]
        rfl
      · unfold trialStep trialPoint
        rw [← hx, ← hsv]
        rfl
  · have hres : restorePrevious env r0 = r0 := by
      unfold restorePrevious
      rw [if_neg hrev]
    rw [hres]
    refine ⟨CurrentTrial.accepted env c r0 htr, ?_⟩
    have hnlt : ¬ r0.state_.value - r0.ftrial < (-r0.c1_) * r0.gs :=
      fun hlt => hrev (Or.inl hlt)
    exact Decidable.not_not.1 (fun hns => hnlt ((CurrentTrial.negated_iff env c r0 htr).2
      ((hcmp _ _ (CurrentTrial.value env c r0 htr)).2 hns)))

omit [BEq R] [Div R] in
/-- The backtracking branch (lines 200-222) started in a state `c1` that holds the first
trial of the search begun in `c`: it returns, keeps the frame and ends at an evaluated
trial; and when the test has a definite outcome at every trial, it ends with the
sufficient-decrease test satisfied or with `ls_nfval` having reached `maxit_`. -/
theorem backtrack_branch (env : Env R V O) (c c1 : RunState R V O) (fuel : Nat)
    (htrial : CurrentTrial env c c1)
    (hfuel : (c1.maxit_ - c1.ls_nfval).toNat ≤ fuel) :
    ∃ r, whileLoop backtrackCond (backtrackBody env) fuel c1 = some r
      ∧ SearchFrame c1 r
      ∧ AcceptedTrial env c r
      ∧ (DefiniteTest env c →
          SufficientDecrease env c r.state_.searchSize r.ftrial
          ∨ r.maxit_ ≤ (r.ls_nfval : Int)) := by
  obtain ⟨r, hr, ⟨hframe, htr⟩, hc⟩ := whileLoop_returns backtrackCond (backtrackBody env)
    (fun s => SearchFrame c1 s ∧ CurrentTrial env c s) (fun s => (s.maxit_ - s.ls_nfval).toNat)
    (by
      rintro s ⟨hf, ht⟩ hc
      refine ⟨⟨backtrackBody_frame env c1 s hf hc, backtrackBody_trial env c s ht⟩, ?_⟩
      have hlt : (s.ls_nfval : Int) < s.maxit_ := by
        simp only [backtrackCond, Bool.and_eq_true, decide_eq_true_eq] at hc
        exact hc.2
      show (s.maxit_ - ((s.ls_nfval + 1 : Nat) : Int)).toNat < (s.maxit_ - s.ls_nfval).toNat
      omega)
    fuel c1 ⟨SearchFrame.refl c1, htrial⟩ hfuel
  refine ⟨r, hr, hframe, CurrentTrial.accepted env c r htr, fun hcmp => ?_⟩
  simp only [backtrackCond, Bool.and_eq_false_iff, decide_eq_false_iff_not] at hc
  rcases hc with h | h
  · left
    exact Decidable.not_not.1 (fun hns => h ((CurrentTrial.negated_iff env c r htr).2
      ((hcmp _ _ (CurrentTrial.value env c r htr)).2 hns)))
  · right
    omega

omit [BEq R] [Div R] in
/-- The line search of one pass of the outer loop, with an inner bound of at least `maxit_`:
it returns; parameters, current value and cumulative counters are unchanged; the number of
`obj.value` calls it made is `ls_nfval`, which lies between 1 and `max 1 maxit_`; and, when
the test has a definite outcome at every trial and the first trial value does not exceed
`ROL_INF`, it ends at an accepted trial, with the sufficient-decrease test satisfied or with
`ls_nfval` at `maxit_`, the former always in the step-increase branch. -/
theorem lineSearch_spec (env : Env R V O) (c : RunState R V O) (fuel : Nat)
    (hfuel : c.maxit_.toNat ≤ fuel) :
    ∃ r, lineSearch env fuel c = some r
      ∧ r.state_.nfval = c.state_.nfval ∧ r.state_.ngrad = c.state_.ngrad
      ∧ r.gradientCalls = c.gradientCalls
      ∧ r.valueCalls = c.valueCalls + r.ls_nfval
      ∧ 1 ≤ r.ls_nfval ∧ (r.ls_nfval : Int) ≤ max 1 c.maxit_
      ∧ (DefiniteTest env c → ¬ (firstTrial env c).ftrial > env.ROL_INF →
          AcceptedTrial env c r
          ∧ (SufficientDecrease env c r.state_.searchSize r.ftrial
              ∨ c.maxit_ ≤ (r.ls_nfval : Int))
          ∧ ((firstTrial env c).incAlpha = true → c.useAdapt_ = true →
              SufficientDecrease env c r.state_.searchSize r.ftrial)) := by
  obtain ⟨f1, f2, f3, f4, f5, f6, f7, f8, f9, f10, f11, f12⟩ := firstTrial_spec env c
  have hm : ((firstTrial env c).maxit_ - (firstTrial env c).ls_nfval).toNat ≤ fuel := by
    rw [f1, f10]; omega
  by_cases hbranch : ((firstTrial env c).incAlpha && (firstTrial env c).useAdapt_) = true
  · have hinc : (firstTrial env c).incAlpha = true := by
      simp only [Bool.and_eq_true] at hbranch; exact hbranch.1
    have htrial2 : CurrentTrial env c
        ({ firstTrial env c with ftrialP := env.ROL_INF } : RunState R V O) := f11
    obtain ⟨r0, hr0, hframe, hsd⟩ := increase_branch env c
      ({ firstTrial env c with ftrialP := env.ROL_INF } : RunState R V O) fuel htrial2 hm rfl
      (f12.1 hinc)
    obtain ⟨p1, _, p3, p4, p5, p6, p7, p8⟩ := restorePrevious_spec env r0
    obtain ⟨g1, _, _, _, g5, g6, g7, g8, g9, g10⟩ := hframe
    refine ⟨restorePrevious env r0, ?_, ?_, ?_, ?_, ?_, ?_, ?_, ?_⟩
    · unfold lineSearch
      simp only [hbranch, if_true, hr0, Option.map_some']
    · rw [p4, g5]; exact f6
    · rw [p5, g6]; exact f7
    · rw [p6, g7]; exact f8
    · rw [p7, p8]
      have h1 : r0.valueCalls + 1 = c.valueCalls + 1 + r0.ls_nfval := by
        have := g8
        simp only [f9, f10] at this
        exact this
      omega
    · rw [p8]
      have : 1 ≤ r0.ls_nfval := by
        have := g9
        simp only [f10] at this
        exact this
      exact this
    · rw [p8]
      have := g10
      simp only [f10, f1] at this
      simpa using this
    · intro hcmp hinf
      obtain ⟨hacc, hdec⟩ := hsd hcmp hinf
      exact ⟨hacc, Or.inl hdec, fun _ _ => hdec⟩
  · obtain ⟨r, hr, hframe, hacc, hend⟩ := backtrack_branch env c (firstTrial env c) fuel f11 hm
    obtain ⟨g1, _, _, _, g5, g6, g7, g8, g9, g10⟩ := hframe
    refine ⟨r, ?_, ?_, ?_, ?_, ?_, ?_, ?_, ?_⟩
    · unfold lineSearch
      simp only [hbranch]
      exact hr
    · rw [g5]; exact f6
    · rw [g6]; exact f7
    · rw [g7]; exact f8
    · rw [f9, f10] at g8
      omega
    · rw [f10] at g9; exact g9
    · rw [f10, f1] at g10
      simpa using g10
    · intro hcmp _
      refine ⟨hacc, ?_, fun hinc hadapt => ?_⟩
      · rcases hend hcmp with h | h
        · exact Or.inl h
        · right
          rw [g1, f1] at h
          exact h
      · exfalso
        apply hbranch
        simp [hinc, f4, hadapt]

end LineSearchTheorems

section ClaimTheorems

variable {R V O : Type} [LT R] [LE R] [DecidableRel (LT.lt : R → R → Prop)]
  [DecidableRel (LE.le : R → R → Prop)] [BEq R] [Mul R] [Sub R] [Neg R] [Div R]

/-- C11: the counters reported as `#fval` and `#grad` are cumulative evaluation counts.
`initialize` makes 1 call of `obj.value` when `useralpha_` is true and 2 otherwise, and one
call of `obj.gradient`, and leaves `nfval` and `ngrad` larger by exactly these numbers than
the base-class `Algorithm_B::initialize(x, g)` handed them over (hence larger than at entry
when the base class does not touch them).  Every pass of the outer loop of `run` (inner
loops bounded by at least `maxit_`) returns, increases `nfval` by exactly the number `n` of
`obj.value` calls of its line search and increases `ngrad` by exactly 1, for its one call of
`obj.gradient`. -/
theorem counters_cumulative (env : Env R V O) (c : RunState R V O) (g : V) :
    ((initialize_B env c g).valueCalls = c.valueCalls + (if c.useralpha_ then 1 else 2)
      ∧ (initialize_B env c g).state_.nfval
          = (env.baseInitialize c.state_ c.x g).nfval + (if c.useralpha_ then 1 else 2)
      ∧ (initialize_B env c g).gradientCalls = c.gradientCalls + 1
      ∧ (initialize_B env c g).state_.ngrad = (env.baseInitialize c.state_ c.x g).ngrad + 1
      ∧ ((env.baseInitialize c.state_ c.x g).nfval = c.state_.nfval →
          (env.baseInitialize c.state_ c.x g).ngrad = c.state_.ngrad →
          (initialize_B env c g).state_.nfval
              = c.state_.nfval + (if c.useralpha_ then 1 else 2)
            ∧ (initialize_B env c g).state_.ngrad = c.state_.ngrad + 1))
    ∧ ∀ fuel, c.maxit_.toNat ≤ fuel →
        ∃ c' n, outerIteration env fuel c = some c'
          ∧ c'.valueCalls = c.valueCalls + n
          ∧ c'.state_.nfval = c.state_.nfval + n
          ∧ c'.gradientCalls = c.gradientCalls + 1
          ∧ c'.state_.ngrad = c.state_.ngrad + 1 := by
  have hinit : (initialize_B env c g).valueCalls = c.valueCalls + (if c.useralpha_ then 1 else 2)
      ∧ (initialize_B env c g).state_.nfval
          = (env.baseInitialize c.state_ c.x g).nfval + (if c.useralpha_ then 1 else 2)
      ∧ (initialize_B env c g).gradientCalls = c.gradientCalls + 1
      ∧ (initialize_B env c g).state_.ngrad = (env.baseInitialize c.state_ c.x g).ngrad + 1 := by
    unfold initialize_B evalProjectedStep
    cases hu : c.useralpha_ <;> simp
  refine ⟨⟨hinit.1, hinit.2.1, hinit.2.2.1, hinit.2.2.2, fun h1 h2 => ?_⟩, ?_⟩
  · rw [← h1, ← h2]
    exact ⟨hinit.2.1, hinit.2.2.2⟩
  · intro fuel hfuel
    obtain ⟨r, hr, h1, h2, h3, h4, _⟩ := lineSearch_spec env c fuel hfuel
    refine ⟨finishIteration env r, r.ls_nfval, ?_, ?_, ?_, ?_, ?_⟩
    · unfold outerIteration
      rw [hr]
      rfl
    · show r.valueCalls = c.valueCalls + r.ls_nfval
      exact h4
    · show r.state_.nfval + r.ls_nfval = c.state_.nfval + r.ls_nfval
      rw [h1]
    · show r.gradientCalls + 1 = c.gradientCalls + 1
      rw [h3]
    · show r.state_.ngrad + 1 = c.state_.ngrad + 1
      rw [h2]

omit [BEq R] [Div R] in
/-- C12: the line search respects the "Function Evaluation Limit": for `maxit_ >= 1`, in every
pass of the outer loop both inner loops terminate (with any bound of at least `maxit_`
passes the line search returns), and the number `ls_nfval` of objective evaluations made by
the line search (it equals the number of `obj.value` calls) satisfies
`1 <= ls_nfval <= maxit_`. -/
theorem lineSearch_evaluation_limit (env : Env R V O) (c : RunState R V O) (fuel : Nat)
    (hmaxit : 1 ≤ c.maxit_) (hfuel : c.maxit_.toNat ≤ fuel) :
    ∃ r, lineSearch env fuel c = some r
      ∧ r.valueCalls = c.valueCalls + r.ls_nfval
      ∧ 1 ≤ r.ls_nfval ∧ (r.ls_nfval : Int) ≤ c.maxit_ := by
  obtain ⟨r, hr, _, _, _, h4, h5, h6, _⟩ := lineSearch_spec env c fuel hfuel
  refine ⟨r, hr, h4, h5, ?_⟩
  rw [max_eq_right hmaxit] at h6
  exact h6

end ClaimTheorems

/-- Instance of C11: with no user-defined initial step size `initialize` makes two objective
evaluations and one gradient evaluation; and the first pass of the outer loop, run on
`f(x) = -x` from `x = 0` with initial step size 3/4, adds as many to `nfval` as it calls
`obj.value`. -/
theorem counters_cumulative_witness :
    ((initialize_B (Examples.env 1) (Examples.start 1 1 false) 0).valueCalls = 0 + 2
      ∧ (initialize_B (Examples.env 1) (Examples.start 1 1 false) 0).state_.nfval = 0 + 2
      ∧ (initialize_B (Examples.env 1) (Examples.start 1 1 false) 0).state_.ngrad = 0 + 1)
    ∧ ∃ c' n, outerIteration (Examples.env 1) 20 (Examples.atFirstPass (3 / 4) 1 true) = some c'
        ∧ c'.valueCalls = (Examples.atFirstPass (3 / 4) 1 true).valueCalls + n
        ∧ c'.state_.nfval = (Examples.atFirstPass (3 / 4) 1 true).state_.nfval + n
        ∧ c'.gradientCalls = (Examples.atFirstPass (3 / 4) 1 true).gradientCalls + 1
        ∧ c'.state_.ngrad = (Examples.atFirstPass (3 / 4) 1 true).state_.ngrad + 1 :=
  ⟨⟨(counters_cumulative (Examples.env 1) (Examples.start 1 1 false) 0).1.1,
      (counters_cumulative (Examples.env 1) (Examples.start 1 1 false) 0).1.2.1,
      (counters_cumulative (Examples.env 1) (Examples.start 1 1 false) 0).1.2.2.2.1⟩,
    (counters_cumulative (Examples.env 1) (Examples.atFirstPass (3 / 4) 1 true) 0).2 20
      (by decide)⟩

/-- Instance of C12: the first line search of the run on `f(x) = -x` with the default limit
of 20 evaluations. -/
theorem lineSearch_evaluation_limit_witness :
    (1 : Int) ≤ (Examples.atFirstPass (3 / 4) 1 true).maxit_
    ∧ ∃ r, lineSearch (Examples.env 1) 20 (Examples.atFirstPass (3 / 4) 1 true) = some r
      ∧ r.valueCalls = (Examples.atFirstPass (3 / 4) 1 true).valueCalls + r.ls_nfval
      ∧ 1 ≤ r.ls_nfval
      ∧ (r.ls_nfval : Int) ≤ (Examples.atFirstPass (3 / 4) 1 true).maxit_ :=
  ⟨by decide,
    lineSearch_evaluation_limit (Examples.env 1) (Examples.atFirstPass (3 / 4) 1 true) 20
      (by decide) (by decide)⟩

/-- C13 (evaluated at a failing input): `run` on `f(x) = -x` over `[-100, 100]` from `x = 0`
with "Initial Step Size" 3/4 supplied by the user, "Maximum Step Size" 1 and the default
"Increase Rate" 2.  The first pass of the outer loop begins with `searchSize = 3/4 <= 1`,
and its line search accepts the step size `3/2`, which exceeds `maxAlpha_ = 1`: the guard
`searchSize < maxAlpha_` of line 165 is tested before the multiplication of line 169. -/
theorem lineSearch_exceeds_maxAlpha :
    (Examples.atFirstPass (3 / 4) 1 true).rhoinc_ > 1
    ∧ (Examples.atFirstPass (3 / 4) 1 true).state_.searchSize
        ≤ (Examples.atFirstPass (3 / 4) 1 true).maxAlpha_
    ∧ (lineSearch (Examples.env 1) 20 (Examples.atFirstPass (3 / 4) 1 true)).map
        (fun r => (r.state_.searchSize, r.maxAlpha_, r.ls_nfval)) = some (3 / 2, 1, 2)
    ∧ (run (Examples.env 1) 20 1 0 (Examples.start (3 / 4) 1 true) 0).map
        (fun r => (r.state_.searchSize, r.maxAlpha_, r.state_.iter)) = some (3 / 2, 1, 1)
    ∧ ¬ ((3 / 2 : ℚ) ≤ 1) := by
  refine ⟨?_, ?_, ?_, ?_, ?_⟩ <;> decide!

end ROL
